import Mathlib

/-!
# MotionSymphony: the motion-matching node

A shallow embedding of `FAnimNode_MotionMatching`
(`Source/MotionSymphony/Private/AnimGraph/AnimNode_MotionMatching.cpp`): the pose-cost
search, the next-pose tolerance test, the winner-suppression check of
`SchedulePoseSearch`, the blend-channel pool, the interpolation of the current pose, the
mode state machine (MotionMatching, DistanceMatching, Action), the validation and
initialization of the node, its tick, and the evaluation of the pool; and of the tick of the
stand-alone `FAnimNode_DistanceMatching`
(`Source/MotionSymphony/Private/AnimGraph/AnimNode_DistanceMatching.cpp`).

Conventions of the embedding:

* `float` values are rationals (`ℚ`), `int32` values are integers (`Int`).  `RoundToFloat` is
  the rounding of a real result to binary32, and a decimal literal such as `0.05f` is
  `RoundToFloat (5 / 100)`.  The timers of the tick, the tests of the mode state machine, the
  removal threshold of the pool, the time test of the winner suppression, the trajectory
  blending and the section costs of the distance-match entry are in `float` arithmetic.  The
  cost sums of the pose searches and of the action entry and the interpolation of the
  current pose are in exact arithmetic; `LinearStep_Float` and `FilteredStep_Float` are the
  two search loops in `float` arithmetic.  The engine's vector operations are exact, and
  overflow is outside the embedding.
* A `TArray` is a `List`.  In the cost loops the feature arrays of a pose (trajectory points,
  joint data, weight sets) are read with a default element outside their range.  The pose
  array and the source-asset arrays, and the trajectory arrays in the trajectory blending
  and in the copy of the past trajectory, are read through `Option`: an out-of-range index
  makes the operation return `none`.
* The engine's math helpers (`FMath`, `FVector`) are written out from their engine
  definitions.
* A pointer that the node tests for null is an `Option`, or a flag next to the value
  (`MotionDataIsNull`, `MotionMatchConfigIsNull`); a dereferenced null pointer makes the
  operation return `none`.
* Members of the repository whose bodies are not among the sources are parameters of the
  node's operations (`FAnimChannelOps`, `FRepositoryOps`, `FDistanceMatchingHost`); the
  concrete scenarios use the models `SpecChannelOps` and `SpecRepositoryOps`.
-/

namespace MotionSymphony

/-! ## Engine math -/

/-- Engine `FVector`: three float components. -/
structure FVector where
  X : ℚ
  Y : ℚ
  Z : ℚ
deriving DecidableEq, Inhabited

/-- Engine `FVector2D`. -/
structure FVector2D where
  X : ℚ
  Y : ℚ
deriving DecidableEq, Inhabited

/-- Engine `FVector::operator-`. -/
def FVector.sub (a b : FVector) : FVector :=
  ⟨a.X - b.X, a.Y - b.Y, a.Z - b.Z⟩

/-- Engine `FVector::SizeSquared`. -/
def FVector.SizeSquared (a : FVector) : ℚ :=
  a.X * a.X + a.Y * a.Y + a.Z * a.Z

/-- Engine `FVector::DistSquared`. -/
def FVector.DistSquared (a b : FVector) : ℚ :=
  (b.X - a.X) * (b.X - a.X) + (b.Y - a.Y) * (b.Y - a.Y) + (b.Z - a.Z) * (b.Z - a.Z)

/-- Engine `FVector2D::DistSquared`. -/
def FVector2D.DistSquared (a b : FVector2D) : ℚ :=
  (b.X - a.X) * (b.X - a.X) + (b.Y - a.Y) * (b.Y - a.Y)

/-- Engine `FMath::FindDeltaAngleDegrees(A1, A2)`: the difference `A2 - A1`, brought back by
one turn when it leaves `[-180, 180]`. -/
def FindDeltaAngleDegrees (A1 A2 : ℚ) : ℚ :=
  let Delta := A2 - A1
  if Delta > 180 then Delta - 360
  else if Delta < -180 then Delta + 360
  else Delta

/-- Engine `FMath::Clamp` on `int32`: `X < Min ? Min : (X < Max ? X : Max)`. -/
def ClampInt (X Min Max : Int) : Int :=
  if X < Min then Min else if X < Max then X else Max

/-- Round to nearest, ties to even, of the non-negative rational `Num / Den` (`Den`
positive). -/
def RoundHalfEven (Num Den : Nat) : Nat :=
  let Quotient := Num / Den
  let Twice := 2 * (Num % Den)
  if Twice < Den then Quotient
  else if Twice > Den then Quotient + 1
  else if Quotient % 2 = 0 then Quotient else Quotient + 1

/-- Loop of `FloorLog2`, on a bound for the number of halvings. -/
def FloorLog2Loop : Nat → Nat → Nat
  | 0, _ => 0
  | Fuel + 1, N => if N < 2 then 0 else FloorLog2Loop Fuel (N / 2) + 1

/-- The position of the leading bit of `N`: the floor of its binary logarithm (0 for 0). -/
def FloorLog2 (N : Nat) : Nat := FloorLog2Loop N N

/-- The exponent of the unit in the last place of the `float` (IEEE 754 binary32) nearest to
the positive rational `Num / Den`: 23 below the exponent of the value, and -149 in the
subnormal range. -/
def FloatUlpExponent (Num Den : Nat) : Int :=
  let e0 : Int := (FloorLog2 Num : Int) - (FloorLog2 Den : Int)
  let AtLeast : Bool :=
    if e0 ≥ 0 then decide (Den * 2 ^ e0.toNat ≤ Num) else decide (Den ≤ Num * 2 ^ (-e0).toNat)
  let e := if AtLeast then e0 else e0 - 1
  max (e - 23) (-149)

/-- The `float` (IEEE 754 binary32) that a real result is stored as: round to nearest, ties to
even, with a 24-bit significand and gradual underflow.  It is also the value of a decimal
literal of the source, such as `0.05f`.  Overflow to infinity is outside the embedding. -/
def RoundToFloat (x : ℚ) : ℚ :=
  if x = 0 then 0
  else
    let s := FloatUlpExponent x.num.natAbs x.den
    let Magnitude : ℚ :=
      if s ≥ 0 then
        ((RoundHalfEven x.num.natAbs (x.den * 2 ^ s.toNat) * 2 ^ s.toNat : Nat) : ℚ)
      else mkRat (RoundHalfEven (x.num.natAbs * 2 ^ (-s).toNat) x.den) (2 ^ (-s).toNat)
    if x < 0 then -Magnitude else Magnitude

/-! ## Pose database records -/

/-- Modelled from the spec: `FTrajectoryPoint` (its declaration is not among the sources), a
trajectory sample "position + facing angle"; the fields are the ones the node reads. -/
structure FTrajectoryPoint where
  Position : FVector
  RotationZ : ℚ
deriving DecidableEq, Inhabited

/-- Modelled from the spec: `FJointData` (its declaration is not among the sources), a
per-joint feature "local position + velocity". -/
structure FJointData where
  Position : FVector
  Velocity : FVector
deriving DecidableEq, Inhabited

/-- Modelled from the spec: `FTrajectoryWeightSet` (declaration not among the sources), the
per-trajectory-point weights the search reads. -/
structure FTrajectoryWeightSet where
  Weight_Pos : ℚ
  Weight_Facing : ℚ
deriving DecidableEq, Inhabited

/-- Modelled from the spec: `FJointWeightSet` (declaration not among the sources), the
per-joint weights the search reads. -/
structure FJointWeightSet where
  Weight_Pos : ℚ
  Weight_Vel : ℚ
deriving DecidableEq, Inhabited

/-- Modelled from the spec: `FCalibrationData` (declaration not among the sources), the
per-trait weight set; the fields are the ones the node reads. -/
structure FCalibrationData where
  Weight_Momentum : ℚ
  Weight_AngularMomentum : ℚ
  TrajectoryWeights : List FTrajectoryWeightSet
  PoseJointWeights : List FJointWeightSet
deriving DecidableEq, Inhabited

/-- Modelled from the spec: `EMotionAnimAssetType` (declaration not among the sources), the
source animation type "plain sequence | parametric blend space | composite"; `None` stands
for every value that reaches the `default:` label of the node's switches. -/
inductive EMotionAnimAssetType where
  | None
  | Sequence
  | BlendSpace
  | Composite
deriving DecidableEq, Inhabited

/-- Modelled from the spec: `FPoseMotionData` (declaration not among the sources), one pose of
the database; the fields are the ones the node reads.  `Traits` is the opaque trait tag. -/
structure FPoseMotionData where
  PoseId : Int
  AnimType : EMotionAnimAssetType
  AnimId : Int
  Time : ℚ
  bMirrored : Bool
  BlendSpacePosition : FVector2D
  NextPoseId : Int
  LastPoseId : Int
  bDoNotUse : Bool
  Traits : Nat
  Favour : ℚ
  LocalVelocity : FVector
  RotationalVelocity : ℚ
  Trajectory : List FTrajectoryPoint
  JointData : List FJointData
deriving DecidableEq, Inhabited

/-! ## Cost helpers of `FMotionMatchingUtils` -/

/-- One trajectory sample's contribution, the body of the trajectory loop that
`GetLowestCostPoseId(NextPose)` inlines, without the override multiplier. -/
def TrajectoryPointCost (Current Candidate : List FTrajectoryPoint)
    (Calibration : FCalibrationData) (i : Nat) : ℚ :=
  let WeightSet := Calibration.TrajectoryWeights.getD i default
  let CurrentPoint := Current.getD i default
  let CandidatePoint := Candidate.getD i default
  FVector.DistSquared CandidatePoint.Position CurrentPoint.Position * WeightSet.Weight_Pos
    + |FindDeltaAngleDegrees CandidatePoint.RotationZ CurrentPoint.RotationZ|
        * WeightSet.Weight_Facing

/-- One joint's contribution, the body of the joint loop that
`GetLowestCostPoseId(NextPose)` inlines, without the override multiplier. -/
def JointCost (Current Candidate : List FJointData)
    (Calibration : FCalibrationData) (i : Nat) : ℚ :=
  let WeightSet := Calibration.PoseJointWeights.getD i default
  let CurrentJoint := Current.getD i default
  let CandidateJoint := Candidate.getD i default
  FVector.DistSquared CurrentJoint.Velocity CandidateJoint.Velocity * WeightSet.Weight_Vel
    + FVector.DistSquared CurrentJoint.Position CandidateJoint.Position * WeightSet.Weight_Pos

/-- Modelled from the spec: `FMotionMatchingUtils::ComputeTrajectoryCost` (its body is not
among the sources), the sum `Σ_i (W_trajPos_i·|ΔtrajPos_i|² + W_trajFacing_i·|angleDelta_i|)`
of the cost formula, over the samples the filtered strategy's inlined loop visits
(`min(Current.Num(), TrajectoryWeights.Num())` of them). -/
def ComputeTrajectoryCost (Current Candidate : List FTrajectoryPoint)
    (Calibration : FCalibrationData) : ℚ :=
  (List.range (min Current.length Calibration.TrajectoryWeights.length)).foldl
    (fun Cost i => Cost + TrajectoryPointCost Current Candidate Calibration i) 0

/-- Modelled from the spec: `FMotionMatchingUtils::ComputePoseCost` (its body is not among the
sources), the sum `Σ_j (W_jointVel_j·|ΔjointVel_j|² + W_jointPos_j·|ΔjointPos_j|²)` of the
cost formula, over the joints the filtered strategy's inlined loop visits
(`Current.Num()` of them). -/
def ComputePoseCost (Current Candidate : List FJointData)
    (Calibration : FCalibrationData) : ℚ :=
  (List.range Current.length).foldl
    (fun Cost i => Cost + JointCost Current Candidate Calibration i) 0

/-! ## Blend channels and source assets -/

/-- Modelled from the spec: `EBlendStatus` (declaration not among the sources), the channel
status "dominant | chosen | decaying"; the members are the ones the node names. -/
inductive EBlendStatus where
  | Dominant
  | Chosen
  | Decay
deriving DecidableEq, Inhabited

/-- Engine `FBlendSampleData`: one cached blend-space sample of a channel. -/
structure FBlendSampleData where
  SampleDataIndex : Int
  TotalWeight : ℚ
  Time : ℚ
deriving DecidableEq, Inhabited

/-- Modelled from the spec: `FAnimChannelState` (declaration not among the sources), one
in-flight playback instance: "target pose id, owning animation-source reference, elapsed age,
current sample time within its clip, current blend weight, decay/blend status, loop flag, play
rate, mirrored flag, and a cached per-sample weight array"; the fields are the ones the node
reads. -/
structure FAnimChannelState where
  Weight : ℚ
  AnimId : Int
  AnimType : EMotionAnimAssetType
  StartPoseId : Int
  StartTime : ℚ
  Age : ℚ
  AnimTime : ℚ
  BlendStatus : EBlendStatus
  bLoop : Bool
  PlayRate : ℚ
  bMirrored : Bool
  AnimLength : ℚ
  BlendSampleDataCache : List FBlendSampleData
deriving DecidableEq, Inhabited

/-- The two members of `FAnimChannelState` that the node calls and whose bodies are not among
the sources, taken as parameters of the node's operations:
`Construct Pose BlendStatus Weight AnimLength bLoop PlayRate bMirrored TimeSinceMotionChosen
TimeOffset` is the constructor call of `JumpToPose` and `BlendToPose`, and
`Update Channel DeltaTime BlendTime bCurrent PlaybackRate` is the call of `UpdateBlending`,
giving the channel after the tick and the weight the call returns. -/
structure FAnimChannelOps where
  Construct : FPoseMotionData → EBlendStatus → ℚ → ℚ → Bool → ℚ → Bool → ℚ → ℚ →
    FAnimChannelState
  Update : FAnimChannelState → ℚ → ℚ → Bool → ℚ → FAnimChannelState × ℚ

/-- Modelled from the spec: the constructor of `FAnimChannelState` (body not among the
sources).  The channel plays the source of its target pose: the pose's id, source reference
and "time offset within that source" are recorded, the sample time starts at "a fixed time
offset from the pose's natural playback position", and status, weight, clip length, loop
flag, play rate and mirrored flag are the arguments.  The spec does not say how the eighth
argument (the elapsed time since the motion was chosen) enters: it is taken as the channel's
elapsed age. -/
def FAnimChannelState.Construct (Pose : FPoseMotionData) (BlendStatus : EBlendStatus)
    (Weight AnimLength : ℚ) (bLoop : Bool) (PlayRate : ℚ) (bMirrored : Bool)
    (TimeSinceMotionChosen TimeOffset : ℚ) : FAnimChannelState :=
  { Weight := Weight, AnimId := Pose.AnimId, AnimType := Pose.AnimType,
    StartPoseId := Pose.PoseId, StartTime := Pose.Time, Age := TimeSinceMotionChosen,
    AnimTime := Pose.Time + TimeOffset, BlendStatus := BlendStatus, bLoop := bLoop,
    PlayRate := PlayRate, bMirrored := bMirrored, AnimLength := AnimLength,
    BlendSampleDataCache := [] }

/-- Modelled from the spec: `FAnimChannelState::Update` (body not among the sources).  Every
tick mutates "age, weight, time advance": the age grows by the tick, the sample time by the
tick scaled with the play rates, the weight of the current channel is kept and the weight of
every other channel decays as `1 - age/blendDuration`.  The call returns the weight. -/
def FAnimChannelState.Update (Channel : FAnimChannelState) (DeltaTime BlendTime : ℚ)
    (bCurrent : Bool) (PlaybackRate : ℚ) : FAnimChannelState × ℚ :=
  let Age := Channel.Age + DeltaTime
  let Weight := if bCurrent then Channel.Weight else 1 - Age / BlendTime
  ({ Channel with
      Age := Age
      AnimTime := Channel.AnimTime + DeltaTime * Channel.PlayRate * PlaybackRate
      Weight := Weight }, Weight)

/-- Modelled from the spec: the channel members as the spec describes them, for the concrete
scenarios. -/
def SpecChannelOps : FAnimChannelOps :=
  ⟨FAnimChannelState.Construct, FAnimChannelState.Update⟩

/-- Engine `UAnimSequenceBase` (also standing for `UAnimSequence` and `UAnimComposite`): the
play length and rate scale the node reads from a clip. -/
structure UAnimSequenceBase where
  PlayLength : ℚ
  RateScale : ℚ
deriving DecidableEq, Inhabited

/-- Engine `UAnimSequenceBase::GetPlayLength`. -/
def UAnimSequenceBase.GetPlayLength (a : UAnimSequenceBase) : ℚ := a.PlayLength

/-- Engine `UBlendSpaceBase`: `GetSamplesFromBlendInput` gives the sample list that the engine
call writes into the cache it is handed. -/
structure UBlendSpaceBase where
  GetSamplesFromBlendInput : FVector → List FBlendSampleData

/-- Modelled from the spec: `FMotionAnimSequence` (declaration not among the sources), a
sequence source of the database; `Sequence` is `none` for a null asset pointer. -/
structure FMotionAnimSequence where
  Sequence : Option UAnimSequenceBase
  bLoop : Bool
  PlayRate : ℚ
deriving DecidableEq, Inhabited

/-- Modelled from the spec: `FMotionBlendSpace` (declaration not among the sources), a blend
space source of the database; `BlendSpace` is `none` for a null asset pointer and `PlayLength`
is the value of its `GetPlayLength()`. -/
structure FMotionBlendSpace where
  BlendSpace : Option UBlendSpaceBase
  bLoop : Bool
  PlayRate : ℚ
  PlayLength : ℚ

/-- Modelled from the spec: `FMotionComposite` (declaration not among the sources), a composite
source of the database; `AnimComposite` is `none` for a null asset pointer. -/
structure FMotionComposite where
  AnimComposite : Option UAnimSequenceBase
  bLoop : Bool
  PlayRate : ℚ
deriving DecidableEq, Inhabited

/-- Modelled from the spec: `UMotionMatchConfig` (declaration not among the sources); the node
reads the prediction-time offset of each trajectory sample and the pose bones (each by its
`BoneIndex`) from it. -/
structure UMotionMatchConfig where
  TrajectoryTimes : List ℚ
  PoseBones : List Int := []
deriving DecidableEq, Inhabited

/-- Modelled from the spec: `FMotionAction` (declaration not among the sources), an entry of
the database's action table: the action id, the pose at which the action happens and its time
in the clip. -/
structure FMotionAction where
  ActionId : Int
  PoseId : Int
  Time : ℚ
deriving DecidableEq, Inhabited

/-- Modelled from the spec: `EDistanceMatchType` (declaration not among the sources); the nodes
name only `None` and `Forward`, and `Other` stands for every other member. -/
inductive EDistanceMatchType where
  | None
  | Forward
  | Other (Member : Nat)
deriving DecidableEq, Inhabited

/-- Modelled from the spec: `FDistanceMatchSection` (declaration not among the sources), a
distance-match section: its first pose, its end time, and its marker-distance curve, taken
through the lookup `FindMatchingTime(MarkerDistance, LastKeyChecked)`, whose body is not among
the sources: the value is the matched time and the key index the call leaves in its
reference argument. -/
structure FDistanceMatchSection where
  StartPoseId : Int
  EndTime : ℚ
  FindMatchingTime : ℚ → Int → ℚ × Int

/-- Modelled from the spec: `FDistanceMatchGroup` (declaration not among the sources), the
sections of one (match type, match basis). -/
structure FDistanceMatchGroup where
  DistanceMatchSections : List FDistanceMatchSection

/-- Modelled from the spec: `UMotionCalibration` (declaration not among the sources), the
user-authored base weights. -/
structure UMotionCalibration where
  BaseWeights : FCalibrationData
deriving DecidableEq, Inhabited

/-- Modelled from the spec: `UMotionDataAsset` (declaration not among the sources), the pose
database with its source clips.  `GetFilteredPoseList` is the answer of the candidate-filter
collaborator (`OptimisationModule->GetFilteredPoseList`), `none` for a null result.
`MotionMatchConfig` is a pointer in the source: `MotionMatchConfigIsNull` stands for the null
pointer, and the `MotionMatchConfig` field is then not to be read.  `bOptimisationValid` is the
value of `IsOptimisationValid()`.  `DistanceMatchSections` is the map keyed by
`FDistanceMatchIdentifier(MatchType, MatchBasis)` (`none`: no such key) and
`FeatureStandardDeviations` the trait-keyed map, as the list of its pairs. -/
structure UMotionDataAsset where
  Poses : List FPoseMotionData
  PoseInterval : ℚ
  MotionMatchConfig : UMotionMatchConfig
  SourceMotionAnims : List FMotionAnimSequence
  SourceBlendSpaces : List FMotionBlendSpace
  SourceComposites : List FMotionComposite
  GetFilteredPoseList : FPoseMotionData → Nat → FCalibrationData → Option (List FPoseMotionData)
  MotionMatchConfigIsNull : Bool := false
  bIsProcessed : Bool := true
  bOptimisationValid : Bool := false
  Actions : List FMotionAction := []
  DistanceMatchSections : EDistanceMatchType → Nat → Option FDistanceMatchGroup :=
    fun _ _ => none
  FeatureStandardDeviations : List (Nat × FCalibrationData) := []
  PreprocessCalibration : Option UMotionCalibration := none

/-- Checked read `Items[Index]` of a `TArray` with an `int32` index: `none` when the index is
outside `[0, Num)`, where the engine's range check stops the program. -/
def TArrayAt {α : Type} (Items : List α) (Index : Int) : Option α :=
  if Index < 0 then none else Items.get? Index.toNat

/-- Modelled from the spec: `UMotionDataAsset::GetSourceAnimAtIndex` (body not among the
sources), the sequence source with the given index. -/
def UMotionDataAsset.GetSourceAnimAtIndex (d : UMotionDataAsset) (AnimId : Int) :
    Option FMotionAnimSequence :=
  TArrayAt d.SourceMotionAnims AnimId

/-- Modelled from the spec: `UMotionDataAsset::GetSourceBlendSpaceAtIndex` (body not among the
sources), the blend space source with the given index. -/
def UMotionDataAsset.GetSourceBlendSpaceAtIndex (d : UMotionDataAsset) (AnimId : Int) :
    Option FMotionBlendSpace :=
  TArrayAt d.SourceBlendSpaces AnimId

/-- Modelled from the spec: `UMotionDataAsset::GetSourceCompositeAtIndex` (body not among the
sources), the composite source with the given index. -/
def UMotionDataAsset.GetSourceCompositeAtIndex (d : UMotionDataAsset) (AnimId : Int) :
    Option FMotionComposite :=
  TArrayAt d.SourceComposites AnimId

/-! ## The node -/

/-- Modelled from the spec: `EPoseMatchMethod` (declaration not among the sources). -/
inductive EPoseMatchMethod where
  | Optimized
  | Linear
deriving DecidableEq, Inhabited

/-- Modelled from the spec: `ETransitionMethod` (declaration not among the sources): cut,
crossfade, or cut with a request to the inertialization collaborator. -/
inductive ETransitionMethod where
  | None
  | Blend
  | Inertialization
deriving DecidableEq, Inhabited

/-- Modelled from the spec: `EMotionMatchingMode` (declaration not among the sources). -/
inductive EMotionMatchingMode where
  | MotionMatching
  | DistanceMatching
  | Action
deriving DecidableEq, Inhabited

/-- Modelled from the spec: `FTrajectory` (declaration not among the sources), the desired
trajectory handed to the node. -/
structure FTrajectory where
  TrajectoryPoints : List FTrajectoryPoint
deriving DecidableEq, Inhabited

/-- Modelled from the spec: `EPastTrajectoryMode` (declaration not among the sources). -/
inductive EPastTrajectoryMode where
  | ActualHistory
  | CopyFromCurrentPose
deriving DecidableEq, Inhabited

/-- Modelled from the spec: the distance-match payload (declaration not among the sources):
"a non-None match type and a trigger flag", the matching basis and the marker distance. -/
structure FDistanceMatchPayload where
  bTrigger : Bool := false
  MatchType : EDistanceMatchType := EDistanceMatchType.None
  MatchBasis : Nat := 0
  MarkerDistance : ℚ := 0
deriving DecidableEq, Inhabited

/-- Modelled from the spec: the action payload (declaration not among the sources): the
requested action id (negative: no action) and the lead and tail lengths. -/
structure FMotionActionPayload where
  ActionId : Int := -1
  LeadLength : ℚ := 0
  TailLength : ℚ := 0
deriving DecidableEq, Inhabited

/-- `FCachedMotionBone` of `AnimNode_MotionRecorder.h`; of the transform only the location,
`Transform.GetLocation()`, is read by the node. -/
structure FCachedMotionBone where
  Location : FVector
  Velocity : FVector
deriving DecidableEq, Inhabited

/-- `FCachedMotionPose` of `AnimNode_MotionRecorder.h`: the bone-keyed map of cached bones, as
the list of its pairs. -/
structure FCachedMotionPose where
  PoseDeltaTime : ℚ := 0
  CachedBoneData : List (Int × FCachedMotionBone) := []
deriving DecidableEq, Inhabited

/-- Read `Map[Key]` of a `TMap`: `none` when the key is absent, where the engine's check stops
the program. -/
def TMapAt {α : Type} (Map : List (Int × α)) (Key : Int) : Option α :=
  (Map.find? (fun Pair => Pair.1 == Key)).map (fun Pair => Pair.2)

/-- State of `FAnimNode_MotionMatching`: the members the embedded operations read or write.
The defaults are the values of the constructor's initializer list.  `FinalCalibrationSets` is
the trait-keyed map (`none`: the map does not contain the key).  `MotionData` is a pointer in
the source: `MotionDataIsNull` stands for the null pointer, and the `MotionData` field is then
not to be read.  `UserCalibration` and `ActiveDistanceMatchSection` are `none` for a null
pointer. -/
structure FAnimNode_MotionMatching where
  MotionData : UMotionDataAsset
  UpdateInterval : ℚ := 1 / 10
  PlaybackRate : ℚ := 1
  BlendTime : ℚ := 3 / 10
  OverrideQualityVsResponsivenessRatio : ℚ := 1 / 2
  bBlendOutEarly : Bool := true
  PoseMatchMethod : EPoseMatchMethod := EPoseMatchMethod.Optimized
  TransitionMethod : ETransitionMethod := ETransitionMethod.Inertialization
  bBlendTrajectory : Bool := false
  TrajectoryBlendMagnitude : ℚ := 1
  bFavourCurrentPose : Bool := false
  CurrentPoseFavour : ℚ := 95 / 100
  bEnableToleranceTest : Bool := true
  PositionTolerance : ℚ := 50
  RotationTolerance : ℚ := 2
  RequiredTraits : Nat := 0
  FinalCalibrationSets : Nat → Option FCalibrationData := fun _ => none
  DesiredTrajectory : FTrajectory := ⟨[]⟩
  CurrentInterpolatedPose : FPoseMotionData := default
  TimeSinceMotionUpdate : ℚ := 0
  TimeSinceMotionChosen : ℚ := 0
  PoseInterpolationValue : ℚ := 0
  bForcePoseSearch : Bool := false
  CurrentChosenPoseId : Int := 0
  DominantBlendChannel : Int := 0
  bValidToEvaluate : Bool := false
  bInitialized : Bool := false
  bTriggerTransition : Bool := false
  MotionMatchingMode : EMotionMatchingMode := EMotionMatchingMode.MotionMatching
  BlendChannels : List FAnimChannelState := []
  MotionDataIsNull : Bool := false
  UserCalibration : Option UMotionCalibration := none
  PastTrajectoryMode : EPastTrajectoryMode := EPastTrajectoryMode.ActualHistory
  DistanceMatchPayload : FDistanceMatchPayload := {}
  MotionActionPayload : FMotionActionPayload := {}
  ActiveDistanceMatchSection : Option FDistanceMatchSection := none
  DistanceMatchTime : ℚ := 0
  LastDistanceMatchKeyChecked : Int := 0
  CurrentActionId : Int := 0
  CurrentActionTime : ℚ := 0
  CurrentActionEndTime : ℚ := 0
  InternalTimeAccumulator : ℚ := 0
  PoseBoneRemap : List Int := []

/-! ## Members taken as parameters, and the host's contexts -/

/-- The members of the repository that the node calls and whose bodies are not among the
sources, taken as parameters of the node's operations:
`Channel` holds the two members of `FAnimChannelState`;
`WrapAnimationTime`, `LerpPose` and `LerpPoseTrajectory` are the functions of
`FMotionMatchingUtils` (the two interpolations give the new value of their out-parameter from
its old value, the before pose, the after pose and the blend factor);
`SequenceGetPlayLength` and `CompositeGetPlayLength` are `GetPlayLength()` of
`FMotionAnimSequence` and `FMotionComposite`;
`NewPose` is the constructor `FPoseMotionData(TrajectoryCount, JointCount)`;
`IsValidWithConfig` and `GenerateFinalWeights` are the members of `FCalibrationData`, the
second giving the final weights from the user calibration and the standard deviations. -/
structure FRepositoryOps where
  Channel : FAnimChannelOps
  WrapAnimationTime : ℚ → ℚ → ℚ
  LerpPose : FPoseMotionData → FPoseMotionData → FPoseMotionData → ℚ → FPoseMotionData
  LerpPoseTrajectory : FPoseMotionData → FPoseMotionData → FPoseMotionData → ℚ →
    FPoseMotionData
  SequenceGetPlayLength : FMotionAnimSequence → ℚ
  CompositeGetPlayLength : FMotionComposite → ℚ
  NewPose : Nat → Nat → FPoseMotionData
  IsValidWithConfig : FCalibrationData → UMotionMatchConfig → Bool
  GenerateFinalWeights : UMotionCalibration → FCalibrationData → FCalibrationData

/-- The host's `FAnimationUpdateContext`, as far as the node reads it: the tick's delta time;
the cached pose of the pose recorder found through the context (`none`: no recorder); and, for
`InitializeWithPoseRecorder`, the remap of a pose bone's index onto the skeletal mesh
(`none`: the component has no skeletal mesh). -/
structure FAnimationUpdateContext where
  DeltaTime : ℚ
  MotionRecorderNode : Option FCachedMotionPose := none
  SkeletalMeshBoneRemap : Option (Int → Int) := none

/-- Engine `FMath::Clamp` on `float`: `X < Min ? Min : (X < Max ? X : Max)`. -/
def ClampFloat (X Min Max : ℚ) : ℚ :=
  if X < Min then Min else if X < Max then X else Max

/-- Engine `FMath::RoundToInt`: `FloorToInt(F + 0.5)`. -/
def RoundToInt (F : ℚ) : Int := ⌊F + 1 / 2⌋

/-- Engine `FMath::RoundHalfFromZero`, as an integer:
`F < 0 ? CeilToFloat(F - 0.5) : FloorToFloat(F + 0.5)`. -/
def RoundHalfFromZero (F : ℚ) : Int :=
  if F < 0 then ⌈F - 1 / 2⌉ else ⌊F + 1 / 2⌋

/-- What a pose buffer holds after the sampling calls of an evaluation: `Unsampled` is the
buffer as it was handed over, `Clip Asset Time` the result of
`Asset->GetAnimationPose(…, FAnimExtractContext(Time, true))` and `BlendSpace AnimId Samples`
the result of `GetAnimationPose(Samples, …)` on the blend space of the source with index
`AnimId`. -/
inductive FPoseSample where
  | Unsampled
  | Clip (Asset : UAnimSequenceBase) (Time : ℚ)
  | BlendSpace (AnimId : Int) (Samples : List FBlendSampleData)
deriving DecidableEq, Inhabited

/-- A pose buffer after the sampling of one channel: what was sampled, and whether
`FMotionMatchingUtils::MirrorPose` was applied to it afterwards. -/
structure FChannelPose where
  Sample : FPoseSample
  bMirrored : Bool
deriving DecidableEq, Inhabited

/-- The host's `FPoseContext Output` after an evaluation: `RefPose` after
`Output.Pose.ResetToRefPose()`, `Single Pose` after sampling into the output itself
(`Single ⟨Unsampled, false⟩` is the output exactly as it was handed over), and
`Blend Poses Weights` after `FAnimationRuntime::BlendPosesTogether` of the channel poses with
the weights, followed by `NormalizeRotations`. -/
inductive FOutputPose where
  | RefPose
  | Single (Pose : FChannelPose)
  | Blend (Poses : List FChannelPose) (Weights : List ℚ)
deriving DecidableEq, Inhabited

/-- Modelled from the spec: `FMotionMatchingUtils::WrapAnimationTime` (body not among the
sources), "wrap time modulo clip length". -/
def WrapAnimationTime (Time Length : ℚ) : ℚ :=
  if Length ≤ 0 then 0 else Time - Length * (⌊Time / Length⌋ : ℚ)

/-- Modelled from the spec: `FMotionMatchingUtils::LerpPose` (body not among the sources),
"blending by fractional progress" of a before and an after pose: the velocities and the
trajectory and joint features are interpolated, the identity of the result is the before
pose's. -/
def LerpPose (_OutLerpPose From To : FPoseMotionData) (Progress : ℚ) : FPoseMotionData :=
  let Mix := fun (a b : ℚ) => a + Progress * (b - a)
  let MixVector := fun (a b : FVector) => (⟨Mix a.X b.X, Mix a.Y b.Y, Mix a.Z b.Z⟩ : FVector)
  { From with
    LocalVelocity := MixVector From.LocalVelocity To.LocalVelocity
    RotationalVelocity := Mix From.RotationalVelocity To.RotationalVelocity
    Trajectory := List.zipWith (fun a b =>
      (⟨MixVector a.Position b.Position, Mix a.RotationZ b.RotationZ⟩ : FTrajectoryPoint))
      From.Trajectory To.Trajectory
    JointData := List.zipWith (fun a b =>
      (⟨MixVector a.Position b.Position, MixVector a.Velocity b.Velocity⟩ : FJointData))
      From.JointData To.JointData }

/-- Modelled from the spec: `FMotionMatchingUtils::LerpPoseTrajectory` (body not among the
sources), the interpolation used with a recorded-pose source: as `LerpPose`, but the joint
features of the out-parameter are kept, to be overwritten from the recorder. -/
def LerpPoseTrajectory (OutLerpPose From To : FPoseMotionData) (Progress : ℚ) :
    FPoseMotionData :=
  { LerpPose OutLerpPose From To Progress with JointData := OutLerpPose.JointData }

/-- Modelled from the spec: `FCalibrationData::IsValidWithConfig` (body not among the sources),
"weight-vector lengths equal the pose feature lengths, validated at node activation". -/
def FCalibrationData.IsValidWithConfig (Calibration : FCalibrationData)
    (MMConfig : UMotionMatchConfig) : Bool :=
  Calibration.TrajectoryWeights.length == MMConfig.TrajectoryTimes.length
    && Calibration.PoseJointWeights.length == MMConfig.PoseBones.length

/-- Modelled from the spec: `FCalibrationData::GenerateFinalWeights` (body not among the
sources), the weights "derived once from user-authored base weights and per-feature standard
deviations (for scale normalization)": each base weight divided by its standard deviation. -/
def FCalibrationData.GenerateFinalWeights (UserCalibration : UMotionCalibration)
    (StdDev : FCalibrationData) : FCalibrationData :=
  let Base := UserCalibration.BaseWeights
  { Weight_Momentum := Base.Weight_Momentum / StdDev.Weight_Momentum
    Weight_AngularMomentum := Base.Weight_AngularMomentum / StdDev.Weight_AngularMomentum
    TrajectoryWeights := List.zipWith (fun b s =>
      (⟨b.Weight_Pos / s.Weight_Pos, b.Weight_Facing / s.Weight_Facing⟩ : FTrajectoryWeightSet))
      Base.TrajectoryWeights StdDev.TrajectoryWeights
    PoseJointWeights := List.zipWith (fun b s =>
      (⟨b.Weight_Pos / s.Weight_Pos, b.Weight_Vel / s.Weight_Vel⟩ : FJointWeightSet))
      Base.PoseJointWeights StdDev.PoseJointWeights }

/-- Modelled from the spec: the members of the repository that are not among the sources, as
the spec describes them, for the concrete scenarios.  The play length of a source is the play
length of its clip (0 for a null clip) and a new pose has the given numbers of trajectory
samples and joints. -/
def SpecRepositoryOps : FRepositoryOps :=
  { Channel := SpecChannelOps
    WrapAnimationTime := WrapAnimationTime
    LerpPose := LerpPose
    LerpPoseTrajectory := LerpPoseTrajectory
    SequenceGetPlayLength := fun Source => (Source.Sequence.map (fun a => a.PlayLength)).getD 0
    CompositeGetPlayLength := fun Source =>
      (Source.AnimComposite.map (fun a => a.PlayLength)).getD 0
    NewPose := fun TrajectoryCount JointCount =>
      { (default : FPoseMotionData) with
        Trajectory := List.replicate TrajectoryCount default
        JointData := List.replicate JointCount default }
    IsValidWithConfig := FCalibrationData.IsValidWithConfig
    GenerateFinalWeights := FCalibrationData.GenerateFinalWeights }

namespace FAnimNode_MotionMatching

/-! ## Candidate search -/

/-- Body of the pose loop of `GetLowestCostPoseId_Linear`, on the pair
`(LowestCost, LowestPoseId)`, with the costs in exact arithmetic (`LinearStep_Float` is the
loop body with its roundings); `continue` leaves the pair as it is. -/
def LinearStep (n : FAnimNode_MotionMatching) (FinalCalibration : FCalibrationData)
    (NextPose : FPoseMotionData) (Lowest : ℚ × Int) (Pose : FPoseMotionData) : ℚ × Int :=
  let OverridePoseMultiplier := (1 - n.OverrideQualityVsResponsivenessRatio) * 2
  let OverrideTrajectoryMultiplier := n.OverrideQualityVsResponsivenessRatio * 2
  if Pose.bDoNotUse || Pose.Traits != n.RequiredTraits then Lowest
  else
    -- Body Velocity Cost
    let Cost := FVector.DistSquared n.CurrentInterpolatedPose.LocalVelocity Pose.LocalVelocity
      * FinalCalibration.Weight_Momentum * OverridePoseMultiplier
    -- Body Rotational Velocity Cost
    let Cost := Cost + |n.CurrentInterpolatedPose.RotationalVelocity - Pose.RotationalVelocity|
      * FinalCalibration.Weight_AngularMomentum * OverridePoseMultiplier
    if Cost > Lowest.1 then Lowest
    else
      -- Pose Trajectory Cost
      let Cost := Cost + ComputeTrajectoryCost n.DesiredTrajectory.TrajectoryPoints
        Pose.Trajectory FinalCalibration * OverrideTrajectoryMultiplier
      if Cost > Lowest.1 then Lowest
      else
        -- Pose Joint Cost
        let Cost := Cost + ComputePoseCost n.CurrentInterpolatedPose.JointData
          Pose.JointData FinalCalibration * OverridePoseMultiplier
        -- Pose Favour
        let Cost := Cost * Pose.Favour
        -- Favour Current Pose
        let Cost := if n.bFavourCurrentPose && Pose.PoseId == NextPose.PoseId
          then Cost * n.CurrentPoseFavour else Cost
        if Cost < Lowest.1 then (Cost, Pose.PoseId) else Lowest

/-- `FAnimNode_MotionMatching::GetLowestCostPoseId_Linear(NextPose)`. -/
def GetLowestCostPoseId_Linear (n : FAnimNode_MotionMatching) (NextPose : FPoseMotionData) :
    Int :=
  match n.FinalCalibrationSets n.RequiredTraits with
  | none => n.CurrentChosenPoseId
  | some FinalCalibration =>
    (n.MotionData.Poses.foldl (LinearStep n FinalCalibration NextPose) (10000000, 0)).2

/-- Body of the candidate loop of `GetLowestCostPoseId(NextPose)`, on the pair
`(LowestCost, LowestPoseId)`, with the costs in exact arithmetic (`FilteredStep_Float` is the
loop body with its roundings). -/
def FilteredStep (n : FAnimNode_MotionMatching) (FinalCalibration : FCalibrationData)
    (NextPose : FPoseMotionData) (Lowest : ℚ × Int) (Pose : FPoseMotionData) : ℚ × Int :=
  let OverridePoseMultiplier := (1 - n.OverrideQualityVsResponsivenessRatio) * 2
  let OverrideTrajectoryMultiplier := n.OverrideQualityVsResponsivenessRatio * 2
  -- Body Momentum
  let Cost := FVector.DistSquared n.CurrentInterpolatedPose.LocalVelocity Pose.LocalVelocity
    * FinalCalibration.Weight_Momentum * OverridePoseMultiplier
  -- Body Rotational Momentum
  let Cost := Cost + |n.CurrentInterpolatedPose.RotationalVelocity - Pose.RotationalVelocity|
    * FinalCalibration.Weight_AngularMomentum * OverridePoseMultiplier
  if Cost > Lowest.1 then Lowest
  else
    -- Trajectory Cost
    let TrajectoryIterations := min n.DesiredTrajectory.TrajectoryPoints.length
      FinalCalibration.TrajectoryWeights.length
    let Cost := (List.range TrajectoryIterations).foldl (fun Cost i =>
      let WeightSet := FinalCalibration.TrajectoryWeights.getD i default
      let CurrentPoint := n.DesiredTrajectory.TrajectoryPoints.getD i default
      let CandidatePoint := Pose.Trajectory.getD i default
      Cost
        + FVector.DistSquared CandidatePoint.Position CurrentPoint.Position
            * WeightSet.Weight_Pos * OverrideTrajectoryMultiplier
        + |FindDeltaAngleDegrees CandidatePoint.RotationZ CurrentPoint.RotationZ|
            * WeightSet.Weight_Facing * OverrideTrajectoryMultiplier) Cost
    if Cost > Lowest.1 then Lowest
    else
      let Cost := (List.range n.CurrentInterpolatedPose.JointData.length).foldl (fun Cost i =>
        let WeightSet := FinalCalibration.PoseJointWeights.getD i default
        let CurrentJoint := n.CurrentInterpolatedPose.JointData.getD i default
        let CandidateJoint := Pose.JointData.getD i default
        Cost
          + FVector.DistSquared CurrentJoint.Velocity CandidateJoint.Velocity
              * WeightSet.Weight_Vel * OverridePoseMultiplier
          + FVector.DistSquared CurrentJoint.Position CandidateJoint.Position
              * WeightSet.Weight_Pos * OverridePoseMultiplier) Cost
      -- Favour Current Pose
      let Cost := if n.bFavourCurrentPose && Pose.PoseId == NextPose.PoseId
        then Cost * n.CurrentPoseFavour else Cost
      -- Apply Pose Favour
      let Cost := Cost * Pose.Favour
      if Cost < Lowest.1 then (Cost, Pose.PoseId) else Lowest

/-- `FAnimNode_MotionMatching::GetLowestCostPoseId(NextPose)`, the filtered strategy: the
candidates come from the collaborator, and a null answer falls back to the linear scan. -/
def GetLowestCostPoseId (n : FAnimNode_MotionMatching) (NextPose : FPoseMotionData) : Int :=
  match n.FinalCalibrationSets n.RequiredTraits with
  | none => n.CurrentChosenPoseId
  | some FinalCalibration =>
    match n.MotionData.GetFilteredPoseList n.CurrentInterpolatedPose n.RequiredTraits
        FinalCalibration with
    | none => GetLowestCostPoseId_Linear n NextPose
    | some PoseCandidates =>
      (PoseCandidates.foldl (FilteredStep n FinalCalibration NextPose) (10000000, 0)).2

/-- Sample loop of `NextPoseToleranceTest` over the indices still to visit: `false` at the
first sample with a positive prediction time that leaves its band, `true` at the end. -/
def NextPoseToleranceLoop (n : FAnimNode_MotionMatching) (NextPose : FPoseMotionData) :
    List Nat → Bool
  | [] => true
  | i :: rest =>
    let PredictionTime := n.MotionData.MotionMatchConfig.TrajectoryTimes.getD i 0
    if PredictionTime > 0 then
      let RelativeTolerance_Pos := PredictionTime * n.PositionTolerance
      let RelativeTolerance_Angle := PredictionTime * n.RotationTolerance
      let NextPoint := NextPose.Trajectory.getD i default
      let DesiredPoint := n.DesiredTrajectory.TrajectoryPoints.getD i default
      let DiffVector := FVector.sub NextPoint.Position DesiredPoint.Position
      let SqrDistance := DiffVector.SizeSquared
      if SqrDistance > RelativeTolerance_Pos * RelativeTolerance_Pos then false
      else
        let AngleDelta := FindDeltaAngleDegrees DesiredPoint.RotationZ NextPoint.RotationZ
        if |AngleDelta| > RelativeTolerance_Angle then false
        else NextPoseToleranceLoop n NextPose rest
    else NextPoseToleranceLoop n NextPose rest

/-- `FAnimNode_MotionMatching::NextPoseToleranceTest(NextPose)`. -/
def NextPoseToleranceTest (n : FAnimNode_MotionMatching) (NextPose : FPoseMotionData) : Bool :=
  if NextPose.bDoNotUse || NextPose.Traits != n.RequiredTraits then false
  else
    let PointCount := min n.DesiredTrajectory.TrajectoryPoints.length
      n.MotionData.MotionMatchConfig.TrajectoryTimes.length
    NextPoseToleranceLoop n NextPose (List.range PointCount)

/-! ## Blend-channel pool -/

/-- Loop of `UpdateBlending`.  The array at any moment is `Kept ++ Pending`: `Kept` holds the
channels already visited and not removed, so the loop index `i` is `Kept.length`, and
`bCurrent` (`i == BlendChannels.Num() - 1`) holds when the visited channel is the last of
`Pending`.  `RemoveAt(i); --i` drops the visited channel and goes on with the next one.
The result is the array after the loop and `HighestBlendChannel`. -/
def UpdateBlendingLoop (ops : FAnimChannelOps) (DeltaTime BlendTime PlaybackRate : ℚ) :
    List FAnimChannelState → List FAnimChannelState → ℚ → Int →
      List FAnimChannelState × Int
  | [], Kept, _, HighestBlendChannel => (Kept, HighestBlendChannel)
  | Channel :: Rest, Kept, HighestBlendWeight, HighestBlendChannel =>
    let bCurrent := Rest.isEmpty
    let Updated := ops.Update Channel DeltaTime BlendTime bCurrent PlaybackRate
    let Weight := Updated.2
    if !bCurrent && Weight < -(RoundToFloat (5 / 100)) then
      UpdateBlendingLoop ops DeltaTime BlendTime PlaybackRate Rest Kept
        HighestBlendWeight HighestBlendChannel
    else if Weight > HighestBlendWeight then
      UpdateBlendingLoop ops DeltaTime BlendTime PlaybackRate Rest (Kept ++ [Updated.1])
        Weight Kept.length
    else
      UpdateBlendingLoop ops DeltaTime BlendTime PlaybackRate Rest (Kept ++ [Updated.1])
        HighestBlendWeight HighestBlendChannel

/-- `FAnimNode_MotionMatching::UpdateBlending(DeltaTime)`. -/
def UpdateBlending (ops : FAnimChannelOps) (n : FAnimNode_MotionMatching) (DeltaTime : ℚ) :
    FAnimNode_MotionMatching :=
  let Result := UpdateBlendingLoop ops DeltaTime n.BlendTime n.PlaybackRate
    n.BlendChannels [] (-1) 0
  { n with BlendChannels := Result.1, DominantBlendChannel := Result.2 }

/-- `FAnimNode_MotionMatching::JumpToPose(PoseId, TimeOffset)`.  `none`: an array index is out
of range.  A null source asset leaves the emptied pool as it is (`break`); the composite case
has no `break` after its `Emplace` and runs into `default: return`, before the assignment to
`DominantBlendChannel`. -/
def JumpToPose (ops : FAnimChannelOps) (n : FAnimNode_MotionMatching) (PoseId : Int)
    (TimeOffset : ℚ) : Option FAnimNode_MotionMatching :=
  let n := { n with
    TimeSinceMotionChosen := n.TimeSinceMotionUpdate
    CurrentChosenPoseId := PoseId
    BlendChannels := [] }
  match TArrayAt n.MotionData.Poses PoseId with
  | none => none
  | some Pose =>
    match Pose.AnimType with
    | EMotionAnimAssetType.Sequence =>
      match n.MotionData.GetSourceAnimAtIndex Pose.AnimId with
      | none => none
      | some MotionAnim =>
        match MotionAnim.Sequence with
        | none => some { n with DominantBlendChannel := 0 }
        | some Sequence =>
          some { n with
            BlendChannels := n.BlendChannels ++ [ops.Construct Pose EBlendStatus.Dominant 1
              Sequence.GetPlayLength MotionAnim.bLoop MotionAnim.PlayRate Pose.bMirrored
              n.TimeSinceMotionChosen TimeOffset]
            DominantBlendChannel := 0 }
    | EMotionAnimAssetType.BlendSpace =>
      match n.MotionData.GetSourceBlendSpaceAtIndex Pose.AnimId with
      | none => none
      | some MotionBlendSpace =>
        match MotionBlendSpace.BlendSpace with
        | none => some { n with DominantBlendChannel := 0 }
        | some BlendSpace =>
          let Channel := ops.Construct Pose EBlendStatus.Dominant 1
            MotionBlendSpace.PlayLength MotionBlendSpace.bLoop MotionBlendSpace.PlayRate
            Pose.bMirrored n.TimeSinceMotionChosen TimeOffset
          some { n with
            BlendChannels := n.BlendChannels ++ [{ Channel with
              BlendSampleDataCache := BlendSpace.GetSamplesFromBlendInput
                ⟨Pose.BlendSpacePosition.X, Pose.BlendSpacePosition.Y, 0⟩ }]
            DominantBlendChannel := 0 }
    | EMotionAnimAssetType.Composite =>
      match n.MotionData.GetSourceCompositeAtIndex Pose.AnimId with
      | none => none
      | some MotionComposite =>
        match MotionComposite.AnimComposite with
        | none => some { n with DominantBlendChannel := 0 }
        | some AnimComposite =>
          some { n with
            BlendChannels := n.BlendChannels ++ [ops.Construct Pose EBlendStatus.Dominant 1
              AnimComposite.GetPlayLength MotionComposite.bLoop MotionComposite.PlayRate
              Pose.bMirrored n.TimeSinceMotionChosen TimeOffset] }
    | EMotionAnimAssetType.None => some n

/-- `FAnimNode_MotionMatching::BlendToPose(PoseId, TimeOffset)`.  `none`: an array index is out
of range or a null source asset is dereferenced (this function has no null guard). -/
def BlendToPose (ops : FAnimChannelOps) (n : FAnimNode_MotionMatching) (PoseId : Int)
    (TimeOffset : ℚ) : Option FAnimNode_MotionMatching :=
  let n := { n with
    TimeSinceMotionChosen := n.TimeSinceMotionUpdate
    CurrentChosenPoseId := PoseId }
  match TArrayAt n.MotionData.Poses PoseId with
  | none => none
  | some Pose =>
    match Pose.AnimType with
    | EMotionAnimAssetType.Sequence =>
      match n.MotionData.GetSourceAnimAtIndex Pose.AnimId with
      | none => none
      | some MotionAnim =>
        match MotionAnim.Sequence with
        | none => none
        | some Sequence =>
          some { n with
            BlendChannels := n.BlendChannels ++ [ops.Construct Pose EBlendStatus.Chosen 1
              Sequence.GetPlayLength MotionAnim.bLoop MotionAnim.PlayRate Pose.bMirrored
              n.TimeSinceMotionChosen TimeOffset] }
    | EMotionAnimAssetType.BlendSpace =>
      match n.MotionData.GetSourceBlendSpaceAtIndex Pose.AnimId with
      | none => none
      | some MotionBlendSpace =>
        match MotionBlendSpace.BlendSpace with
        | none => none
        | some BlendSpace =>
          let Channel := ops.Construct Pose EBlendStatus.Chosen 1
            MotionBlendSpace.PlayLength MotionBlendSpace.bLoop MotionBlendSpace.PlayRate
            Pose.bMirrored n.TimeSinceMotionChosen TimeOffset
          some { n with
            BlendChannels := n.BlendChannels ++ [{ Channel with
              BlendSampleDataCache := BlendSpace.GetSamplesFromBlendInput
                ⟨Pose.BlendSpacePosition.X, Pose.BlendSpacePosition.Y, 0⟩ }] }
    | EMotionAnimAssetType.Composite =>
      match n.MotionData.GetSourceCompositeAtIndex Pose.AnimId with
      | none => none
      | some MotionComposite =>
        match MotionComposite.AnimComposite with
        | none => none
        | some AnimComposite =>
          some { n with
            BlendChannels := n.BlendChannels ++ [ops.Construct Pose EBlendStatus.Chosen 1
              AnimComposite.GetPlayLength MotionComposite.bLoop MotionComposite.PlayRate
              Pose.bMirrored n.TimeSinceMotionChosen TimeOffset] }
    | EMotionAnimAssetType.None => some n

/-- `FAnimNode_MotionMatching::TransitionToPose(PoseId, Context, TimeOffset)`.  The request to
the inertialization collaborator (or the logged error when there is none) changes no member of
the node. -/
def TransitionToPose (ops : FAnimChannelOps) (n : FAnimNode_MotionMatching) (PoseId : Int)
    (TimeOffset : ℚ) : Option FAnimNode_MotionMatching :=
  match n.TransitionMethod with
  | ETransitionMethod.None => JumpToPose ops n PoseId TimeOffset
  | ETransitionMethod.Blend => BlendToPose ops n PoseId TimeOffset
  | ETransitionMethod.Inertialization => JumpToPose ops n PoseId TimeOffset

/-! ## Scheduling a search -/

/-- Engine `FMath::Lerp` on `FVector`: `A + Alpha * (B - A)`. -/
def FVector.Lerp (A B : FVector) (Alpha : ℚ) : FVector :=
  ⟨A.X + Alpha * (B.X - A.X), A.Y + Alpha * (B.Y - A.Y), A.Z + Alpha * (B.Z - A.Z)⟩

/-- Loop of `ApplyTrajectoryBlending` over the indices of `TrajectoryTimes`, on the points of
the desired trajectory; the `float` variable `Progress` is computed in `float` arithmetic.
`none`: `DesiredTrajectory.TrajectoryPoints[i]` or `CurrentInterpolatedPose.Trajectory[i]` is
outside its array. -/
def ApplyTrajectoryBlendingLoop (n : FAnimNode_MotionMatching) (TotalTime : ℚ) :
    List Nat → List FTrajectoryPoint → Option (List FTrajectoryPoint)
  | [], Points => some Points
  | i :: Rest, Points =>
    let Time := n.MotionData.MotionMatchConfig.TrajectoryTimes.getD i 0
    if Time > 0 then
      match Points.get? i with
      | none => none
      | some DesiredPoint =>
        match n.CurrentInterpolatedPose.Trajectory.get? i with
        | none => none
        | some CurrentPoint =>
          let Progress := RoundToFloat
            (RoundToFloat (RoundToFloat (TotalTime - Time) / TotalTime)
              * n.TrajectoryBlendMagnitude)
          ApplyTrajectoryBlendingLoop n TotalTime Rest
            (Points.set i { DesiredPoint with
              Position := FVector.Lerp DesiredPoint.Position CurrentPoint.Position Progress })
    else ApplyTrajectoryBlendingLoop n TotalTime Rest Points

/-- `FAnimNode_MotionMatching::ApplyTrajectoryBlending()`.  `none`: `TrajectoryTimes.Last()` is
taken of an empty array, or a trajectory point is read outside its array. -/
def ApplyTrajectoryBlending (n : FAnimNode_MotionMatching) : Option FAnimNode_MotionMatching :=
  match n.MotionData.MotionMatchConfig.TrajectoryTimes.getLast? with
  | none => none
  | some LastTime =>
    let TotalTime := max (RoundToFloat (1 / 10000)) LastTime
    match ApplyTrajectoryBlendingLoop n TotalTime
        (List.range n.MotionData.MotionMatchConfig.TrajectoryTimes.length)
        n.DesiredTrajectory.TrajectoryPoints with
    | none => none
    | some Points => some { n with DesiredTrajectory := ⟨Points⟩ }

/-- The test `bWinnerAtSameLocation` of `SchedulePoseSearch`, of the best pose against one
other pose (the current interpolated pose, then the chosen pose); the difference of the two
`float` times is rounded, and `0.25f` and `1.0f` are 1/4 and 1. -/
def WinnerAtSameLocation (BestPose Other : FPoseMotionData) : Bool :=
  BestPose.AnimId == Other.AnimId
    && BestPose.bMirrored == Other.bMirrored
    && decide (|RoundToFloat (BestPose.Time - Other.Time)| < 25 / 100)
    && decide (FVector2D.DistSquared BestPose.BlendSpacePosition Other.BlendSpacePosition < 1)

/-- `FAnimNode_MotionMatching::SchedulePoseSearch(Context)`, without the debug-only comparison
search.  `none`: the opening trajectory blending reads outside an array, or a pose index is
out of range. -/
def SchedulePoseSearch (ops : FAnimChannelOps) (n : FAnimNode_MotionMatching) :
    Option FAnimNode_MotionMatching :=
  match (if n.bBlendTrajectory then ApplyTrajectoryBlending n else some n) with
  | none => none
  | some n =>
    let MaxPoseId : Int := n.MotionData.Poses.length - 1
    let n := { n with CurrentChosenPoseId := ClampInt n.CurrentChosenPoseId 0 MaxPoseId }
    match TArrayAt n.MotionData.Poses n.CurrentChosenPoseId with
    | none => none
    | some ChosenPose =>
      let NextPoseId := if ChosenPose.NextPoseId < 0 then n.CurrentChosenPoseId
        else ChosenPose.NextPoseId
      match TArrayAt n.MotionData.Poses (ClampInt NextPoseId 0 MaxPoseId) with
      | none => none
      | some NextPose =>
        if !n.bForcePoseSearch && n.bEnableToleranceTest && NextPoseToleranceTest n NextPose then
          some { n with TimeSinceMotionUpdate := 0 }
        else
          let LowestPoseId := match n.PoseMatchMethod with
            | EPoseMatchMethod.Optimized => GetLowestCostPoseId n NextPose
            | EPoseMatchMethod.Linear => GetLowestCostPoseId_Linear n NextPose
          match TArrayAt n.MotionData.Poses LowestPoseId with
          | none => none
          | some BestPose =>
            let bWinnerAtSameLocation := WinnerAtSameLocation BestPose n.CurrentInterpolatedPose
            let bWinnerAtSameLocation := if !bWinnerAtSameLocation
              then WinnerAtSameLocation BestPose ChosenPose else bWinnerAtSameLocation
            if !bWinnerAtSameLocation then TransitionToPose ops n BestPose.PoseId 0
            else some n

/-! ## Global search and the current interpolated pose -/

/-- Body of the pose loop of `GetLowestCostPoseId()`, on the pair
`(LowestCost, LowestPoseId)`. -/
def GlobalStep (n : FAnimNode_MotionMatching) (FinalCalibration : FCalibrationData)
    (Lowest : ℚ × Int) (Pose : FPoseMotionData) : ℚ × Int :=
  if Pose.bDoNotUse && Pose.Traits != n.RequiredTraits then Lowest
  else
    let Cost := ComputeTrajectoryCost n.DesiredTrajectory.TrajectoryPoints Pose.Trajectory
      FinalCalibration
    let Cost := Cost + ComputePoseCost n.CurrentInterpolatedPose.JointData Pose.JointData
      FinalCalibration
    let Cost := Cost
      + FVector.DistSquared n.CurrentInterpolatedPose.LocalVelocity Pose.LocalVelocity
        * FinalCalibration.Weight_Momentum
    let Cost := Cost * Pose.Favour
    if Cost < Lowest.1 then (Cost, Pose.PoseId) else Lowest

/-- `FAnimNode_MotionMatching::GetLowestCostPoseId()`, the overload without argument: the
search over the whole database. -/
def GetLowestCostPoseId_Global (n : FAnimNode_MotionMatching) : Int :=
  match n.FinalCalibrationSets n.RequiredTraits with
  | none => n.CurrentChosenPoseId
  | some FinalCalibration =>
    (n.MotionData.Poses.foldl (GlobalStep n FinalCalibration) (10000000, 0)).2

/-- `FAnimNode_MotionMatching::ScheduleTransitionPoseSearch(Context)`. -/
def ScheduleTransitionPoseSearch (ops : FAnimChannelOps) (n : FAnimNode_MotionMatching) :
    Option FAnimNode_MotionMatching :=
  let LowestPoseId := GetLowestCostPoseId_Global n
  let LowestPoseId := ClampInt LowestPoseId 0 (n.MotionData.Poses.length - 1)
  JumpToPose ops n LowestPoseId 0

/-- The `switch` of `ComputeCurrentPose` that reads a clip length: the play length of the
source with index `AnimId` among the sources of type `AnimType`, and 0 at the `default:`
label.  `none`: the source index is out of range. -/
def ClipLength (host : FRepositoryOps) (d : UMotionDataAsset) (AnimType : EMotionAnimAssetType)
    (AnimId : Int) : Option ℚ :=
  match AnimType with
  | EMotionAnimAssetType.Sequence =>
    (d.GetSourceAnimAtIndex AnimId).map host.SequenceGetPlayLength
  | EMotionAnimAssetType.BlendSpace =>
    (d.GetSourceBlendSpaceAtIndex AnimId).map (fun Source => Source.PlayLength)
  | EMotionAnimAssetType.Composite =>
    (d.GetSourceCompositeAtIndex AnimId).map host.CompositeGetPlayLength
  | EMotionAnimAssetType.None => some 0

/-- First block of both overloads of `ComputeCurrentPose`, "Determine the next chosen pose":
the value assigned to `CurrentChosenPoseId`.  `none`: the pool is empty or a source index is
out of range. -/
def ComputeChosenPoseId (host : FRepositoryOps) (n : FAnimNode_MotionMatching) : Option Int := do
  let PoseInterval := max (1 / 100) n.MotionData.PoseInterval
  let ChosenChannel ← n.BlendChannels.getLast?
  let ChosenClipLength ← ClipLength host n.MotionData ChosenChannel.AnimType ChosenChannel.AnimId
  let TimePassed := n.TimeSinceMotionChosen
  let PoseIndex := ChosenChannel.StartPoseId
  let NewChosenTime := ChosenChannel.AnimTime
  let (PoseIndex, TimePassed) :=
    if ChosenChannel.AnimTime ≥ ChosenClipLength then
      if ChosenChannel.bLoop then
        let NewChosenTime := host.WrapAnimationTime NewChosenTime ChosenClipLength
        (PoseIndex, NewChosenTime - ChosenChannel.StartTime)
      else
        let TimeToNextClip := ChosenClipLength - (TimePassed + ChosenChannel.StartTime)
        let PoseIndex := if TimeToNextClip < PoseInterval / 2 then PoseIndex - 1 else PoseIndex
        let NewChosenTime := ChosenClipLength
        (PoseIndex, NewChosenTime - ChosenChannel.StartTime)
    else (PoseIndex, TimePassed)
  let NumPosesPassed : Int :=
    if TimePassed < 0 then ⌈TimePassed / PoseInterval⌉ else ⌊TimePassed / PoseInterval⌋
  pure (PoseIndex + NumPosesPassed)

/-- What the second block of `ComputeCurrentPose`, "Determine the next dominant pose", leaves
in its locals before the pose index is clamped. -/
structure FDominantStep where
  TimePassed : ℚ
  NumPosesPassed : Int
  PoseIndex : Int
deriving DecidableEq, Inhabited

/-- Second block of both overloads of `ComputeCurrentPose`, up to the step count: the time
passed on the dominant channel, the number of poses passed (`CeilToInt` in both branches of
the source) and the unclamped `PoseIndex + NumPosesPassed`.  The clip length is read with the
chosen channel's type and the dominant channel's source index, as in the source.  `none`: the
pool is empty, `DominantBlendChannel` is not an index of the pool, or a source index is out
of range. -/
def ComputeDominantStep (host : FRepositoryOps) (n : FAnimNode_MotionMatching) :
    Option FDominantStep := do
  let PoseInterval := max (1 / 100) n.MotionData.PoseInterval
  let ChosenChannel ← n.BlendChannels.getLast?
  let DominantChannel ← TArrayAt n.BlendChannels n.DominantBlendChannel
  let DominantClipLength ← ClipLength host n.MotionData ChosenChannel.AnimType
    DominantChannel.AnimId
  let TimePassed :=
    if n.TransitionMethod = ETransitionMethod.Blend then DominantChannel.Age
    else n.TimeSinceMotionChosen
  let PoseIndex := DominantChannel.StartPoseId
  let NewDominantTime := DominantChannel.StartTime + TimePassed
  let (PoseIndex, TimePassed) :=
    if NewDominantTime ≥ DominantClipLength then
      if DominantChannel.bLoop then
        let NewDominantTime := host.WrapAnimationTime NewDominantTime DominantClipLength
        (PoseIndex, NewDominantTime - DominantChannel.StartTime)
      else
        let TimeToNextClip := DominantClipLength - (TimePassed + DominantChannel.StartTime)
        let PoseIndex := if TimeToNextClip < PoseInterval then PoseIndex - 1 else PoseIndex
        let NewDominantTime := DominantClipLength
        (PoseIndex, NewDominantTime - DominantChannel.StartTime)
    else (PoseIndex, TimePassed)
  let NumPosesPassed : Int :=
    if TimePassed < -(1 / 100000) then ⌈TimePassed / PoseInterval⌉
    else ⌈TimePassed / PoseInterval⌉
  pure ⟨TimePassed, NumPosesPassed, PoseIndex + NumPosesPassed⟩

/-- `FAnimNode_MotionMatching::ComputeCurrentPose()`.  `none`: the pool is empty or an array
index is out of range. -/
def ComputeCurrentPose (host : FRepositoryOps) (n : FAnimNode_MotionMatching) :
    Option FAnimNode_MotionMatching := do
  let PoseInterval := max (1 / 100) n.MotionData.PoseInterval
  let CurrentChosenPoseId ← ComputeChosenPoseId host n
  let Step ← ComputeDominantStep host n
  let Num : Int := n.MotionData.Poses.length
  let PoseIndex := ClampInt Step.PoseIndex 0 Num
  if Step.TimePassed < -(1 / 100000) then
    let AfterPose ← TArrayAt n.MotionData.Poses PoseIndex
    let BeforePose ← TArrayAt n.MotionData.Poses (ClampInt AfterPose.LastPoseId 0 (Num - 1))
    let PoseInterpolationValue :=
      1 - |Step.TimePassed / PoseInterval - (Step.NumPosesPassed : ℚ)|
    pure { n with
      CurrentChosenPoseId := CurrentChosenPoseId
      PoseInterpolationValue := PoseInterpolationValue
      CurrentInterpolatedPose := host.LerpPose n.CurrentInterpolatedPose BeforePose AfterPose
        PoseInterpolationValue }
  else
    let BeforePose ← TArrayAt n.MotionData.Poses (min PoseIndex (Num - 2))
    let AfterPose ← TArrayAt n.MotionData.Poses BeforePose.NextPoseId
    let PoseInterpolationValue := Step.TimePassed / PoseInterval - (Step.NumPosesPassed : ℚ)
    pure { n with
      CurrentChosenPoseId := CurrentChosenPoseId
      PoseInterpolationValue := PoseInterpolationValue
      CurrentInterpolatedPose := host.LerpPose n.CurrentInterpolatedPose BeforePose AfterPose
        PoseInterpolationValue }

/-- Loop of `ComputeCurrentPose(CachedMotionPose)` over the bone remap: joint `i` of the
current pose is overwritten from the cached bone `PoseBoneRemap[i]` (a write outside the joint
array does nothing).  `none`: the cached pose has no bone with that key. -/
def OverwriteJointData (CachedMotionPose : FCachedMotionPose) (PoseBoneRemap : List Int) :
    List Nat → List FJointData → Option (List FJointData)
  | [], JointData => some JointData
  | i :: rest, JointData =>
    match TMapAt CachedMotionPose.CachedBoneData (PoseBoneRemap.getD i 0) with
    | none => none
    | some CachedMotionBone =>
      OverwriteJointData CachedMotionPose PoseBoneRemap rest
        (JointData.set i ⟨CachedMotionBone.Location, CachedMotionBone.Velocity⟩)

/-- Third block of `ComputeCurrentPose(const FCachedMotionPose&)`, "Get the before and after
poses and the interpolation amount": the before pose, the after pose and the value assigned
to `PoseInterpolationValue`.  `none`: a pose index is out of range. -/
def CachedPosePair (n : FAnimNode_MotionMatching) (Step : FDominantStep) :
    Option (FPoseMotionData × FPoseMotionData × ℚ) :=
  let PoseInterval := max (1 / 100) n.MotionData.PoseInterval
  let MaxPoseIndex : Int := n.MotionData.Poses.length - 1
  let PoseIndex := ClampInt Step.PoseIndex 0 MaxPoseIndex
  if Step.TimePassed < -(1 / 100000) then
    match TArrayAt n.MotionData.Poses PoseIndex with
    | none => none
    | some AfterPose =>
      match TArrayAt n.MotionData.Poses (ClampInt AfterPose.LastPoseId 0 MaxPoseIndex) with
      | none => none
      | some BeforePose =>
        some (BeforePose, AfterPose,
          1 - |Step.TimePassed / PoseInterval - (Step.NumPosesPassed : ℚ)|)
  else
    match TArrayAt n.MotionData.Poses
        (min PoseIndex ((n.MotionData.Poses.length : Int) - 2)) with
    | none => none
    | some BeforePose =>
      match TArrayAt n.MotionData.Poses (ClampInt BeforePose.NextPoseId 0 MaxPoseIndex) with
      | none => none
      | some AfterPose =>
        some (BeforePose, AfterPose,
          Step.TimePassed / PoseInterval - (Step.NumPosesPassed : ℚ))

/-- `FAnimNode_MotionMatching::ComputeCurrentPose(const FCachedMotionPose&)`.  `none`: the pool
is empty, an array index is out of range or a cached bone is missing. -/
def ComputeCurrentPose_Cached (host : FRepositoryOps) (n : FAnimNode_MotionMatching)
    (CachedMotionPose : FCachedMotionPose) : Option FAnimNode_MotionMatching :=
  match ComputeChosenPoseId host n with
  | none => none
  | some CurrentChosenPoseId =>
    match ComputeDominantStep host n with
    | none => none
    | some Step =>
      match CachedPosePair n Step with
      | none => none
      | some Pair =>
        let BeforePose := Pair.1
        let AfterPose := Pair.2.1
        let PoseInterpolationValue := Pair.2.2
        let Interpolated := host.LerpPoseTrajectory n.CurrentInterpolatedPose BeforePose
          AfterPose (ClampFloat PoseInterpolationValue 0 1)
        match OverwriteJointData CachedMotionPose n.PoseBoneRemap
            (List.range n.PoseBoneRemap.length) Interpolated.JointData with
        | none => none
        | some JointData =>
          some { n with
            CurrentChosenPoseId := CurrentChosenPoseId
            PoseInterpolationValue := PoseInterpolationValue
            CurrentInterpolatedPose := { Interpolated with JointData := JointData } }

/-- Loop of the past-trajectory copy of `UpdateMotionMatching` over the indices of
`TrajectoryTimes`, on the points of the desired trajectory; the loop ends at the first
positive time.  `none`: `CurrentInterpolatedPose.Trajectory[i]` or
`DesiredTrajectory.TrajectoryPoints[i]` is outside its array. -/
def CopyPastTrajectory (TrajectoryTimes : List ℚ) (Current : List FTrajectoryPoint) :
    List Nat → List FTrajectoryPoint → Option (List FTrajectoryPoint)
  | [], Points => some Points
  | i :: rest, Points =>
    if TrajectoryTimes.getD i 0 > 0 then some Points
    else
      match Current.get? i with
      | none => none
      | some CurrentPoint =>
        if i < Points.length then
          CopyPastTrajectory TrajectoryTimes Current rest (Points.set i CurrentPoint)
        else none

/-- `FAnimNode_MotionMatching::UpdateMotionMatching(DeltaTime, Context)`, with the `float`
rounding of the timers and of the end-of-playback expression.  `none`: the pool is empty or an
array index is out of range. -/
def UpdateMotionMatching (host : FRepositoryOps) (n : FAnimNode_MotionMatching)
    (DeltaTime : ℚ) (Context : FAnimationUpdateContext) : Option FAnimNode_MotionMatching :=
  let n := { n with bForcePoseSearch := false }
  let PlayRateAdjustedDeltaTime := RoundToFloat (DeltaTime * n.PlaybackRate)
  let n := { n with
    TimeSinceMotionChosen := RoundToFloat (n.TimeSinceMotionChosen + PlayRateAdjustedDeltaTime)
    TimeSinceMotionUpdate :=
      RoundToFloat (n.TimeSinceMotionUpdate + PlayRateAdjustedDeltaTime) }
  match n.BlendChannels.getLast? with
  | none => none
  | some PrimaryChannel =>
    let CurrentBlendTime :=
      if n.bBlendOutEarly then
        RoundToFloat (RoundToFloat (n.BlendTime * PrimaryChannel.Weight) * n.PlaybackRate)
      else 0
    let n := { n with
      bForcePoseSearch :=
        if !PrimaryChannel.bLoop
            && decide (RoundToFloat
                (RoundToFloat (n.TimeSinceMotionChosen + PrimaryChannel.StartTime)
                  + CurrentBlendTime)
              > PrimaryChannel.AnimLength)
        then true else n.bForcePoseSearch }
    let Computed := match Context.MotionRecorderNode with
      | some CachedMotionPose => ComputeCurrentPose_Cached host n CachedMotionPose
      | none => ComputeCurrentPose host n
    match Computed with
    | none => none
    | some n =>
      -- If we have ran into a 'DoNotUse' pose. We need to force a new pose search
      let n := { n with
        bForcePoseSearch :=
          if n.CurrentInterpolatedPose.bDoNotUse then true else n.bForcePoseSearch }
      -- Past trajectory mode
      let Copied :=
        if n.PastTrajectoryMode = EPastTrajectoryMode.CopyFromCurrentPose then
          (CopyPastTrajectory n.MotionData.MotionMatchConfig.TrajectoryTimes
            n.CurrentInterpolatedPose.Trajectory
            (List.range n.MotionData.MotionMatchConfig.TrajectoryTimes.length)
            n.DesiredTrajectory.TrajectoryPoints).map
              (fun Points => { n with DesiredTrajectory := ⟨Points⟩ })
        else some n
      match Copied with
      | none => none
      | some n =>
        if n.TimeSinceMotionUpdate ≥ n.UpdateInterval || n.bForcePoseSearch then
          SchedulePoseSearch host.Channel { n with TimeSinceMotionUpdate := 0 }
        else some n

/-! ## Mode state machine -/

/-- `FAnimNode_MotionMatching::InitializeMatchedTransition(Context)`.  `none`: an operation it
calls stops on an array index. -/
def InitializeMatchedTransition (host : FRepositoryOps) (n : FAnimNode_MotionMatching)
    (Context : FAnimationUpdateContext) : Option FAnimNode_MotionMatching :=
  let n := { n with TimeSinceMotionChosen := 0, TimeSinceMotionUpdate := 0 }
  match Context.MotionRecorderNode with
  | some CachedMotionPose =>
    match ComputeCurrentPose_Cached host n CachedMotionPose with
    | none => none
    | some n => ScheduleTransitionPoseSearch host.Channel n
  | none =>
    -- We just jump to the default pose because there is no way to match to external nodes.
    JumpToPose host.Channel n 0 0

/-- The locals of the section loop of `InitializeDistanceMatching`. -/
structure FLowestCostSection where
  LowestCostSection : Option FDistanceMatchSection := none
  LowestCost : ℚ := 10000000
  LowestCostTime : ℚ := -1
  LowestCostPoseId : Int := -1
  LowestLastKeyChecked : Int := 0

/-- Body of the section loop of `InitializeDistanceMatching`, in `float` arithmetic: every
operation on the `float` variable `Cost`, on the two multipliers and on the quotient of the
pose index is rounded to binary32; the values of the engine's `DistSquared` and of the two
cost helpers enter as the binary32 numbers nearest to their exact values.  `none`: the pose
index of the section's matched time is out of range. -/
def DistanceMatchStep (n : FAnimNode_MotionMatching) (FinalCalibration : FCalibrationData)
    (Lowest : FLowestCostSection) (Section : FDistanceMatchSection) :
    Option FLowestCostSection :=
  let OverridePoseMultiplier :=
    RoundToFloat (RoundToFloat (1 - n.OverrideQualityVsResponsivenessRatio) * 2)
  let OverrideTrajMultiplier := RoundToFloat (n.OverrideQualityVsResponsivenessRatio * 2)
  let Match := Section.FindMatchingTime n.DistanceMatchPayload.MarkerDistance 0
  let MatchTime := Match.1
  let LastKeyChecked := Match.2
  let PoseId := Section.StartPoseId
    + RoundToInt (RoundToFloat (MatchTime / n.MotionData.PoseInterval))
  match TArrayAt n.MotionData.Poses PoseId with
  | none => none
  | some Pose =>
    -- Trajectory Cost
    let Cost := RoundToFloat
      (RoundToFloat (ComputeTrajectoryCost n.DesiredTrajectory.TrajectoryPoints
          Pose.Trajectory FinalCalibration) * OverrideTrajMultiplier)
    -- Pose Cost
    let Cost := RoundToFloat (Cost + RoundToFloat
      (RoundToFloat (ComputePoseCost n.CurrentInterpolatedPose.JointData Pose.JointData
          FinalCalibration) * OverridePoseMultiplier))
    -- Body Velocity Cost
    let Cost := RoundToFloat (Cost + RoundToFloat (RoundToFloat
      (RoundToFloat (FVector.DistSquared n.CurrentInterpolatedPose.LocalVelocity
          Pose.LocalVelocity)
        * FinalCalibration.Weight_Momentum) * OverridePoseMultiplier))
    -- Rotational Momentum Cost
    let Cost := RoundToFloat (Cost + RoundToFloat (RoundToFloat
      (|RoundToFloat (n.CurrentInterpolatedPose.RotationalVelocity - Pose.RotationalVelocity)|
        * FinalCalibration.Weight_AngularMomentum) * OverridePoseMultiplier))
    let Cost := RoundToFloat (Cost * Pose.Favour)
    if Cost < Lowest.LowestCost then
      some { LowestCostSection := some Section, LowestCost := Cost, LowestCostTime := MatchTime,
             LowestCostPoseId := PoseId, LowestLastKeyChecked := LastKeyChecked }
    else some Lowest

/-- `FAnimNode_MotionMatching::InitializeDistanceMatching(Context)`.  `none`: an array index is
out of range, in the opening trajectory blending or in the search of the sections. -/
def InitializeDistanceMatching (host : FRepositoryOps) (n : FAnimNode_MotionMatching) :
    Option FAnimNode_MotionMatching :=
  match (if n.bBlendTrajectory then ApplyTrajectoryBlending n else some n) with
  | none => none
  | some n =>
    -- Filter the appropriate Distance Match Groups
    match n.MotionData.DistanceMatchSections n.DistanceMatchPayload.MatchType
        n.DistanceMatchPayload.MatchBasis, n.FinalCalibrationSets n.RequiredTraits with
    | none, _ => some n
    | some _, none => some n
    | some DistanceMatchGroup, some FinalCalibration =>
      -- Go through each section, find it's distance point and closest pose
      match DistanceMatchGroup.DistanceMatchSections.foldlM
          (DistanceMatchStep n FinalCalibration) {} with
      | none => none
      | some Lowest =>
        match Lowest.LowestCostSection with
        | none => some n
        | some LowestCostSection =>
          let n := { n with
            ActiveDistanceMatchSection := some LowestCostSection
            MotionMatchingMode := EMotionMatchingMode.DistanceMatching
            DistanceMatchTime := Lowest.LowestCostTime
            LastDistanceMatchKeyChecked := Lowest.LowestLastKeyChecked }
          match TArrayAt n.MotionData.Poses Lowest.LowestCostPoseId with
          | none => none
          | some Pose =>
            TransitionToPose host.Channel n Lowest.LowestCostPoseId
              (Lowest.LowestCostTime - Pose.Time)

/-- The locals of the action loop of `InitializeMotionAction`. -/
structure FBestAction where
  BestPoseId : Int := -1
  BestActionId : Int := -1
  BestActionCost : ℚ := 10000000
deriving DecidableEq, Inhabited

/-- Body of the action loop of `InitializeMotionAction` for the table entry `MotionAction` at
index `i`.  `none`: the lead-adjusted pose index is out of range (the clamp's upper bound is
`Poses.Num()`). -/
def MotionActionStep (n : FAnimNode_MotionMatching) (FinalCalibration : FCalibrationData)
    (PoseOffsetToStart : Int) (Best : FBestAction) (Entry : Nat × FMotionAction) :
    Option FBestAction :=
  let i := Entry.1
  let MotionAction := Entry.2
  if MotionAction.ActionId = n.MotionActionPayload.ActionId then
    let PoseId := ClampInt (MotionAction.PoseId - PoseOffsetToStart) 0
      n.MotionData.Poses.length
    match TArrayAt n.MotionData.Poses PoseId with
    | none => none
    | some Pose =>
      let Cost := ComputePoseCost Pose.JointData n.CurrentInterpolatedPose.JointData
        FinalCalibration
      let Cost := Cost * Pose.Favour
      if Cost < Best.BestActionCost then
        some { BestPoseId := Pose.PoseId, BestActionId := i, BestActionCost := Cost }
      else some Best
  else some Best

/-- `FAnimNode_MotionMatching::InitializeMotionAction(Context)`.  `none`: an array index is out
of range. -/
def InitializeMotionAction (host : FRepositoryOps) (n : FAnimNode_MotionMatching) :
    Option FAnimNode_MotionMatching :=
  -- Calculate how many poses prior to the action to use
  let PoseOffsetToStart : Int :=
    |RoundHalfFromZero (n.MotionActionPayload.LeadLength / n.MotionData.PoseInterval)|
  match n.FinalCalibrationSets n.RequiredTraits with
  | none => some n
  | some FinalCalibration =>
    -- Cost function on action poses
    match n.MotionData.Actions.enum.foldlM
        (MotionActionStep n FinalCalibration PoseOffsetToStart) {} with
    | none => none
    | some Best =>
      if Best.BestActionId > -1 then
        match TransitionToPose host.Channel n Best.BestPoseId 0 with
        | none => none
        | some n =>
          match TArrayAt n.MotionData.Actions Best.BestActionId with
          | none => none
          | some Action =>
            let n := { n with
              MotionMatchingMode := EMotionMatchingMode.Action
              CurrentActionId := Best.BestActionId }
            let n := { n with CurrentActionTime := Action.Time }
            let n := { n with
              CurrentActionEndTime := n.CurrentActionTime + n.MotionActionPayload.TailLength }
            some { n with
              CurrentActionTime := n.CurrentActionTime - n.MotionActionPayload.LeadLength }
      else some n

/-- `FAnimNode_MotionMatching::UpdateMotionMatchingState(DeltaTime, Context)`. -/
def UpdateMotionMatchingState (host : FRepositoryOps) (n : FAnimNode_MotionMatching)
    (DeltaTime : ℚ) (Context : FAnimationUpdateContext) : Option FAnimNode_MotionMatching :=
  if n.DistanceMatchPayload.bTrigger
      && n.DistanceMatchPayload.MatchType != EDistanceMatchType.None then
    InitializeDistanceMatching host n
  else if n.bTriggerTransition then
    match InitializeMatchedTransition host n Context with
    | none => none
    | some n => some { n with bTriggerTransition := false }
  else
    match UpdateMotionMatching host n DeltaTime Context with
    | none => none
    | some n => some (UpdateBlending host.Channel n DeltaTime)

/-- `FAnimNode_MotionMatching::UpdateDistanceMatching(DeltaTime, Context)`: the state after the
call and its return value.  `none`: there is no active section or the pool is empty. -/
def UpdateDistanceMatching (host : FRepositoryOps) (n : FAnimNode_MotionMatching)
    (DeltaTime : ℚ) : Option (FAnimNode_MotionMatching × Bool) :=
  let n := UpdateBlending host.Channel n DeltaTime
  match n.ActiveDistanceMatchSection with
  | none => none
  | some ActiveDistanceMatchSection =>
    let Match := ActiveDistanceMatchSection.FindMatchingTime
      n.DistanceMatchPayload.MarkerDistance n.LastDistanceMatchKeyChecked
    let n := { n with DistanceMatchTime := Match.1, LastDistanceMatchKeyChecked := Match.2 }
    match n.BlendChannels.getLast? with
    | none => none
    | some PrimaryChannel =>
      let n := { n with
        BlendChannels := n.BlendChannels.dropLast
          ++ [{ PrimaryChannel with AnimTime := n.DistanceMatchTime }] }
      if |RoundToFloat (n.DistanceMatchTime - ActiveDistanceMatchSection.EndTime)|
          < RoundToFloat (1 / 100) then
        some (n, false)
      else some (n, true)

/-- `FAnimNode_MotionMatching::UpdateDistanceMatchingState(DeltaTime, Context)`. -/
def UpdateDistanceMatchingState (host : FRepositoryOps) (n : FAnimNode_MotionMatching)
    (DeltaTime : ℚ) (Context : FAnimationUpdateContext) : Option FAnimNode_MotionMatching :=
  if n.DistanceMatchPayload.MatchType = EDistanceMatchType.None then
    InitializeMatchedTransition host
      { n with MotionMatchingMode := EMotionMatchingMode.MotionMatching } Context
  else
    match UpdateDistanceMatching host n DeltaTime with
    | none => none
    | some (n, true) => some n
    | some (n, false) =>
      match UpdateMotionMatching host
          { n with MotionMatchingMode := EMotionMatchingMode.MotionMatching }
          DeltaTime Context with
      | none => none
      | some n => some (UpdateBlending host.Channel n DeltaTime)

/-- `FAnimNode_MotionMatching::UpdateMotionActionState(DeltaTime, Context)`, with the `float`
rounding of the rate-adjusted delta time and of the three timers. -/
def UpdateMotionActionState (host : FRepositoryOps) (n : FAnimNode_MotionMatching)
    (DeltaTime : ℚ) : FAnimNode_MotionMatching :=
  let PlayRateAdjustedDeltaTime := RoundToFloat (DeltaTime * n.PlaybackRate)
  let n := { n with
    TimeSinceMotionChosen := RoundToFloat (n.TimeSinceMotionChosen + PlayRateAdjustedDeltaTime)
    TimeSinceMotionUpdate := RoundToFloat (n.TimeSinceMotionUpdate + PlayRateAdjustedDeltaTime)
    CurrentActionTime := RoundToFloat (n.CurrentActionTime + PlayRateAdjustedDeltaTime) }
  let n := UpdateBlending host.Channel n DeltaTime
  if n.CurrentActionTime ≥ n.CurrentActionEndTime then
    { n with MotionMatchingMode := EMotionMatchingMode.MotionMatching }
  else n

/-! ## Validation, initialization and the tick -/

/-- `FAnimNode_MotionMatching::GetPrimaryAnim()`: `some none` is the null pointer.  `none`: the
source index of the last channel is out of range. -/
def GetPrimaryAnim (n : FAnimNode_MotionMatching) : Option (Option UAnimSequenceBase) :=
  match n.BlendChannels.getLast? with
  | none => some none
  | some CurrentChannel =>
    match CurrentChannel.AnimType with
    | EMotionAnimAssetType.Sequence =>
      (n.MotionData.GetSourceAnimAtIndex CurrentChannel.AnimId).map (fun s => s.Sequence)
    | EMotionAnimAssetType.Composite =>
      (n.MotionData.GetSourceCompositeAtIndex CurrentChannel.AnimId).map
        (fun c => c.AnimComposite)
    | _ => some none

/-- The loop of `IsValidToEvaluate` that fills `FinalCalibrationSets`:
`FinalCalibrationSets.Add(Key, FCalibrationData()).GenerateFinalWeights(UserCalibration,
Value)` for each pair of the standard deviations. -/
def GenerateFinalCalibrationSets (host : FRepositoryOps) (UserCalibration : UMotionCalibration)
    (FeatureStandardDeviations : List (Nat × FCalibrationData))
    (FinalCalibrationSets : Nat → Option FCalibrationData) : Nat → Option FCalibrationData :=
  FeatureStandardDeviations.foldl (fun Sets Pair =>
    Function.update Sets Pair.1 (some (host.GenerateFinalWeights UserCalibration Pair.2)))
    FinalCalibrationSets

/-- `FAnimNode_MotionMatching::IsValidToEvaluate(InAnimInstanceProxy)`: the state after the call
and its return value.  The calls that initialize shared assets (`MMConfig->Initialize()`,
`InitializeRuntime()`, `ValidateData()`, `MirroringData.Initialize`) change no member read
here.  `none`: an array index is out of range; `BlendChannels.Last()` is taken after
`JumpToPose(0)` whether the primary clip is null or not, and stops on an empty pool. -/
def IsValidToEvaluate (host : FRepositoryOps) (n : FAnimNode_MotionMatching) :
    Option (FAnimNode_MotionMatching × Bool) :=
  if n.bValidToEvaluate then some (n, true)
  -- Validate Motion Data
  else if n.MotionDataIsNull then some ({ n with bValidToEvaluate := false }, false)
  -- Validate Motion Matching Configuration
  else if n.MotionData.MotionMatchConfigIsNull then some (n, false)
  else
    let MMConfig := n.MotionData.MotionMatchConfig
    let n := { n with
      CurrentInterpolatedPose :=
        host.NewPose MMConfig.TrajectoryTimes.length MMConfig.PoseBones.length }
    -- Validate MMConfig matches internal calibration
    if !n.MotionData.FeatureStandardDeviations.all
        (fun TraitCalibPair => host.IsValidWithConfig TraitCalibPair.2 MMConfig) then
      some (n, false)
    else
      -- Validate Motion Matching optimization is setup correctly otherwise revert to Linear
      let n := if n.PoseMatchMethod = EPoseMatchMethod.Optimized
          && n.MotionData.bOptimisationValid then n
        else { n with PoseMatchMethod := EPoseMatchMethod.Linear }
      -- If the user calibration is not set, get it from the Motion Data instead
      let n := match n.UserCalibration with
        | none => { n with UserCalibration := n.MotionData.PreprocessCalibration }
        | some _ => n
      match n.UserCalibration with
      | none => some (n, false)
      | some UserCalibration =>
        let n := { n with
          FinalCalibrationSets := GenerateFinalCalibrationSets host UserCalibration
            n.MotionData.FeatureStandardDeviations n.FinalCalibrationSets }
        match JumpToPose host.Channel n 0 0 with
        | none => none
        | some n =>
          match GetPrimaryAnim n with
          | none => none
          | some Sequence =>
            match n.BlendChannels.getLast? with
            | none => none
            | some PrimaryChannel =>
              match Sequence with
              | some Sequence =>
                let n := { n with
                  InternalTimeAccumulator :=
                    ClampFloat PrimaryChannel.AnimTime 0 Sequence.GetPlayLength }
                let n := if RoundToFloat (n.PlaybackRate * Sequence.RateScale) < 0
                  then { n with InternalTimeAccumulator := Sequence.GetPlayLength } else n
                some (n, true)
              | none => some (n, false)

/-- `FAnimNode_MotionMatching::InitializeWithPoseRecorder(Context)`: the registration of the
pose bones is a call on the recorder; the node keeps the remap of its pose bones. -/
def InitializeWithPoseRecorder (n : FAnimNode_MotionMatching)
    (Context : FAnimationUpdateContext) : FAnimNode_MotionMatching :=
  match Context.SkeletalMeshBoneRemap with
  | none => n
  | some FindBoneIndex =>
    { n with PoseBoneRemap := n.MotionData.MotionMatchConfig.PoseBones.map FindBoneIndex }

/-- `FAnimNode_MotionMatching::Initialize_AnyThread(Context)`, after the base class and the
exposed inputs have run. -/
def Initialize_AnyThread (host : FRepositoryOps) (n : FAnimNode_MotionMatching) :
    Option FAnimNode_MotionMatching :=
  let Validated := if !n.bValidToEvaluate then
      (IsValidToEvaluate host n).map (fun r => { r.1 with bValidToEvaluate := r.2 })
    else some n
  match Validated with
  | none => none
  | some n =>
    let n := { n with InternalTimeAccumulator := 0 }
    if n.MotionDataIsNull || !n.MotionData.bIsProcessed || !n.bValidToEvaluate then some n
    else
      let n := { n with MotionMatchingMode := EMotionMatchingMode.MotionMatching }
      if n.bInitialized then some { n with bTriggerTransition := true } else some n

/-- `FAnimNode_MotionMatching::UpdateAssetPlayer(Context)`, after the exposed inputs have run
and without the debug drawing; the tick record changes no member of the node.
`none`: an operation it calls stops on an array index, or the pool is empty at the
`BlendChannels.Last()` of the tick record. -/
def UpdateAssetPlayer (host : FRepositoryOps) (n : FAnimNode_MotionMatching)
    (Context : FAnimationUpdateContext) : Option FAnimNode_MotionMatching :=
  if n.MotionDataIsNull || !n.MotionData.bIsProcessed || !n.bValidToEvaluate then some n
  else
    let DeltaTime := Context.DeltaTime
    let n := if !n.bInitialized then
        { InitializeWithPoseRecorder n Context with bInitialized := true }
      else n
    -- Check for triggered action
    let Triggered := if n.MotionActionPayload.ActionId > -1 then InitializeMotionAction host n
      else some n
    match Triggered with
    | none => none
    | some n =>
      -- Update based on motion matching node
      let Updated := match n.MotionMatchingMode with
        | EMotionMatchingMode.MotionMatching =>
          UpdateMotionMatchingState host n DeltaTime Context
        | EMotionMatchingMode.DistanceMatching =>
          UpdateDistanceMatchingState host n DeltaTime Context
        | EMotionMatchingMode.Action => some (UpdateMotionActionState host n DeltaTime)
      match Updated with
      | none => none
      | some n => if n.BlendChannels.isEmpty then none else some n

/-! ## Evaluation -/

/-- The assignment `BlendSampleDataCache[i].Time = AnimTime` of the evaluation, for every
`i`. -/
def WriteSampleTimes (Cache : List FBlendSampleData) (AnimTime : ℚ) : List FBlendSampleData :=
  Cache.map (fun Sample => { Sample with Time := AnimTime })

/-- `FAnimNode_MotionMatching::EvaluateSinglePose(Output)`: the state after the call and the
output.  `none`: the pool is empty, a source index is out of range, or the null sequence of a
sequence source is dereferenced (the sequence case has no null guard). -/
def EvaluateSinglePose (host : FRepositoryOps) (n : FAnimNode_MotionMatching) :
    Option (FAnimNode_MotionMatching × FOutputPose) :=
  match n.BlendChannels.getLast? with
  | none => none
  | some PrimaryChannel =>
    let AnimTime := PrimaryChannel.AnimTime
    match PrimaryChannel.AnimType with
    | EMotionAnimAssetType.Sequence =>
      match n.MotionData.GetSourceAnimAtIndex PrimaryChannel.AnimId with
      | none => none
      | some MotionSequence =>
        match MotionSequence.Sequence with
        | none => none
        | some AnimSequence =>
          let AnimTime := if MotionSequence.bLoop
            then host.WrapAnimationTime AnimTime AnimSequence.GetPlayLength else AnimTime
          some (n, FOutputPose.Single
            ⟨FPoseSample.Clip AnimSequence AnimTime, PrimaryChannel.bMirrored⟩)
    | EMotionAnimAssetType.BlendSpace =>
      match n.MotionData.GetSourceBlendSpaceAtIndex PrimaryChannel.AnimId with
      | none => none
      | some MotionBlendSpace =>
        match MotionBlendSpace.BlendSpace with
        | none => some (n, FOutputPose.Single ⟨FPoseSample.Unsampled, PrimaryChannel.bMirrored⟩)
        | some _ =>
          let AnimTime := if MotionBlendSpace.bLoop
            then host.WrapAnimationTime AnimTime MotionBlendSpace.PlayLength else AnimTime
          let PrimaryChannel := { PrimaryChannel with
            BlendSampleDataCache := WriteSampleTimes PrimaryChannel.BlendSampleDataCache
              AnimTime }
          some ({ n with BlendChannels := n.BlendChannels.dropLast ++ [PrimaryChannel] },
            FOutputPose.Single
              ⟨FPoseSample.BlendSpace PrimaryChannel.AnimId PrimaryChannel.BlendSampleDataCache,
                PrimaryChannel.bMirrored⟩)
    | EMotionAnimAssetType.Composite =>
      match n.MotionData.GetSourceCompositeAtIndex PrimaryChannel.AnimId with
      | none => none
      | some MotionComposite =>
        match MotionComposite.AnimComposite with
        | none => some (n, FOutputPose.Single ⟨FPoseSample.Unsampled, PrimaryChannel.bMirrored⟩)
        | some Composite =>
          some (n, FOutputPose.Single
            ⟨FPoseSample.Clip Composite PrimaryChannel.AnimTime, PrimaryChannel.bMirrored⟩)
    | EMotionAnimAssetType.None =>
      some (n, FOutputPose.Single ⟨FPoseSample.Unsampled, PrimaryChannel.bMirrored⟩)

/-- The raw weight of the channel with index `i` in the extraction loop of
`EvaluateBlendPose`: `AnimChannel.Weight * ((float)(i + 1) / (float)PoseCount)`. -/
def RawBlendWeight (PoseCount : Nat) (i : Nat) (AnimChannel : FAnimChannelState) : ℚ :=
  AnimChannel.Weight * (((i : ℚ) + 1) / (PoseCount : ℚ))

/-- The `switch` and the mirroring of the extraction loop of `EvaluateBlendPose` for one
channel: the channel after the iteration and its pose buffer.  `none`: the source index is
out of range. -/
def ExtractChannelPose (host : FRepositoryOps) (d : UMotionDataAsset)
    (AnimChannel : FAnimChannelState) : Option (FAnimChannelState × FChannelPose) :=
  let AnimTime := AnimChannel.AnimTime
  match AnimChannel.AnimType with
  | EMotionAnimAssetType.Sequence =>
    match d.GetSourceAnimAtIndex AnimChannel.AnimId with
    | none => none
    | some MotionAnim =>
      match MotionAnim.Sequence with
      | none => some (AnimChannel, ⟨FPoseSample.Unsampled, AnimChannel.bMirrored⟩)
      | some AnimSequence =>
        let AnimTime := if MotionAnim.bLoop
          then host.WrapAnimationTime AnimTime AnimSequence.GetPlayLength else AnimTime
        some (AnimChannel, ⟨FPoseSample.Clip AnimSequence AnimTime, AnimChannel.bMirrored⟩)
  | EMotionAnimAssetType.BlendSpace =>
    match d.GetSourceBlendSpaceAtIndex AnimChannel.AnimId with
    | none => none
    | some MotionBlendSpace =>
      match MotionBlendSpace.BlendSpace with
      | none => some (AnimChannel, ⟨FPoseSample.Unsampled, AnimChannel.bMirrored⟩)
      | some _ =>
        let AnimTime := if MotionBlendSpace.bLoop
          then host.WrapAnimationTime AnimTime MotionBlendSpace.PlayLength else AnimTime
        let AnimChannel := { AnimChannel with
          BlendSampleDataCache := WriteSampleTimes AnimChannel.BlendSampleDataCache AnimTime }
        some (AnimChannel,
          ⟨FPoseSample.BlendSpace AnimChannel.AnimId AnimChannel.BlendSampleDataCache,
            AnimChannel.bMirrored⟩)
  | _ => some (AnimChannel, ⟨FPoseSample.Unsampled, AnimChannel.bMirrored⟩)

/-- `FAnimNode_MotionMatching::EvaluateBlendPose(Output)`: the state after the call and the
output.  `none`: a source index is out of range. -/
def EvaluateBlendPose (host : FRepositoryOps) (n : FAnimNode_MotionMatching) :
    Option (FAnimNode_MotionMatching × FOutputPose) :=
  let PoseCount := n.BlendChannels.length
  if PoseCount > 0 then
    -- Extract poses from each channel
    let ChannelWeights := n.BlendChannels.enum.map
      (fun Entry => RawBlendWeight PoseCount Entry.1 Entry.2)
    let TotalBlendPower := ChannelWeights.foldl (fun Total Weight => Total + Weight) 0
    match n.BlendChannels.mapM (ExtractChannelPose host n.MotionData) with
    | none => none
    | some Extracted =>
      let n := { n with BlendChannels := Extracted.map (fun Entry => Entry.1) }
      let ChannelPoses := Extracted.map (fun Entry => Entry.2)
      -- Blend poses together according to their weights
      if TotalBlendPower > 0 then
        let ChannelWeights := ChannelWeights.map (fun Weight => Weight / TotalBlendPower)
        some (n, FOutputPose.Blend ChannelPoses ChannelWeights)
      else
        match GetPrimaryAnim n, n.BlendChannels.getLast? with
        | some (some PrimaryAnim), some PrimaryChannel =>
          some (n, FOutputPose.Single
            ⟨FPoseSample.Clip PrimaryAnim PrimaryChannel.AnimTime, false⟩)
        | some _, _ => some (n, FOutputPose.Single ⟨FPoseSample.Unsampled, false⟩)
        | none, _ => none
  else
    some (n, FOutputPose.Single ⟨FPoseSample.Unsampled, false⟩)

/-- `FAnimNode_MotionMatching::Evaluate_AnyThread(Output)`; `bLODEnabled` is the value of
`IsLODEnabled(Output.AnimInstanceProxy)`. -/
def Evaluate_AnyThread (host : FRepositoryOps) (n : FAnimNode_MotionMatching)
    (bLODEnabled : Bool) : Option (FAnimNode_MotionMatching × FOutputPose) :=
  if n.MotionDataIsNull || !n.MotionData.bIsProcessed || !bLODEnabled then
    some (n, FOutputPose.RefPose)
  else
    let ChannelCount := n.BlendChannels.length
    if ChannelCount = 0 then some (n, FOutputPose.RefPose)
    else if ChannelCount > 1 && n.BlendTime > 1 / 100000 then EvaluateBlendPose host n
    else EvaluateSinglePose host n

end FAnimNode_MotionMatching

open FAnimNode_MotionMatching

/-! ## The stand-alone distance-matching node -/

/-- Engine `FMath::Lerp` on `float`: `A + Alpha * (B - A)`. -/
def LerpFloat (A B Alpha : ℚ) : ℚ :=
  A + Alpha * (B - A)

/-- Modelled from the spec: `FDistanceMatchingModule` (declaration not among the sources), the
member `DistanceMatchingModule` of the stand-alone node: the distance curve of the node's
sequence, taken through the lookup `FindMatchingTime(DesiredDistance, bNegateCurve)`, whose
body is not among the sources; the lookup may remember the last key it scanned, so it is
given that key and returns the time together with the new key. -/
structure FDistanceMatchingModule where
  LastKeyChecked : Int := 0
  FindMatchingTime : ℚ → Bool → Int → ℚ × Int := fun _ _ Key => (-1, Key)

/-- The members of `FAnimNode_DistanceMatching` that `UpdateAssetPlayer` reads and writes,
with the defaults of the constructor; `Sequence` and `InternalTimeAccumulator` are inherited
from the engine's sequence player, and `Sequence` is `none` for a null asset pointer. -/
structure FAnimNode_DistanceMatching where
  Sequence : Option UAnimSequenceBase := none
  InternalTimeAccumulator : ℚ := 0
  DesiredDistance : ℚ := 0
  DistanceMatchingModule : FDistanceMatchingModule := {}
  bNegateDistanceCurve : Bool := false
  MovementType : EDistanceMatchType := EDistanceMatchType.None
  DistanceLimit : ℚ := -1
  DestinationReachedThreshold : ℚ := 5
  SmoothRate : ℚ := -1
  SmoothTimeThreshold : ℚ := 15 / 100

/-- What `FAnimNode_DistanceMatching::UpdateAssetPlayer` takes from outside the sources: the
value of the console variable `a.AnimNode.MoSymph.DistanceMatch.Enabled`, and the engine's
`FAnimNode_SequencePlayer::UpdateAssetPlayer`, the normal playback of the base class. -/
structure FDistanceMatchingHost where
  Enabled : Int
  SequencePlayerUpdateAssetPlayer :
    FAnimationUpdateContext → FAnimNode_DistanceMatching → FAnimNode_DistanceMatching

/-- `FAnimNode_DistanceMatching::UpdateAssetPlayer(Context)`, on the node as the exposed
inputs of the graph have left it (`GetEvaluateGraphExposedInputs().Execute(Context)` is the
engine's call that writes the pins). -/
def FAnimNode_DistanceMatching.UpdateAssetPlayer (host : FDistanceMatchingHost)
    (n : FAnimNode_DistanceMatching) (Context : FAnimationUpdateContext) :
    FAnimNode_DistanceMatching :=
  match n.Sequence with
  | none => n
  | some Sequence =>
    if host.Enabled ≠ 0
        && (decide (n.DistanceLimit < 0) || decide (n.DesiredDistance < n.DistanceLimit)) then
      -- Evaluate Distance matching time
      let bDestinationReached := n.MovementType == EDistanceMatchType.Forward
        && decide (n.DesiredDistance < n.DestinationReachedThreshold)
      let Found : ℚ × Int :=
        if !bDestinationReached then
          n.DistanceMatchingModule.FindMatchingTime n.DesiredDistance n.bNegateDistanceCurve
            n.DistanceMatchingModule.LastKeyChecked
        else (-1, n.DistanceMatchingModule.LastKeyChecked)
      let Time := Found.1
      let n := { n with
        DistanceMatchingModule := { n.DistanceMatchingModule with LastKeyChecked := Found.2 } }
      if Time > -(1 / 2) then
        -- Clamp the time so that it cannot be beyond clip limits and so that the animation
        -- cannot run backward
        if decide (n.SmoothRate > 0)
            && decide (|Time - n.InternalTimeAccumulator| < n.SmoothTimeThreshold) then
          let DesiredTime := ClampFloat Time 0 Sequence.GetPlayLength
          { n with
            InternalTimeAccumulator :=
              LerpFloat n.InternalTimeAccumulator DesiredTime n.SmoothRate }
        else
          { n with InternalTimeAccumulator := ClampFloat Time 0 Sequence.GetPlayLength }
      else host.SequencePlayerUpdateAssetPlayer Context n
    else host.SequencePlayerUpdateAssetPlayer Context n

/-! ## Vocabulary of the statements -/

/-- Every weight of the calibration set is non-negative. -/
def FCalibrationData.NonNegative (Calibration : FCalibrationData) : Prop :=
  0 ≤ Calibration.Weight_Momentum ∧ 0 ≤ Calibration.Weight_AngularMomentum
    ∧ (∀ w ∈ Calibration.TrajectoryWeights, 0 ≤ w.Weight_Pos ∧ 0 ≤ w.Weight_Facing)
    ∧ (∀ w ∈ Calibration.PoseJointWeights, 0 ≤ w.Weight_Pos ∧ 0 ≤ w.Weight_Vel)

/-- The poses the linear scan skips: its `continue` guard. -/
def LinearSkips (n : FAnimNode_MotionMatching) (Pose : FPoseMotionData) : Bool :=
  Pose.bDoNotUse || Pose.Traits != n.RequiredTraits

/-- The momentum and angular-momentum terms of a pose's cost, with the pose multiplier. -/
def VelocityCost (n : FAnimNode_MotionMatching) (Calibration : FCalibrationData)
    (Pose : FPoseMotionData) : ℚ :=
  FVector.DistSquared n.CurrentInterpolatedPose.LocalVelocity Pose.LocalVelocity
      * Calibration.Weight_Momentum * ((1 - n.OverrideQualityVsResponsivenessRatio) * 2)
    + |n.CurrentInterpolatedPose.RotationalVelocity - Pose.RotationalVelocity|
      * Calibration.Weight_AngularMomentum * ((1 - n.OverrideQualityVsResponsivenessRatio) * 2)

/-- The cost of a pose before the favour factors: momentum + angular momentum + trajectory +
joint terms, with the override multipliers. -/
def RawCost (n : FAnimNode_MotionMatching) (Calibration : FCalibrationData)
    (Pose : FPoseMotionData) : ℚ :=
  VelocityCost n Calibration Pose
    + ComputeTrajectoryCost n.DesiredTrajectory.TrajectoryPoints Pose.Trajectory Calibration
      * (n.OverrideQualityVsResponsivenessRatio * 2)
    + ComputePoseCost n.CurrentInterpolatedPose.JointData Pose.JointData Calibration
      * ((1 - n.OverrideQualityVsResponsivenessRatio) * 2)

/-- The total cost of a pose as the cost formula words it: the raw cost times the pose's
Favour, times `CurrentPoseFavour` for the continuation pose when `bFavourCurrentPose` is
set. -/
def TotalCost (n : FAnimNode_MotionMatching) (Calibration : FCalibrationData)
    (NextPose Pose : FPoseMotionData) : ℚ :=
  RawCost n Calibration Pose * Pose.Favour
    * (if n.bFavourCurrentPose && Pose.PoseId == NextPose.PoseId then n.CurrentPoseFavour else 1)

/-- The channels of `Pending` that a tick of `UpdateBlending` keeps, each after its `Update`:
the last one always, another one unless its returned weight is below `-0.05f`. -/
def Survivors (ops : FAnimChannelOps) (DeltaTime BlendTime PlaybackRate : ℚ) :
    List FAnimChannelState → List FAnimChannelState
  | [] => []
  | Channel :: Rest =>
    if !Rest.isEmpty
        && (ops.Update Channel DeltaTime BlendTime Rest.isEmpty PlaybackRate).2
            < -(RoundToFloat (5 / 100))
    then Survivors ops DeltaTime BlendTime PlaybackRate Rest
    else (ops.Update Channel DeltaTime BlendTime Rest.isEmpty PlaybackRate).1
      :: Survivors ops DeltaTime BlendTime PlaybackRate Rest

/-- The source asset of a pose is present: its source type is sequence, blend space or
composite, its source index is in range and the asset pointer of that source is not null. -/
def SourceAssetPresent (d : UMotionDataAsset) (Pose : FPoseMotionData) : Bool :=
  match Pose.AnimType with
  | EMotionAnimAssetType.Sequence =>
    match d.GetSourceAnimAtIndex Pose.AnimId with
    | some Source => Source.Sequence.isSome
    | none => false
  | EMotionAnimAssetType.BlendSpace =>
    match d.GetSourceBlendSpaceAtIndex Pose.AnimId with
    | some Source => Source.BlendSpace.isSome
    | none => false
  | EMotionAnimAssetType.Composite =>
    match d.GetSourceCompositeAtIndex Pose.AnimId with
    | some Source => Source.AnimComposite.isSome
    | none => false
  | EMotionAnimAssetType.None => false

/-- The channel `Channel` is one created for `Pose` by a transition: the constructor's result
for that pose with the given status, weight 1.0, the pose's mirrored flag, the given elapsed
time and time offset (and some clip length, loop flag and play rate), possibly with its
blend-sample cache filled in afterwards. -/
def IsChannelFor (ops : FAnimChannelOps) (Pose : FPoseMotionData) (BlendStatus : EBlendStatus)
    (TimeSinceMotionChosen TimeOffset : ℚ) (Channel : FAnimChannelState) : Prop :=
  ∃ AnimLength bLoop PlayRate,
    Channel = ops.Construct Pose BlendStatus 1 AnimLength bLoop PlayRate Pose.bMirrored
      TimeSinceMotionChosen TimeOffset
    ∨ ∃ Cache, Channel = { ops.Construct Pose BlendStatus 1 AnimLength bLoop PlayRate
        Pose.bMirrored TimeSinceMotionChosen TimeOffset with BlendSampleDataCache := Cache }

/-- The condition under which the opening step of `SchedulePoseSearch` and
`InitializeDistanceMatching` returns: the trajectory blending is off, or `TrajectoryTimes` is
not empty and the desired trajectory and the current trajectory have a point at every index
of a positive time. -/
def TrajectoryBlendingReturns (n : FAnimNode_MotionMatching) : Prop :=
  n.bBlendTrajectory = true →
    n.MotionData.MotionMatchConfig.TrajectoryTimes ≠ []
    ∧ ∀ i, i < n.MotionData.MotionMatchConfig.TrajectoryTimes.length →
        n.MotionData.MotionMatchConfig.TrajectoryTimes.getD i 0 > 0 →
        i < n.DesiredTrajectory.TrajectoryPoints.length
          ∧ i < n.CurrentInterpolatedPose.Trajectory.length

/-- The node after the opening step of `SchedulePoseSearch` and `InitializeDistanceMatching`:
blended by `ApplyTrajectoryBlending` when `bBlendTrajectory` is set (the node itself where
the blending does not return), otherwise the node itself. -/
def BlendedTrajectoryState (n : FAnimNode_MotionMatching) : FAnimNode_MotionMatching :=
  if n.bBlendTrajectory then (ApplyTrajectoryBlending n).getD n else n

/-- The node of `SchedulePoseSearch` at its pose lookups: after the trajectory blending and the
clamp of `CurrentChosenPoseId`. -/
def SearchEntryState (n : FAnimNode_MotionMatching) : FAnimNode_MotionMatching :=
  { BlendedTrajectoryState n with
    CurrentChosenPoseId := ClampInt (BlendedTrajectoryState n).CurrentChosenPoseId 0
      ((BlendedTrajectoryState n).MotionData.Poses.length - 1) }

/-- The id that the search of `SchedulePoseSearch` returns: the switch on `PoseMatchMethod`. -/
def SearchedPoseId (n : FAnimNode_MotionMatching) (NextPose : FPoseMotionData) : Int :=
  match n.PoseMatchMethod with
  | EPoseMatchMethod.Optimized => GetLowestCostPoseId n NextPose
  | EPoseMatchMethod.Linear => GetLowestCostPoseId_Linear n NextPose

/-- The members that the transitions, the searches and the interpolation leave alone: the
mode, the database, the two payloads and the transition method. -/
def SameControl (n m : FAnimNode_MotionMatching) : Prop :=
  m.MotionMatchingMode = n.MotionMatchingMode ∧ m.MotionData = n.MotionData
    ∧ m.MotionActionPayload = n.MotionActionPayload
    ∧ m.DistanceMatchPayload = n.DistanceMatchPayload
    ∧ m.TransitionMethod = n.TransitionMethod

/-- Two cached blend-space samples that differ at most in their `Time`. -/
def SameSampleUpToTime (s s' : FBlendSampleData) : Prop :=
  s'.SampleDataIndex = s.SampleDataIndex ∧ s'.TotalWeight = s.TotalWeight

/-- Channel `c'` is channel `c` after an evaluation: every field but the sample cache is the
same, the cache holds the same samples in the same order up to their `Time`, and a channel
that does not play a blend space is the same altogether. -/
def EvaluatedChannel (c c' : FAnimChannelState) : Prop :=
  c' = { c with BlendSampleDataCache := c'.BlendSampleDataCache }
    ∧ List.Forall₂ SameSampleUpToTime c.BlendSampleDataCache c'.BlendSampleDataCache
    ∧ (c.AnimType ≠ EMotionAnimAssetType.BlendSpace → c' = c)

/-- The raw blend weights of a pool as the claim words them: channel `i` (0-based) of `n`
channels has `Weight_i * (i + 1) / n`. -/
def RawBlendWeights (Pool : List FAnimChannelState) : List ℚ :=
  Pool.enum.map (fun Entry => Entry.2.Weight * (((Entry.1 : ℚ) + 1) / (Pool.length : ℚ)))

/-- The state in which `InitializeDistanceMatching` looks up its group and runs its section
loop: after the optional trajectory blending. -/
def DistanceMatchEntryState (n : FAnimNode_MotionMatching) : FAnimNode_MotionMatching :=
  BlendedTrajectoryState n

/-- The pose index a section is matched at: `StartPoseId + RoundToInt(MatchTime /
PoseInterval)` for the payload's marker distance, the quotient being a `float`. -/
def SectionPoseId (n : FAnimNode_MotionMatching) (Section : FDistanceMatchSection) : Int :=
  Section.StartPoseId
    + RoundToInt (RoundToFloat
      ((Section.FindMatchingTime n.DistanceMatchPayload.MarkerDistance 0).1
        / n.MotionData.PoseInterval))

/-- The cost of a section in the loop of `InitializeDistanceMatching`, as the `float` that
the loop stores: the weighted trajectory, pose, momentum and angular-momentum costs of its
matched pose against the entry state, added in this order, times the pose's Favour, each
operation rounded to binary32. -/
def SectionCost (n : FAnimNode_MotionMatching) (Calibration : FCalibrationData)
    (Section : FDistanceMatchSection) : ℚ :=
  let e := DistanceMatchEntryState n
  let Pose := (TArrayAt n.MotionData.Poses (SectionPoseId n Section)).getD default
  let PoseMultiplier :=
    RoundToFloat (RoundToFloat (1 - n.OverrideQualityVsResponsivenessRatio) * 2)
  let TrajectoryMultiplier := RoundToFloat (n.OverrideQualityVsResponsivenessRatio * 2)
  let TrajectoryTerm := RoundToFloat
    (RoundToFloat (ComputeTrajectoryCost e.DesiredTrajectory.TrajectoryPoints Pose.Trajectory
        Calibration) * TrajectoryMultiplier)
  let PoseTerm := RoundToFloat
    (RoundToFloat (ComputePoseCost n.CurrentInterpolatedPose.JointData Pose.JointData
        Calibration) * PoseMultiplier)
  let MomentumTerm := RoundToFloat (RoundToFloat
    (RoundToFloat (FVector.DistSquared n.CurrentInterpolatedPose.LocalVelocity
        Pose.LocalVelocity)
      * Calibration.Weight_Momentum) * PoseMultiplier)
  let AngularTerm := RoundToFloat (RoundToFloat
    (|RoundToFloat (n.CurrentInterpolatedPose.RotationalVelocity - Pose.RotationalVelocity)|
      * Calibration.Weight_AngularMomentum) * PoseMultiplier)
  RoundToFloat
    (RoundToFloat (RoundToFloat (RoundToFloat (TrajectoryTerm + PoseTerm) + MomentumTerm)
        + AngularTerm)
      * Pose.Favour)

/-- The number of poses before the action that `InitializeMotionAction` starts at:
`|RoundHalfFromZero(LeadLength / PoseInterval)|`. -/
def PoseOffsetToStart (n : FAnimNode_MotionMatching) : Int :=
  |RoundHalfFromZero (n.MotionActionPayload.LeadLength / n.MotionData.PoseInterval)|

/-- The channels of `Pending` that a tick of `UpdateBlending` keeps, each after its `Update`
and paired with the weight that this `Update` returned: the last one always, another one
unless its returned weight is below `-0.05f`. -/
def SurvivorsWithWeight (ops : FAnimChannelOps) (DeltaTime BlendTime PlaybackRate : ℚ) :
    List FAnimChannelState → List (FAnimChannelState × ℚ)
  | [] => []
  | Channel :: Rest =>
    if !Rest.isEmpty
        && (ops.Update Channel DeltaTime BlendTime Rest.isEmpty PlaybackRate).2
            < -(RoundToFloat (5 / 100))
    then SurvivorsWithWeight ops DeltaTime BlendTime PlaybackRate Rest
    else ops.Update Channel DeltaTime BlendTime Rest.isEmpty PlaybackRate
      :: SurvivorsWithWeight ops DeltaTime BlendTime PlaybackRate Rest

/-- The weights that this tick's `Update` returned for the surviving channels, in pool
order. -/
def SurvivorWeights (ops : FAnimChannelOps) (DeltaTime BlendTime PlaybackRate : ℚ)
    (Pool : List FAnimChannelState) : List ℚ :=
  (SurvivorsWithWeight ops DeltaTime BlendTime PlaybackRate Pool).map (fun Entry => Entry.2)

/-- The test of `UpdateMotionMatching` for playback about to end, on the timer as the tick
has advanced it, in `float` arithmetic: the primary channel does not loop and the time since
the motion was chosen plus the channel's start time plus the early blend-out time exceeds the
clip length. -/
def PlaybackAboutToEnd (n : FAnimNode_MotionMatching) (DeltaTime : ℚ)
    (PrimaryChannel : FAnimChannelState) : Bool :=
  !PrimaryChannel.bLoop
    && decide (RoundToFloat
        (RoundToFloat
            (RoundToFloat (n.TimeSinceMotionChosen + RoundToFloat (DeltaTime * n.PlaybackRate))
              + PrimaryChannel.StartTime)
          + (if n.bBlendOutEarly then
              RoundToFloat (RoundToFloat (n.BlendTime * PrimaryChannel.Weight) * n.PlaybackRate)
            else 0))
      > PrimaryChannel.AnimLength)

/-- The node of `UpdateMotionMatching` when the current pose is computed: the timers advanced
by the rate-adjusted delta time, in `float` arithmetic, and the forced-search flag set from
the end-of-playback test only. -/
def TickStartState (n : FAnimNode_MotionMatching) (DeltaTime : ℚ)
    (PrimaryChannel : FAnimChannelState) : FAnimNode_MotionMatching :=
  { n with
    bForcePoseSearch := if PlaybackAboutToEnd n DeltaTime PrimaryChannel then true else false
    TimeSinceMotionChosen :=
      RoundToFloat (n.TimeSinceMotionChosen + RoundToFloat (DeltaTime * n.PlaybackRate))
    TimeSinceMotionUpdate :=
      RoundToFloat (n.TimeSinceMotionUpdate + RoundToFloat (DeltaTime * n.PlaybackRate)) }

/-- The node of `UpdateMotionMatching` right after the current pose has been computed, by the
overload that the context selects. -/
def PoseComputedInTick (host : FRepositoryOps) (n : FAnimNode_MotionMatching) (DeltaTime : ℚ)
    (Context : FAnimationUpdateContext) : Option FAnimNode_MotionMatching :=
  match n.BlendChannels.getLast? with
  | none => none
  | some PrimaryChannel =>
    match Context.MotionRecorderNode with
    | some CachedMotionPose =>
      ComputeCurrentPose_Cached host (TickStartState n DeltaTime PrimaryChannel)
        CachedMotionPose
    | none => ComputeCurrentPose host (TickStartState n DeltaTime PrimaryChannel)

/-- The node of `UpdateMotionMatching` at its decision to search, from the node `c` with the
freshly computed pose: the forced-search flag also set for a do-not-use pose, and the past
trajectory copied when the mode asks for it.  `none`: the copy leaves a trajectory array. -/
def SearchDecisionState (c : FAnimNode_MotionMatching) : Option FAnimNode_MotionMatching :=
  if c.PastTrajectoryMode = EPastTrajectoryMode.CopyFromCurrentPose then
    (CopyPastTrajectory c.MotionData.MotionMatchConfig.TrajectoryTimes
      c.CurrentInterpolatedPose.Trajectory
      (List.range c.MotionData.MotionMatchConfig.TrajectoryTimes.length)
      c.DesiredTrajectory.TrajectoryPoints).map
        (fun Points => { c with
          bForcePoseSearch :=
            if c.CurrentInterpolatedPose.bDoNotUse then true else c.bForcePoseSearch
          DesiredTrajectory := ⟨Points⟩ })
  else some { c with
    bForcePoseSearch :=
      if c.CurrentInterpolatedPose.bDoNotUse then true else c.bForcePoseSearch }

/-- The part of `SchedulePoseSearch` that follows the tolerance test, from the entry state
`e`: the cost search, then the transition unless the winner is at the same location. -/
def CostSearchAndTransition (ops : FAnimChannelOps) (e : FAnimNode_MotionMatching)
    (ChosenPose NextPose : FPoseMotionData) : Option FAnimNode_MotionMatching :=
  match TArrayAt e.MotionData.Poses (SearchedPoseId e NextPose) with
  | none => none
  | some BestPose =>
    if !(if !WinnerAtSameLocation BestPose e.CurrentInterpolatedPose
        then WinnerAtSameLocation BestPose ChosenPose
        else WinnerAtSameLocation BestPose e.CurrentInterpolatedPose)
    then TransitionToPose ops e BestPose.PoseId 0
    else some e

/-- The pose search of `SchedulePoseSearch` with the tolerance test left out: the opening
trajectory blending, the clamp and the two pose lookups, then the cost search. -/
def SearchSkippingToleranceTest (ops : FAnimChannelOps) (n : FAnimNode_MotionMatching) :
    Option FAnimNode_MotionMatching :=
  match (if n.bBlendTrajectory then ApplyTrajectoryBlending n else some n) with
  | none => none
  | some _ =>
    match TArrayAt (SearchEntryState n).MotionData.Poses
        (SearchEntryState n).CurrentChosenPoseId with
    | none => none
    | some ChosenPose =>
      match TArrayAt (SearchEntryState n).MotionData.Poses
          (ClampInt (if ChosenPose.NextPoseId < 0 then (SearchEntryState n).CurrentChosenPoseId
            else ChosenPose.NextPoseId) 0
            ((SearchEntryState n).MotionData.Poses.length - 1)) with
      | none => none
      | some NextPose => CostSearchAndTransition ops (SearchEntryState n) ChosenPose NextPose

/-- The time that the stand-alone node's lookup finds for the desired distance. -/
def MatchingTime (n : FAnimNode_DistanceMatching) : ℚ :=
  (n.DistanceMatchingModule.FindMatchingTime n.DesiredDistance n.bNegateDistanceCurve
    n.DistanceMatchingModule.LastKeyChecked).1

/-- Distance matching is applied in the tick of the stand-alone node: matching enabled, the
desired distance inside the limit (or no limit), the destination not reached and a matching
time greater than -0.5 found. -/
def DistanceMatchingApplied (host : FDistanceMatchingHost) (n : FAnimNode_DistanceMatching) :
    Prop :=
  host.Enabled ≠ 0
    ∧ (n.DistanceLimit < 0 ∨ n.DesiredDistance < n.DistanceLimit)
    ∧ ¬ (n.MovementType = EDistanceMatchType.Forward
        ∧ n.DesiredDistance < n.DestinationReachedThreshold)
    ∧ MatchingTime n > -(1 / 2)

/-! ## Concrete scenarios -/

namespace Scenario

/-- A trajectory sample on the X axis with facing angle 0. -/
def PointAt (x : ℚ) : FTrajectoryPoint := ⟨⟨x, 0, 0⟩, 0⟩

/-- A sequence pose of clip 0 with the given id, body velocity `(vx, 0, 0)` and Favour,
a three-sample trajectory at the origin, no joints, trait 0, and no neighbours. -/
def Pose (id : Int) (vx Favour : ℚ) : FPoseMotionData :=
  { PoseId := id, AnimType := EMotionAnimAssetType.Sequence, AnimId := 0, Time := 0,
    bMirrored := false, BlendSpacePosition := ⟨0, 0⟩, NextPoseId := -1, LastPoseId := -1,
    bDoNotUse := false, Traits := 0, Favour := Favour, LocalVelocity := ⟨vx, 0, 0⟩,
    RotationalVelocity := 0, Trajectory := [PointAt 0, PointAt 0, PointAt 0], JointData := [] }

/-- A database over the given poses: pose interval 0.1 s, three trajectory samples at offsets
-0.5 s, 0.5 s and 1 s, one looping sequence clip of 2 s, and a candidate filter that is
unavailable. -/
def Database (Poses : List FPoseMotionData) : UMotionDataAsset :=
  { Poses := Poses, PoseInterval := 1 / 10, MotionMatchConfig := { TrajectoryTimes := [-1 / 2, 1 / 2, 1] },
    SourceMotionAnims := [⟨some ⟨2, 1⟩, true, 1⟩], SourceBlendSpaces := [],
    SourceComposites := [], GetFilteredPoseList := fun _ _ _ => none }

/-- Calibration of the example scenario: `Weight_Momentum = 1`, every other weight 0. -/
def MomentumOnly : FCalibrationData := ⟨1, 0, [⟨0, 0⟩, ⟨0, 0⟩, ⟨0, 0⟩], []⟩

/-- A node over the given poses with the constructor's settings, `MomentumOnly` calibration
for every trait, a desired trajectory at the origin and a current pose at rest. -/
def Node (Poses : List FPoseMotionData) : FAnimNode_MotionMatching :=
  { MotionData := Database Poses, FinalCalibrationSets := fun _ => some MomentumOnly,
    DesiredTrajectory := ⟨[PointAt 0, PointAt 0, PointAt 0]⟩,
    CurrentInterpolatedPose := Pose 0 0 1 }

/-- A continuation pose whose trajectory is far off in the past sample and 10 and 20 units off
in the two future samples. -/
def DriftingPose : FPoseMotionData :=
  { Pose 1 0 1 with Trajectory := [PointAt 100, PointAt 10, PointAt 20] }

/-- The example scenario of the search: poses 0 to 3, pose 2 with body velocity `(1, 0, 0)`,
the others with `(5, 0, 0)`. -/
def ExamplePoses : List FPoseMotionData :=
  [Pose 0 5 1, Pose 1 5 1, Pose 2 1 1, Pose 3 5 1]

/-- The example node over the given poses with a candidate filter that answers the given
candidate list. -/
def FilteredNode (Poses Candidates : List FPoseMotionData) : FAnimNode_MotionMatching :=
  { Node Poses with
    MotionData := { Database Poses with GetFilteredPoseList := fun _ _ _ => some Candidates } }

/-- Two poses: pose 0 at rest and flagged do-not-use, pose 1 with velocity `(5, 0, 0)`. -/
def FlaggedPoses : List FPoseMotionData :=
  [{ Pose 0 0 1 with bDoNotUse := true }, Pose 1 5 1]

/-- Two poses of Favour 1: pose 0 at rest (the features of the current pose), pose 1 with
velocity `(1, 0, 0)`. -/
def RestPoses : List FPoseMotionData := [Pose 0 0 1, Pose 1 1 1]

/-- The channel of the crossfade scenario before the transition: a dominant channel of weight
1.0 on pose 0, of age 0. -/
def DominantChannel : FAnimChannelState :=
  SpecChannelOps.Construct (Pose 0 5 1) EBlendStatus.Dominant 1 2 true 1 false 0 0

/-- The crossfade scenario before the transition: transition method Blend, blend duration
0.3 s, and a pool holding the dominant channel. -/
def DominantNode : FAnimNode_MotionMatching :=
  { Node ExamplePoses with
    TransitionMethod := ETransitionMethod.Blend
    BlendChannels := [DominantChannel] }

/-- The crossfade scenario after `BlendToPose` to pose 2 has appended a second channel. -/
def CrossfadeNode : FAnimNode_MotionMatching :=
  (BlendToPose SpecChannelOps DominantNode 2 0).getD DominantNode

/-- Seven ticks of 0.05 s: 0.35 s in all. -/
def SevenTicks : List ℚ := [1 / 20, 1 / 20, 1 / 20, 1 / 20, 1 / 20, 1 / 20, 1 / 20]

/-- A database over the given poses whose only sequence clip and only composite have a null
asset pointer. -/
def NullAssetDatabase (Poses : List FPoseMotionData) : UMotionDataAsset :=
  { Database Poses with
    SourceMotionAnims := [⟨none, true, 1⟩]
    SourceComposites := [⟨none, false, 1⟩] }

/-- A node over the example poses, on the database with null assets, whose pool holds the
dominant channel. -/
def NullAssetNode : FAnimNode_MotionMatching :=
  { DominantNode with MotionData := NullAssetDatabase ExamplePoses }

/-- A composite pose of composite 0 with id 0. -/
def CompositePose : FPoseMotionData :=
  { Pose 0 5 1 with AnimType := EMotionAnimAssetType.Composite }

/-- A node over one composite pose, on the database with null assets, whose pool holds the
dominant channel. -/
def NullCompositeNode : FAnimNode_MotionMatching :=
  { DominantNode with MotionData := NullAssetDatabase [CompositePose] }

/-- A node over the example poses with the tolerance test switched off, a pool holding the
dominant channel, and `CurrentChosenPoseId = 5`, past the last pose id 3
(`ComputeCurrentPose` assigns `PoseIndex + NumPosesPassed` to it without a clamp). -/
def OutOfRangeNode : FAnimNode_MotionMatching :=
  { Node ExamplePoses with
    bEnableToleranceTest := false
    CurrentChosenPoseId := 5
    BlendChannels := [DominantChannel] }

/-- A node in Action mode, played at double rate, over the example poses: the action has run
for 0 s and ends at 0.1875 s, and the pool holds the dominant channel. -/
def DoubleRateActionNode : FAnimNode_MotionMatching :=
  { Node ExamplePoses with
    PlaybackRate := 2
    MotionMatchingMode := EMotionMatchingMode.Action
    CurrentActionTime := 0
    CurrentActionEndTime := 3 / 16
    BlendChannels := [DominantChannel] }

/-- The same action played at the constructor's rate 1. -/
def ActionNode : FAnimNode_MotionMatching :=
  { DoubleRateActionNode with PlaybackRate := 1 }

/-- The action at rate 1, 0.125 s after its start, with the end time `0.15f`. -/
def RoundedSumActionNode : FAnimNode_MotionMatching :=
  { ActionNode with
    CurrentActionTime := 1 / 8
    CurrentActionEndTime := RoundToFloat (15 / 100) }

/-- A node that blends its trajectory, with a desired trajectory one unit ahead on every
sample, a current pose at the origin, no distance-match group and a pool holding the dominant
channel. -/
def BlendingMissNode : FAnimNode_MotionMatching :=
  { Node ExamplePoses with
    bBlendTrajectory := true
    DesiredTrajectory := ⟨[PointAt 1, PointAt 1, PointAt 1]⟩
    DistanceMatchPayload := { bTrigger := true, MatchType := EDistanceMatchType.Other 0 }
    BlendChannels := [DominantChannel] }

/-- The same node with trajectory blending switched off, without calibration, and with a
requested action 3 that the (empty) action table does not hold. -/
def PlainMissNode : FAnimNode_MotionMatching :=
  { BlendingMissNode with
    bBlendTrajectory := false
    FinalCalibrationSets := fun _ => none
    MotionActionPayload := { ActionId := 3 } }

/-- The node of `OutOfRangeNode`, `CurrentChosenPoseId = 5` over four poses, without a
calibration set. -/
def UncalibratedOutOfRangeNode : FAnimNode_MotionMatching :=
  { OutOfRangeNode with FinalCalibrationSets := fun _ => none }

/-- A node over the example poses without a calibration set, with the tolerance test switched
off, a pool holding the dominant channel and the valid chosen pose 2. -/
def UncalibratedNode : FAnimNode_MotionMatching :=
  { OutOfRangeNode with FinalCalibrationSets := fun _ => none, CurrentChosenPoseId := 2 }

/-- A blend-space pose of blend space 0 with id 0. -/
def BlendSpacePose : FPoseMotionData :=
  { Pose 0 5 1 with AnimType := EMotionAnimAssetType.BlendSpace }

/-- A database whose pose 0 is the blend-space pose and whose pose 1 is a sequence pose, with
one looping blend space of 2 s that answers one sample of weight 1, and the preprocessing
results: one calibration set for trait 0 and the preprocess calibration. -/
def BlendSpaceDatabase : UMotionDataAsset :=
  { Database [BlendSpacePose, Pose 1 1 1] with
    SourceBlendSpaces := [⟨some ⟨fun _ => [⟨0, 1, 0⟩]⟩, true, 1, 2⟩]
    FeatureStandardDeviations := [(0, ⟨1, 1, [⟨1, 1⟩, ⟨1, 1⟩, ⟨1, 1⟩], []⟩)]
    PreprocessCalibration := some ⟨MomentumOnly⟩ }

/-- A channel that plays blend space 0 at sample time 0.5 s with one cached sample of
time 0. -/
def BlendSpaceChannel : FAnimChannelState :=
  { DominantChannel with
    AnimType := EMotionAnimAssetType.BlendSpace
    AnimTime := 1 / 2
    BlendSampleDataCache := [⟨0, 1, 0⟩] }

/-- A node over the blend-space database whose pool holds the blend-space channel. -/
def BlendSpaceNode : FAnimNode_MotionMatching :=
  { Node [BlendSpacePose, Pose 1 1 1] with
    MotionData := BlendSpaceDatabase
    BlendChannels := [BlendSpaceChannel] }

/-- A node over the example poses whose pool holds two sequence channels of weight 1, the
second at sample time 0.25 s. -/
def TwoSequenceNode : FAnimNode_MotionMatching :=
  { Node ExamplePoses with
    BlendChannels := [DominantChannel, { DominantChannel with AnimTime := 1 / 4 }] }

/-- The same pool with both weights 0. -/
def FadedSequenceNode : FAnimNode_MotionMatching :=
  { Node ExamplePoses with
    BlendChannels := [{ DominantChannel with Weight := 0 },
      { DominantChannel with Weight := 0, AnimTime := 1 / 4 }] }

/-- A node over the blend-space database whose pool holds two blend-space channels of
weight 0. -/
def FadedBlendSpaceNode : FAnimNode_MotionMatching :=
  { BlendSpaceNode with
    BlendChannels := [{ BlendSpaceChannel with Weight := 0 },
      { BlendSpaceChannel with Weight := 0 }] }

/-- A distance-match section that starts at pose 0, ends at 1 s, and whose marker lookup
answers the given matched time (leaving key 3). -/
def SectionAt (MatchedTime : ℚ) : FDistanceMatchSection :=
  { StartPoseId := 0, EndTime := 1, FindMatchingTime := fun _ _ => (MatchedTime, 3) }

/-- The example database with one distance-match group, for match type `Other 0` and basis 0,
holding the one section `SectionAt MatchedTime`. -/
def DistanceMatchDatabase (MatchedTime : ℚ) : UMotionDataAsset :=
  { Database ExamplePoses with
    DistanceMatchSections := fun MatchType MatchBasis =>
      if MatchType = EDistanceMatchType.Other 0 ∧ MatchBasis = 0
      then some ⟨[SectionAt MatchedTime]⟩ else none }

/-- A node in MotionMatching mode whose payload triggers distance matching of type `Other 0`,
over the database whose section is matched at 0.2 s, with a pool holding the dominant
channel. -/
def TriggeredNode : FAnimNode_MotionMatching :=
  { Node ExamplePoses with
    MotionData := DistanceMatchDatabase (1 / 5)
    DistanceMatchPayload := { bTrigger := true, MatchType := EDistanceMatchType.Other 0 }
    BlendChannels := [DominantChannel] }

/-- The same triggered node over the example database, which has no distance-match group. -/
def TriggeredMissNode : FAnimNode_MotionMatching :=
  { TriggeredNode with MotionData := Database ExamplePoses }

/-- Four poses of clip 0, 0.1 s apart, chained through their next and last pose ids (the first
pose is its own last pose and the last pose its own next pose). -/
def ChainedPoses : List FPoseMotionData :=
  [{ Pose 0 5 1 with NextPoseId := 1, LastPoseId := 0 },
   { Pose 1 5 1 with NextPoseId := 2, LastPoseId := 0, Time := 1 / 10 },
   { Pose 2 1 1 with NextPoseId := 3, LastPoseId := 1, Time := 2 / 10 },
   { Pose 3 5 1 with NextPoseId := 3, LastPoseId := 2, Time := 3 / 10 }]

/-- A node in DistanceMatching mode over the chained poses, with match type `Other 0`, whose
active section ends at 1 s and is matched at the given time, and whose pool holds the dominant
channel. -/
def DistanceMatchingNode (MatchedTime : ℚ) : FAnimNode_MotionMatching :=
  { Node ChainedPoses with
    MotionMatchingMode := EMotionMatchingMode.DistanceMatching
    DistanceMatchPayload := { MatchType := EDistanceMatchType.Other 0 }
    ActiveDistanceMatchSection := some (SectionAt MatchedTime)
    BlendChannels := [DominantChannel] }

/-- A section that ends at 0 s and is matched at `0.01f` s. -/
def ZeroEndSection : FDistanceMatchSection :=
  { SectionAt (RoundToFloat (1 / 100)) with EndTime := 0 }

/-- The node in DistanceMatching mode whose active section is `ZeroEndSection`. -/
def ZeroEndNode : FAnimNode_MotionMatching :=
  { DistanceMatchingNode (RoundToFloat (1 / 100)) with
    ActiveDistanceMatchSection := some ZeroEndSection }

/-- The node in DistanceMatching mode, matched far from the section's end, after the payload
has been cleared to match type None. -/
def ClearedPayloadNode : FAnimNode_MotionMatching :=
  { DistanceMatchingNode (1 / 2) with DistanceMatchPayload := {} }

/-- A valid node that has been initialized before, over the chained poses, left in Action mode
with a pool of two channels and no pending transition. -/
def InitializedNode : FAnimNode_MotionMatching :=
  { Node ChainedPoses with
    bValidToEvaluate := true
    bInitialized := true
    MotionMatchingMode := EMotionMatchingMode.Action
    InternalTimeAccumulator := 1 / 2
    TimeSinceMotionChosen := 1 / 4
    TimeSinceMotionUpdate := 1 / 20
    CurrentChosenPoseId := 2
    BlendChannels := [DominantChannel, { DominantChannel with StartPoseId := 2 }] }

/-- A freshly constructed node over the blend-space database: not yet validated, empty pool,
no user calibration of its own. -/
def BlendSpaceStartNode : FAnimNode_MotionMatching :=
  { MotionData := BlendSpaceDatabase }

/-- A node over the chained poses, searching every 0.125 s, whose pool holds one non-looping
channel of a clip of 2 s, chosen 2 s ago and searched 1/64 s ago, with the tolerance test
enabled. -/
def EndingClipNode : FAnimNode_MotionMatching :=
  { Node ChainedPoses with
    UpdateInterval := 1 / 8
    TimeSinceMotionChosen := 2
    TimeSinceMotionUpdate := 1 / 64
    BlendChannels := [{ DominantChannel with bLoop := false }] }

/-- The ending-clip node copying the past trajectory from the current pose, with an empty
desired trajectory. -/
def CopyStopNode : FAnimNode_MotionMatching :=
  { EndingClipNode with
    PastTrajectoryMode := EPastTrajectoryMode.CopyFromCurrentPose
    DesiredTrajectory := ⟨[]⟩ }

/-- A non-looping channel of a clip of 1 s that starts 2^-24 s into the clip. -/
def LateStartChannel : FAnimChannelState :=
  { DominantChannel with bLoop := false, StartTime := 1 / 16777216, AnimLength := 1 }

/-- A node over the chained poses, searching every 0.125 s and not blending out early, whose
pool holds `LateStartChannel`, chosen 31/32 s ago. -/
def RoundedEndNode : FAnimNode_MotionMatching :=
  { Node ChainedPoses with
    UpdateInterval := 1 / 8
    bBlendOutEarly := false
    TimeSinceMotionChosen := 31 / 32
    BlendChannels := [LateStartChannel] }

/-- A node over the chained poses (pose interval 0.1 s) whose pool holds the dominant channel
of pose 0, 1/30 s after the motion was chosen. -/
def ShortElapsedNode : FAnimNode_MotionMatching :=
  { Node ChainedPoses with
    TimeSinceMotionChosen := 1 / 30
    BlendChannels := [DominantChannel] }

/-- The same node over the four example poses, whose `NextPoseId` and `LastPoseId` are all the
sentinel -1. -/
def UnlinkedNode : FAnimNode_MotionMatching :=
  { Node ExamplePoses with
    TimeSinceMotionChosen := 1 / 30
    BlendChannels := [DominantChannel] }

/-- A node over a database of one pose, linked to itself, whose pool holds the dominant
channel of that pose, at the moment the motion was chosen. -/
def SinglePoseNode : FAnimNode_MotionMatching :=
  { Node [{ Pose 0 5 1 with NextPoseId := 0, LastPoseId := 0 }] with
    BlendChannels := [DominantChannel] }

/-- A node over a database of one composite pose whose composite asset is present (2 s long),
with a pool of two channels of which the second was the dominant one. -/
def CompositeNode : FAnimNode_MotionMatching :=
  { Node [CompositePose] with
    MotionData := { Database [CompositePose] with SourceComposites := [⟨some ⟨2, 1⟩, false, 1⟩] }
    DominantBlendChannel := 1
    BlendChannels := [DominantChannel, DominantChannel] }

/-- A host with distance matching enabled whose base-class playback leaves the node as it
is. -/
def EnabledHost : FDistanceMatchingHost :=
  { Enabled := 1, SequencePlayerUpdateAssetPlayer := fun _ n => n }

/-- A stand-alone distance-matching node on a clip of 1 s, at time 0.9 s, whose lookup finds
the time 1 s for every distance, with no distance limit, smoothing threshold 0.15 s and the
given smoothing rate. -/
def StandAloneNode (SmoothRate : ℚ) : FAnimNode_DistanceMatching :=
  { Sequence := some ⟨1, 1⟩
    InternalTimeAccumulator := 9 / 10
    DistanceMatchingModule := { FindMatchingTime := fun _ _ Key => (1, Key) }
    SmoothRate := SmoothRate }

/-- A pool of two channels with blend duration 1 s: the old channel of pose 0 at age 1 s, and
the current channel of pose 2 at weight 1.  A tick of `0.05f` s brings the old channel to
weight exactly `-0.05f`. -/
def BoundaryWeightNode : FAnimNode_MotionMatching :=
  { DominantNode with
    BlendTime := 1
    BlendChannels :=
      [{ DominantChannel with Age := 1 }, { DominantChannel with StartPoseId := 2 }] }

end Scenario

/-! # Verified properties -/

/-! ## Float literals -/

/-- A present optional value is its value with any default. -/
theorem eq_some_getD_of_isSome {α : Type} (o : Option α) (d : α) (h : o.isSome = true) :
    o = some (o.getD d) := by
  cases o with
  | none => cases h
  | some a => rfl

/-- The literal `0.05f`: the binary32 number nearest to 0.05, slightly above it. -/
theorem RoundToFloat_five_hundredths : RoundToFloat (5 / 100) = 13421773 / 268435456 := by
  decide!

/-- The literal `0.01f`: the binary32 number nearest to 0.01, slightly below it. -/
theorem RoundToFloat_one_hundredth : RoundToFloat (1 / 100) = 5368709 / 536870912 := by
  decide!

/-! ## Tolerance test -/

/-- The sample loop of `NextPoseToleranceTest` answers true exactly when every visited sample
with a positive prediction time is inside its position and angle band. -/
theorem NextPoseToleranceLoop_iff (n : FAnimNode_MotionMatching) (NextPose : FPoseMotionData)
    (l : List Nat) :
    NextPoseToleranceLoop n NextPose l = true ↔
      ∀ i ∈ l, 0 < n.MotionData.MotionMatchConfig.TrajectoryTimes.getD i 0 →
        (FVector.sub (NextPose.Trajectory.getD i default).Position
            (n.DesiredTrajectory.TrajectoryPoints.getD i default).Position).SizeSquared
          ≤ (n.MotionData.MotionMatchConfig.TrajectoryTimes.getD i 0 * n.PositionTolerance)
            * (n.MotionData.MotionMatchConfig.TrajectoryTimes.getD i 0 * n.PositionTolerance)
        ∧ |FindDeltaAngleDegrees (n.DesiredTrajectory.TrajectoryPoints.getD i default).RotationZ
              (NextPose.Trajectory.getD i default).RotationZ|
          ≤ n.MotionData.MotionMatchConfig.TrajectoryTimes.getD i 0 * n.RotationTolerance := by
  induction l with
  | nil => simp [NextPoseToleranceLoop]
  | cons i rest ih =>
    simp only [NextPoseToleranceLoop, List.mem_cons, forall_eq_or_imp]
    split_ifs with h1 h2 h3
    · simp only [Bool.false_eq_true, false_iff, not_and]
      intro h
      exact absurd (h h1).1 (not_le.mpr h2)
    · simp only [Bool.false_eq_true, false_iff, not_and]
      intro h
      exact absurd (h h1).2 (not_le.mpr h3)
    · rw [ih]
      constructor
      · intro h
        exact ⟨fun _ => ⟨not_lt.mp h2, not_lt.mp h3⟩, h⟩
      · intro h
        exact h.2
    · rw [ih]
      constructor
      · intro h
        exact ⟨fun h0 => absurd h0 h1, h⟩
      · intro h
        exact h.2

/-- For a pose that passes the guard, `NextPoseToleranceTest` is the sample loop over the first
`min(DesiredTrajectory.Num(), TrajectoryTimes.Num())` indices. -/
theorem NextPoseToleranceTest_eq_loop (n : FAnimNode_MotionMatching)
    (NextPose : FPoseMotionData) (hUse : NextPose.bDoNotUse = false)
    (hTrait : NextPose.Traits = n.RequiredTraits) :
    NextPoseToleranceTest n NextPose =
      NextPoseToleranceLoop n NextPose (List.range
        (min n.DesiredTrajectory.TrajectoryPoints.length
          n.MotionData.MotionMatchConfig.TrajectoryTimes.length)) := by
  simp [NextPoseToleranceTest, hUse, hTrait]

/-- Engine fact: the delta angle between an angle and itself is 0. -/
theorem FindDeltaAngleDegrees_self (a : ℚ) : FindDeltaAngleDegrees a a = 0 := by
  norm_num [FindDeltaAngleDegrees]

/-- Engine fact: the squared size of the difference of a vector with itself is 0. -/
theorem SizeSquared_sub_self (v : FVector) : (FVector.sub v v).SizeSquared = 0 := by
  simp [FVector.sub, FVector.SizeSquared]

/-- C4, as stated, fails: with a desired trajectory identical to the continuation pose's
trajectory, `NextPoseToleranceTest` still returns false for a pose flagged do-not-use, for a
pose of another trait, and (with a positive prediction time) under a negative
`RotationTolerance`. -/
theorem NextPoseToleranceTest_identical_rejected :
    (NextPoseToleranceTest (Scenario.Node []) { Scenario.Pose 1 0 1 with bDoNotUse := true }
        = false
      ∧ (Scenario.Node []).DesiredTrajectory.TrajectoryPoints
        = ({ Scenario.Pose 1 0 1 with bDoNotUse := true } : FPoseMotionData).Trajectory)
    ∧ (NextPoseToleranceTest (Scenario.Node []) { Scenario.Pose 1 0 1 with Traits := 7 }
        = false
      ∧ (Scenario.Node []).DesiredTrajectory.TrajectoryPoints
        = ({ Scenario.Pose 1 0 1 with Traits := 7 } : FPoseMotionData).Trajectory)
    ∧ (NextPoseToleranceTest { Scenario.Node [] with RotationTolerance := -1 }
        (Scenario.Pose 1 0 1) = false
      ∧ ({ Scenario.Node [] with RotationTolerance := -1 } :
          FAnimNode_MotionMatching).DesiredTrajectory.TrajectoryPoints
        = (Scenario.Pose 1 0 1).Trajectory) := by
  refine ⟨⟨?_, rfl⟩, ⟨?_, rfl⟩, ⟨?_, rfl⟩⟩ <;> decide!

/-- C4 (amended): for a continuation pose that is not flagged do-not-use and carries the
required trait, and a non-negative `RotationTolerance`: if the desired trajectory equals the
pose's trajectory at every visited index, `NextPoseToleranceTest` returns true. -/
theorem NextPoseToleranceTest_of_identical (n : FAnimNode_MotionMatching)
    (NextPose : FPoseMotionData) (hUse : NextPose.bDoNotUse = false)
    (hTrait : NextPose.Traits = n.RequiredTraits) (hRot : 0 ≤ n.RotationTolerance)
    (hSame : ∀ i, i < n.DesiredTrajectory.TrajectoryPoints.length →
      i < n.MotionData.MotionMatchConfig.TrajectoryTimes.length →
      n.DesiredTrajectory.TrajectoryPoints.getD i default = NextPose.Trajectory.getD i default) :
    NextPoseToleranceTest n NextPose = true := by
  rw [NextPoseToleranceTest_eq_loop n NextPose hUse hTrait, NextPoseToleranceLoop_iff]
  intro i hi ht
  rw [List.mem_range, lt_min_iff] at hi
  rw [hSame i hi.1 hi.2, SizeSquared_sub_self, FindDeltaAngleDegrees_self, abs_zero]
  exact ⟨mul_self_nonneg _, mul_nonneg ht.le hRot⟩

/-- Witness of C4 (amended): the example pose against the identical desired trajectory of the
example node. -/
theorem NextPoseToleranceTest_of_identical_witness :
    NextPoseToleranceTest (Scenario.Node []) (Scenario.Pose 1 0 1) = true :=
  NextPoseToleranceTest_of_identical (Scenario.Node []) (Scenario.Pose 1 0 1) rfl rfl
    (by decide!) (fun _ _ _ => rfl)

/-- C6: `NextPoseToleranceTest` is monotonic in the tolerance radius: if it returns true with
tolerances `P = PositionTolerance ≥ 0` and `R = RotationTolerance`, it returns true for the
same pose, desired trajectory and prediction times with any `P' ≥ P` and `R' ≥ R` (in
particular when `R ≥ 0`, which the proof does not need). -/
theorem NextPoseToleranceTest_mono (n : FAnimNode_MotionMatching) (NextPose : FPoseMotionData)
    (P' R' : ℚ) (hP : 0 ≤ n.PositionTolerance) (hPP : n.PositionTolerance ≤ P')
    (hRR : n.RotationTolerance ≤ R')
    (hTest : NextPoseToleranceTest n NextPose = true) :
    NextPoseToleranceTest { n with PositionTolerance := P', RotationTolerance := R' } NextPose
      = true := by
  have hGuard : (NextPose.bDoNotUse || NextPose.Traits != n.RequiredTraits) = false := by
    by_contra hne
    simp only [Bool.not_eq_false] at hne
    simp [NextPoseToleranceTest, hne] at hTest
  simp only [NextPoseToleranceTest, hGuard, Bool.false_eq_true, if_false] at hTest ⊢
  rw [NextPoseToleranceLoop_iff] at hTest ⊢
  intro i hi ht
  obtain ⟨h1, h2⟩ := hTest i hi ht
  have ht0 : 0 ≤ n.MotionData.MotionMatchConfig.TrajectoryTimes.getD i 0 := le_of_lt ht
  refine ⟨le_trans h1 ?_, le_trans h2 ?_⟩
  · exact mul_self_le_mul_self (mul_nonneg ht0 hP) (mul_le_mul_of_nonneg_left hPP ht0)
  · exact mul_le_mul_of_nonneg_left hRR ht0

/-- Witness of C6: the drifting pose passes with the default tolerances (50, 2) and therefore
with the wider tolerances (60, 3). -/
theorem NextPoseToleranceTest_mono_witness :
    NextPoseToleranceTest (Scenario.Node []) Scenario.DriftingPose = true
    ∧ NextPoseToleranceTest
        { Scenario.Node [] with PositionTolerance := 60, RotationTolerance := 3 }
        Scenario.DriftingPose = true :=
  ⟨by decide!, NextPoseToleranceTest_mono (Scenario.Node []) Scenario.DriftingPose 60 3
    (by decide!) (by decide!) (by decide!) (by decide!)⟩

/-! ## Candidate search -/

/-- Engine fact: a squared distance is non-negative. -/
theorem DistSquared_nonneg (a b : FVector) : 0 ≤ FVector.DistSquared a b := by
  unfold FVector.DistSquared
  have h1 := mul_self_nonneg (b.X - a.X)
  have h2 := mul_self_nonneg (b.Y - a.Y)
  have h3 := mul_self_nonneg (b.Z - a.Z)
  linarith

/-- Engine fact: the squared distance of a vector to itself is 0. -/
theorem DistSquared_self (a : FVector) : FVector.DistSquared a a = 0 := by
  simp [FVector.DistSquared]

/-- An accumulating loop `Cost += f i` adds the sum of the terms to its start value. -/
theorem foldl_add_eq_sum (f : Nat → ℚ) (l : List Nat) (a : ℚ) :
    l.foldl (fun Cost i => Cost + f i) a = a + (l.map f).sum := by
  induction l generalizing a with
  | nil => simp
  | cons x xs ih =>
    simp only [List.foldl_cons, List.map_cons, List.sum_cons]
    rw [ih]
    ring

/-- An accumulating loop `Cost += f i * m; Cost += g i * m` adds the sum of `f i + g i`, scaled
by `m`, to its start value. -/
theorem foldl_add_scaled (f g : Nat → ℚ) (m : ℚ) (l : List Nat) (a : ℚ) :
    l.foldl (fun Cost i => Cost + f i * m + g i * m) a
      = a + (l.map (fun i => f i + g i)).sum * m := by
  induction l generalizing a with
  | nil => simp
  | cons x xs ih =>
    simp only [List.foldl_cons, List.map_cons, List.sum_cons]
    rw [ih]
    ring

/-- The trajectory loop inlined by the filtered strategy adds `ComputeTrajectoryCost` times the
trajectory multiplier. -/
theorem inlined_trajectory_loop (Current Candidate : List FTrajectoryPoint)
    (Calibration : FCalibrationData) (m a : ℚ) :
    (List.range (min Current.length Calibration.TrajectoryWeights.length)).foldl (fun Cost i =>
      Cost
        + FVector.DistSquared (Candidate.getD i default).Position
            (Current.getD i default).Position
            * (Calibration.TrajectoryWeights.getD i default).Weight_Pos * m
        + |FindDeltaAngleDegrees (Candidate.getD i default).RotationZ
            (Current.getD i default).RotationZ|
            * (Calibration.TrajectoryWeights.getD i default).Weight_Facing * m) a
      = a + ComputeTrajectoryCost Current Candidate Calibration * m := by
  rw [foldl_add_scaled, ComputeTrajectoryCost, foldl_add_eq_sum, zero_add]
  rfl

/-- The joint loop inlined by the filtered strategy adds `ComputePoseCost` times the pose
multiplier. -/
theorem inlined_joint_loop (Current Candidate : List FJointData)
    (Calibration : FCalibrationData) (m a : ℚ) :
    (List.range Current.length).foldl (fun Cost i =>
      Cost
        + FVector.DistSquared (Current.getD i default).Velocity
            (Candidate.getD i default).Velocity
            * (Calibration.PoseJointWeights.getD i default).Weight_Vel * m
        + FVector.DistSquared (Current.getD i default).Position
            (Candidate.getD i default).Position
            * (Calibration.PoseJointWeights.getD i default).Weight_Pos * m) a
      = a + ComputePoseCost Current Candidate Calibration * m := by
  rw [foldl_add_scaled, ComputePoseCost, foldl_add_eq_sum, zero_add]
  rfl

/-- The loop body of the linear scan, in terms of the partial and total costs. -/
theorem LinearStep_eq (n : FAnimNode_MotionMatching) (Calibration : FCalibrationData)
    (NextPose : FPoseMotionData) (Lowest : ℚ × Int) (Pose : FPoseMotionData) :
    LinearStep n Calibration NextPose Lowest Pose =
      if LinearSkips n Pose then Lowest
      else if VelocityCost n Calibration Pose > Lowest.1 then Lowest
      else if VelocityCost n Calibration Pose
          + ComputeTrajectoryCost n.DesiredTrajectory.TrajectoryPoints Pose.Trajectory
              Calibration * (n.OverrideQualityVsResponsivenessRatio * 2) > Lowest.1 then Lowest
      else if TotalCost n Calibration NextPose Pose < Lowest.1
        then (TotalCost n Calibration NextPose Pose, Pose.PoseId)
      else Lowest := by
  cases hc : (n.bFavourCurrentPose && Pose.PoseId == NextPose.PoseId)
  · simp only [LinearStep, LinearSkips, TotalCost, RawCost, VelocityCost, hc,
      Bool.false_eq_true, if_false, mul_one]
  · simp only [LinearStep, LinearSkips, TotalCost, RawCost, VelocityCost, hc, if_true]

/-- The loop body of the filtered scan, in terms of the partial and total costs. -/
theorem FilteredStep_eq (n : FAnimNode_MotionMatching) (Calibration : FCalibrationData)
    (NextPose : FPoseMotionData) (Lowest : ℚ × Int) (Pose : FPoseMotionData) :
    FilteredStep n Calibration NextPose Lowest Pose =
      if VelocityCost n Calibration Pose > Lowest.1 then Lowest
      else if VelocityCost n Calibration Pose
          + ComputeTrajectoryCost n.DesiredTrajectory.TrajectoryPoints Pose.Trajectory
              Calibration * (n.OverrideQualityVsResponsivenessRatio * 2) > Lowest.1 then Lowest
      else if TotalCost n Calibration NextPose Pose < Lowest.1
        then (TotalCost n Calibration NextPose Pose, Pose.PoseId)
      else Lowest := by
  cases hc : (n.bFavourCurrentPose && Pose.PoseId == NextPose.PoseId)
  · simp only [FilteredStep, inlined_trajectory_loop, inlined_joint_loop, TotalCost, RawCost,
      VelocityCost, hc, Bool.false_eq_true, if_false, mul_one]
  · simp only [FilteredStep, inlined_trajectory_loop, inlined_joint_loop, TotalCost, RawCost,
      VelocityCost, hc, if_true, mul_right_comm _ n.CurrentPoseFavour Pose.Favour]

/-- Under a non-negative calibration every trajectory weight read by the loops is
non-negative (a read outside the array gives the zero weight set). -/
theorem trajectory_weight_nonneg (Calibration : FCalibrationData)
    (hW : Calibration.NonNegative) (i : Nat) :
    0 ≤ (Calibration.TrajectoryWeights.getD i default).Weight_Pos
      ∧ 0 ≤ (Calibration.TrajectoryWeights.getD i default).Weight_Facing := by
  by_cases h : i < Calibration.TrajectoryWeights.length
  · rw [List.getD_eq_getElem _ _ h]
    exact hW.2.2.1 _ (List.getElem_mem h)
  · rw [List.getD_eq_default _ _ (not_lt.mp h)]
    exact ⟨le_refl _, le_refl _⟩

/-- Under a non-negative calibration every joint weight read by the loops is non-negative. -/
theorem joint_weight_nonneg (Calibration : FCalibrationData)
    (hW : Calibration.NonNegative) (i : Nat) :
    0 ≤ (Calibration.PoseJointWeights.getD i default).Weight_Pos
      ∧ 0 ≤ (Calibration.PoseJointWeights.getD i default).Weight_Vel := by
  by_cases h : i < Calibration.PoseJointWeights.length
  · rw [List.getD_eq_getElem _ _ h]
    exact hW.2.2.2 _ (List.getElem_mem h)
  · rw [List.getD_eq_default _ _ (not_lt.mp h)]
    exact ⟨le_refl _, le_refl _⟩

/-- With non-negative weights the trajectory cost is non-negative. -/
theorem ComputeTrajectoryCost_nonneg (Current Candidate : List FTrajectoryPoint)
    (Calibration : FCalibrationData) (hW : Calibration.NonNegative) :
    0 ≤ ComputeTrajectoryCost Current Candidate Calibration := by
  rw [ComputeTrajectoryCost, foldl_add_eq_sum, zero_add]
  apply List.sum_nonneg
  intro x hx
  obtain ⟨i, _, rfl⟩ := List.mem_map.mp hx
  have hw := trajectory_weight_nonneg Calibration hW i
  exact add_nonneg (mul_nonneg (DistSquared_nonneg _ _) hw.1) (mul_nonneg (abs_nonneg _) hw.2)

/-- With non-negative weights the joint cost is non-negative. -/
theorem ComputePoseCost_nonneg (Current Candidate : List FJointData)
    (Calibration : FCalibrationData) (hW : Calibration.NonNegative) :
    0 ≤ ComputePoseCost Current Candidate Calibration := by
  rw [ComputePoseCost, foldl_add_eq_sum, zero_add]
  apply List.sum_nonneg
  intro x hx
  obtain ⟨i, _, rfl⟩ := List.mem_map.mp hx
  have hw := joint_weight_nonneg Calibration hW i
  exact add_nonneg (mul_nonneg (DistSquared_nonneg _ _) hw.2)
    (mul_nonneg (DistSquared_nonneg _ _) hw.1)

/-- The trajectory cost of a trajectory against itself is 0. -/
theorem ComputeTrajectoryCost_self (Current : List FTrajectoryPoint)
    (Calibration : FCalibrationData) :
    ComputeTrajectoryCost Current Current Calibration = 0 := by
  rw [ComputeTrajectoryCost, foldl_add_eq_sum, zero_add]
  apply List.sum_eq_zero
  intro x hx
  obtain ⟨i, _, rfl⟩ := List.mem_map.mp hx
  simp [TrajectoryPointCost, DistSquared_self, FindDeltaAngleDegrees_self]

/-- The joint cost of a joint set against itself is 0. -/
theorem ComputePoseCost_self (Current : List FJointData) (Calibration : FCalibrationData) :
    ComputePoseCost Current Current Calibration = 0 := by
  rw [ComputePoseCost, foldl_add_eq_sum, zero_add]
  apply List.sum_eq_zero
  intro x hx
  obtain ⟨i, _, rfl⟩ := List.mem_map.mp hx
  simp [JointCost, DistSquared_self]

/-- With non-negative weights and a ratio in `[0, 1]` the partial costs of a pose are
non-negative and grow term by term. -/
theorem partial_costs_nonneg (n : FAnimNode_MotionMatching) (Calibration : FCalibrationData)
    (Pose : FPoseMotionData) (hW : Calibration.NonNegative)
    (h0 : 0 ≤ n.OverrideQualityVsResponsivenessRatio)
    (h1 : n.OverrideQualityVsResponsivenessRatio ≤ 1) :
    0 ≤ VelocityCost n Calibration Pose
      ∧ VelocityCost n Calibration Pose ≤ VelocityCost n Calibration Pose
          + ComputeTrajectoryCost n.DesiredTrajectory.TrajectoryPoints Pose.Trajectory
              Calibration * (n.OverrideQualityVsResponsivenessRatio * 2)
      ∧ VelocityCost n Calibration Pose
          + ComputeTrajectoryCost n.DesiredTrajectory.TrajectoryPoints Pose.Trajectory
              Calibration * (n.OverrideQualityVsResponsivenessRatio * 2)
        ≤ RawCost n Calibration Pose := by
  have hp : 0 ≤ (1 - n.OverrideQualityVsResponsivenessRatio) * 2 := by linarith
  have ht : 0 ≤ n.OverrideQualityVsResponsivenessRatio * 2 := by linarith
  have hT := mul_nonneg (ComputeTrajectoryCost_nonneg n.DesiredTrajectory.TrajectoryPoints
    Pose.Trajectory Calibration hW) ht
  have hJ := mul_nonneg (ComputePoseCost_nonneg n.CurrentInterpolatedPose.JointData
    Pose.JointData Calibration hW) hp
  refine ⟨?_, by linarith, by unfold RawCost; linarith⟩
  unfold VelocityCost
  exact add_nonneg (mul_nonneg (mul_nonneg (DistSquared_nonneg _ _) hW.1) hp)
    (mul_nonneg (mul_nonneg (abs_nonneg _) hW.2.1) hp)

/-- A scan whose body leaves the state alone on skipped elements is the scan of the unskipped
elements. -/
theorem foldl_skip {α β : Type} (step : β → α → β) (skip : α → Bool)
    (hskip : ∀ acc p, skip p = true → step acc p = acc) (l : List α) (acc : β) :
    l.foldl step acc = (l.filter (fun p => !skip p)).foldl step acc := by
  induction l generalizing acc with
  | nil => rfl
  | cons x xs ih =>
    cases hx : skip x
    · simp [List.filter_cons, hx, ih]
    · simp [List.filter_cons, hx, ih, hskip acc x hx]

/-- With non-negative weights, a ratio in `[0, 1]`, Favour 1 and a non-negative
`CurrentPoseFavour`, the total cost of a pose is non-negative. -/
theorem TotalCost_nonneg (n : FAnimNode_MotionMatching) (Calibration : FCalibrationData)
    (NextPose Pose : FPoseMotionData) (hW : Calibration.NonNegative)
    (h0 : 0 ≤ n.OverrideQualityVsResponsivenessRatio)
    (h1 : n.OverrideQualityVsResponsivenessRatio ≤ 1) (hFav : Pose.Favour = 1)
    (hCPF : n.bFavourCurrentPose = true → 0 ≤ n.CurrentPoseFavour) :
    0 ≤ TotalCost n Calibration NextPose Pose := by
  obtain ⟨hv, hvt, htr⟩ := partial_costs_nonneg n Calibration Pose hW h0 h1
  have hr0 : 0 ≤ RawCost n Calibration Pose := by linarith
  unfold TotalCost
  rw [hFav, mul_one]
  split_ifs with hc
  · have hb : n.bFavourCurrentPose = true := by
      simp only [Bool.and_eq_true] at hc
      exact hc.1
    exact mul_nonneg hr0 (hCPF hb)
  · simpa using hr0

/-- The costs of a pose whose features are those of the current pose and whose trajectory is
the desired trajectory are all 0. -/
theorem costs_of_matching_pose (n : FAnimNode_MotionMatching) (Calibration : FCalibrationData)
    (NextPose p : FPoseMotionData)
    (hVel : n.CurrentInterpolatedPose.LocalVelocity = p.LocalVelocity)
    (hRot : n.CurrentInterpolatedPose.RotationalVelocity = p.RotationalVelocity)
    (hJoint : n.CurrentInterpolatedPose.JointData = p.JointData)
    (hTraj : n.DesiredTrajectory.TrajectoryPoints = p.Trajectory) :
    VelocityCost n Calibration p = 0
      ∧ ComputeTrajectoryCost n.DesiredTrajectory.TrajectoryPoints p.Trajectory Calibration = 0
      ∧ TotalCost n Calibration NextPose p = 0 := by
  have hv : VelocityCost n Calibration p = 0 := by
    simp [VelocityCost, hVel, hRot, DistSquared_self]
  have ht : ComputeTrajectoryCost n.DesiredTrajectory.TrajectoryPoints p.Trajectory
      Calibration = 0 := by
    rw [hTraj, ComputeTrajectoryCost_self]
  refine ⟨hv, ht, ?_⟩
  simp [TotalCost, RawCost, hv, ht, hJoint, ComputePoseCost_self]

/-- The filtered scan over candidates of non-negative total cost, started at a non-negative
state: the lowest cost stays non-negative, never grows, and the state is the start state or
the cost and id of a candidate. -/
theorem filtered_fold_state (n : FAnimNode_MotionMatching) (Calibration : FCalibrationData)
    (NextPose : FPoseMotionData) (l : List FPoseMotionData)
    (hT : ∀ q ∈ l, 0 ≤ TotalCost n Calibration NextPose q) (acc : ℚ × Int)
    (hacc : 0 ≤ acc.1) :
    0 ≤ (l.foldl (FilteredStep n Calibration NextPose) acc).1
      ∧ (l.foldl (FilteredStep n Calibration NextPose) acc).1 ≤ acc.1
      ∧ (l.foldl (FilteredStep n Calibration NextPose) acc = acc
        ∨ ∃ q ∈ l, l.foldl (FilteredStep n Calibration NextPose) acc
            = (TotalCost n Calibration NextPose q, q.PoseId)) := by
  induction l generalizing acc with
  | nil => exact ⟨hacc, le_refl _, Or.inl rfl⟩
  | cons x xs ih =>
    have hx := hT x (List.mem_cons_self x xs)
    have hT2 : ∀ q ∈ xs, 0 ≤ TotalCost n Calibration NextPose q :=
      fun q hq => hT q (List.mem_cons_of_mem x hq)
    rw [List.foldl_cons]
    have hstep : FilteredStep n Calibration NextPose acc x = acc
        ∨ (FilteredStep n Calibration NextPose acc x
            = (TotalCost n Calibration NextPose x, x.PoseId)
          ∧ TotalCost n Calibration NextPose x < acc.1) := by
      rw [FilteredStep_eq]
      split_ifs with ha hb hc
      · exact Or.inl rfl
      · exact Or.inl rfl
      · exact Or.inr ⟨rfl, hc⟩
      · exact Or.inl rfl
    rcases hstep with he | ⟨he, hlt⟩
    · rw [he]
      obtain ⟨r0, r1, r2⟩ := ih hT2 acc hacc
      refine ⟨r0, r1, ?_⟩
      rcases r2 with r2 | ⟨q, hq, r2⟩
      · exact Or.inl r2
      · exact Or.inr ⟨q, List.mem_cons_of_mem x hq, r2⟩
    · rw [he]
      obtain ⟨r0, r1, r2⟩ := ih hT2 (TotalCost n Calibration NextPose x, x.PoseId) hx
      refine ⟨r0, le_trans r1 (le_of_lt hlt), Or.inr ?_⟩
      rcases r2 with r2 | ⟨q, hq, r2⟩
      · exact ⟨x, List.mem_cons_self x xs, r2⟩
      · exact ⟨q, List.mem_cons_of_mem x hq, r2⟩

/-- The filtered scan over candidates of non-negative total cost that include a pose whose
costs are 0 ends with lowest cost 0. -/
theorem filtered_fold_zero (n : FAnimNode_MotionMatching) (Calibration : FCalibrationData)
    (NextPose p : FPoseMotionData) (l : List FPoseMotionData)
    (hT : ∀ q ∈ l, 0 ≤ TotalCost n Calibration NextPose q) (hp : p ∈ l)
    (hv : VelocityCost n Calibration p = 0)
    (ht : ComputeTrajectoryCost n.DesiredTrajectory.TrajectoryPoints p.Trajectory
      Calibration = 0)
    (hc : TotalCost n Calibration NextPose p = 0) (acc : ℚ × Int) (hacc : 0 ≤ acc.1) :
    (l.foldl (FilteredStep n Calibration NextPose) acc).1 = 0 := by
  induction l generalizing acc with
  | nil => exact absurd hp (List.not_mem_nil p)
  | cons x xs ih =>
    have hT2 : ∀ q ∈ xs, 0 ≤ TotalCost n Calibration NextPose q :=
      fun q hq => hT q (List.mem_cons_of_mem x hq)
    have hone := filtered_fold_state n Calibration NextPose [x]
      (fun q hq => hT q (by rw [List.mem_singleton.mp hq]; exact List.mem_cons_self x xs))
      acc hacc
    rw [List.foldl_cons]
    simp only [List.foldl_cons, List.foldl_nil] at hone
    rcases List.mem_cons.mp hp with rfl | hmem
    · have hz : (FilteredStep n Calibration NextPose acc p).1 = 0 := by
        rw [FilteredStep_eq, hv, ht, hc]
        simp only [zero_mul, add_zero, gt_iff_lt]
        split_ifs
        all_goals first
          | rfl
          | (exfalso; linarith)
          | (apply le_antisymm <;> linarith)
      obtain ⟨r0, r1, _⟩ := filtered_fold_state n Calibration NextPose xs hT2
        (FilteredStep n Calibration NextPose acc p) (le_of_eq hz.symm)
      exact le_antisymm (by rw [hz] at r1; exact r1) r0
    · exact ih hT2 hmem _ hone.1

/-- C3, as stated, fails for a ratio outside `[0, 1]`: with ratio 2 the pose multiplier is -2,
so although pose 0 has exactly the current features and the desired trajectory (cost 0),
all weights are non-negative and every Favour is 1, candidate pose 1 has cost -2 and the
filtered search returns it. -/
theorem matching_pose_not_minimum :
    ({ Scenario.FilteredNode Scenario.RestPoses Scenario.RestPoses with
        OverrideQualityVsResponsivenessRatio := 2 } :
        FAnimNode_MotionMatching).CurrentInterpolatedPose = Scenario.Pose 0 0 1
    ∧ ({ Scenario.FilteredNode Scenario.RestPoses Scenario.RestPoses with
        OverrideQualityVsResponsivenessRatio := 2 } :
        FAnimNode_MotionMatching).DesiredTrajectory.TrajectoryPoints
      = (Scenario.Pose 0 0 1).Trajectory
    ∧ TotalCost { Scenario.FilteredNode Scenario.RestPoses Scenario.RestPoses with
        OverrideQualityVsResponsivenessRatio := 2 } Scenario.MomentumOnly
        (Scenario.Pose 1 1 1) (Scenario.Pose 0 0 1) = 0
    ∧ TotalCost { Scenario.FilteredNode Scenario.RestPoses Scenario.RestPoses with
        OverrideQualityVsResponsivenessRatio := 2 } Scenario.MomentumOnly
        (Scenario.Pose 1 1 1) (Scenario.Pose 1 1 1) = -2
    ∧ GetLowestCostPoseId { Scenario.FilteredNode Scenario.RestPoses Scenario.RestPoses with
        OverrideQualityVsResponsivenessRatio := 2 } (Scenario.Pose 1 1 1) = 1 := by
  refine ⟨rfl, rfl, ?_, ?_, ?_⟩ <;> decide!

/-- C3 (amended): with a ratio in `[0, 1]` (and a non-negative `CurrentPoseFavour` when
`bFavourCurrentPose` is set): if the current interpolated pose's local velocity, rotational
velocity and joint features equal those of a candidate pose `p` and the desired trajectory
equals `p`'s trajectory, then with non-negative weights and every candidate's Favour equal to
1 the cost of `p` is 0, no candidate has a lower cost, and the id returned by the filtered
search over a candidate list containing `p` is the id of a candidate whose cost equals
`p`'s. -/
theorem matching_pose_is_minimum (n : FAnimNode_MotionMatching)
    (NextPose p : FPoseMotionData) (Calibration : FCalibrationData)
    (Candidates : List FPoseMotionData)
    (hCal : n.FinalCalibrationSets n.RequiredTraits = some Calibration)
    (hList : n.MotionData.GetFilteredPoseList n.CurrentInterpolatedPose n.RequiredTraits
      Calibration = some Candidates)
    (hp : p ∈ Candidates)
    (hVel : n.CurrentInterpolatedPose.LocalVelocity = p.LocalVelocity)
    (hRot : n.CurrentInterpolatedPose.RotationalVelocity = p.RotationalVelocity)
    (hJoint : n.CurrentInterpolatedPose.JointData = p.JointData)
    (hTraj : n.DesiredTrajectory.TrajectoryPoints = p.Trajectory)
    (hW : Calibration.NonNegative)
    (hFav : ∀ q ∈ Candidates, q.Favour = 1)
    (h0 : 0 ≤ n.OverrideQualityVsResponsivenessRatio)
    (h1 : n.OverrideQualityVsResponsivenessRatio ≤ 1)
    (hCPF : n.bFavourCurrentPose = true → 0 ≤ n.CurrentPoseFavour) :
    TotalCost n Calibration NextPose p = 0
    ∧ (∀ q ∈ Candidates,
        TotalCost n Calibration NextPose p ≤ TotalCost n Calibration NextPose q)
    ∧ ∃ q ∈ Candidates, GetLowestCostPoseId n NextPose = q.PoseId
        ∧ TotalCost n Calibration NextPose q = TotalCost n Calibration NextPose p := by
  obtain ⟨hv, ht, hc⟩ := costs_of_matching_pose n Calibration NextPose p hVel hRot hJoint hTraj
  have hT : ∀ q ∈ Candidates, 0 ≤ TotalCost n Calibration NextPose q :=
    fun q hq => TotalCost_nonneg n Calibration NextPose q hW h0 h1 (hFav q hq) hCPF
  refine ⟨hc, fun q hq => by rw [hc]; exact hT q hq, ?_⟩
  have hzero := filtered_fold_zero n Calibration NextPose p Candidates hT hp hv ht hc
    (10000000, 0) (by norm_num)
  obtain ⟨_, _, hstate⟩ := filtered_fold_state n Calibration NextPose Candidates hT
    (10000000, 0) (by norm_num)
  simp only [GetLowestCostPoseId, hCal, hList]
  rcases hstate with hs | ⟨q, hq, hs⟩
  · rw [hs] at hzero
    norm_num at hzero
  · refine ⟨q, hq, by rw [hs], ?_⟩
    rw [hs] at hzero
    rw [hc]
    exact hzero

/-- Witness of C3 (amended): with the default ratio 0.5, the pose at rest equals the current
features and the desired trajectory, and the filtered search over both poses returns it. -/
theorem matching_pose_is_minimum_witness :
    GetLowestCostPoseId (Scenario.FilteredNode Scenario.RestPoses Scenario.RestPoses)
        (Scenario.Pose 1 1 1) = 0
    ∧ (TotalCost (Scenario.FilteredNode Scenario.RestPoses Scenario.RestPoses)
          Scenario.MomentumOnly (Scenario.Pose 1 1 1) (Scenario.Pose 0 0 1) = 0
      ∧ (∀ q ∈ Scenario.RestPoses,
          TotalCost (Scenario.FilteredNode Scenario.RestPoses Scenario.RestPoses)
              Scenario.MomentumOnly (Scenario.Pose 1 1 1) (Scenario.Pose 0 0 1)
            ≤ TotalCost (Scenario.FilteredNode Scenario.RestPoses Scenario.RestPoses)
                Scenario.MomentumOnly (Scenario.Pose 1 1 1) q)
      ∧ ∃ q ∈ Scenario.RestPoses,
          GetLowestCostPoseId (Scenario.FilteredNode Scenario.RestPoses Scenario.RestPoses)
              (Scenario.Pose 1 1 1) = q.PoseId
          ∧ TotalCost (Scenario.FilteredNode Scenario.RestPoses Scenario.RestPoses)
              Scenario.MomentumOnly (Scenario.Pose 1 1 1) q
            = TotalCost (Scenario.FilteredNode Scenario.RestPoses Scenario.RestPoses)
              Scenario.MomentumOnly (Scenario.Pose 1 1 1) (Scenario.Pose 0 0 1)) :=
  ⟨by decide!,
    matching_pose_is_minimum (Scenario.FilteredNode Scenario.RestPoses Scenario.RestPoses)
      (Scenario.Pose 1 1 1) (Scenario.Pose 0 0 1) Scenario.MomentumOnly Scenario.RestPoses
      rfl rfl (by decide!) rfl rfl rfl rfl
      (by unfold FCalibrationData.NonNegative; decide!) (by decide!) (by decide!) (by decide!)
      (by decide!)⟩

/-! ## Blend-channel pool -/

/-- The loop of `UpdateBlending` leaves the kept channels followed by the survivors of the
pending ones. -/
theorem UpdateBlendingLoop_channels (ops : FAnimChannelOps) (DeltaTime BlendTime PlaybackRate : ℚ)
    (Pending Kept : List FAnimChannelState) (HighestBlendWeight : ℚ)
    (HighestBlendChannel : Int) :
    (UpdateBlendingLoop ops DeltaTime BlendTime PlaybackRate Pending Kept HighestBlendWeight
      HighestBlendChannel).1
      = Kept ++ Survivors ops DeltaTime BlendTime PlaybackRate Pending := by
  induction Pending generalizing Kept HighestBlendWeight HighestBlendChannel with
  | nil => simp [UpdateBlendingLoop, Survivors]
  | cons c rest ih =>
    simp only [UpdateBlendingLoop, Survivors]
    split_ifs <;> simp [ih]

/-- The survivors of a pool `Others ++ [Last]`: the other channels whose returned weight is not
below `-0.05f`, updated as non-current, then the last channel, updated as current. -/
theorem Survivors_concat (ops : FAnimChannelOps) (DeltaTime BlendTime PlaybackRate : ℚ)
    (Others : List FAnimChannelState) (Last : FAnimChannelState) :
    Survivors ops DeltaTime BlendTime PlaybackRate (Others ++ [Last])
      = Others.filterMap (fun c =>
          if (ops.Update c DeltaTime BlendTime false PlaybackRate).2
              < -(RoundToFloat (5 / 100)) then none
          else some (ops.Update c DeltaTime BlendTime false PlaybackRate).1)
        ++ [(ops.Update Last DeltaTime BlendTime true PlaybackRate).1] := by
  induction Others with
  | nil => simp [Survivors]
  | cons c rest ih =>
    have hne : (rest ++ [Last]).isEmpty = false := by
      cases rest <;> rfl
    rw [List.cons_append, Survivors, hne, ih, List.filterMap_cons]
    by_cases h : (ops.Update c DeltaTime BlendTime false PlaybackRate).2 < -(RoundToFloat (5 / 100))
    · simp [h]
    · simp [h]

/-- One tick of `UpdateBlending` on a pool `Others ++ [Last]`. -/
theorem UpdateBlending_channels (ops : FAnimChannelOps) (n : FAnimNode_MotionMatching)
    (DeltaTime : ℚ) (Others : List FAnimChannelState) (Last : FAnimChannelState)
    (hPool : n.BlendChannels = Others ++ [Last]) :
    (UpdateBlending ops n DeltaTime).BlendChannels
      = Others.filterMap (fun c =>
          if (ops.Update c DeltaTime n.BlendTime false n.PlaybackRate).2
              < -(RoundToFloat (5 / 100)) then none
          else some (ops.Update c DeltaTime n.BlendTime false n.PlaybackRate).1)
        ++ [(ops.Update Last DeltaTime n.BlendTime true n.PlaybackRate).1] := by
  simp only [UpdateBlending, UpdateBlendingLoop_channels, hPool, Survivors_concat,
    List.nil_append]


/-- One tick on a pool `Others ++ [Last]`, for a decay weight `1 - age/BlendTime` of the
non-current channels: the last channel stays last, and every other channel that is kept has
aged by the tick and is no older than `1 + 0.05f` blend durations. -/
theorem UpdateBlending_tick (ops : FAnimChannelOps) (n : FAnimNode_MotionMatching)
    (DeltaTime S : ℚ)
    (hAge : ∀ c dt bt pr, (ops.Update c dt bt false pr).1.Age = c.Age + dt)
    (hWeight : ∀ c dt bt pr,
      (ops.Update c dt bt false pr).2 = 1 - (ops.Update c dt bt false pr).1.Age / bt)
    (hBT : 0 < n.BlendTime) (Others : List FAnimChannelState) (Last : FAnimChannelState)
    (hPool : n.BlendChannels = Others ++ [Last]) (hAges : ∀ c ∈ Others, S ≤ c.Age) :
    ∃ Kept, (UpdateBlending ops n DeltaTime).BlendChannels
        = Kept ++ [(ops.Update Last DeltaTime n.BlendTime true n.PlaybackRate).1]
      ∧ ∀ c ∈ Kept, S + DeltaTime ≤ c.Age ∧ c.Age ≤ (1 + RoundToFloat (5 / 100)) * n.BlendTime := by
  refine ⟨_, UpdateBlending_channels ops n DeltaTime Others Last hPool, ?_⟩
  intro c hc
  obtain ⟨c0, hc0, hf⟩ := List.mem_filterMap.mp hc
  by_cases hw : (ops.Update c0 DeltaTime n.BlendTime false n.PlaybackRate).2
      < -(RoundToFloat (5 / 100))
  · simp [hw] at hf
  · simp only [hw, if_false, Option.some.injEq] at hf
    subst hf
    rw [hWeight] at hw
    have hdiv : (ops.Update c0 DeltaTime n.BlendTime false n.PlaybackRate).1.Age / n.BlendTime
        ≤ 1 + RoundToFloat (5 / 100) := by linarith
    refine ⟨?_, (div_le_iff₀ hBT).mp hdiv⟩
    rw [hAge]
    linarith [hAges c0 hc0]

/-- A run of ticks on a pool `Others ++ [Last]`, for a decay weight `1 - age/BlendTime`: the
last channel stays last, every other channel still in the pool has aged by the elapsed time,
and after at least one tick it is no older than `1 + 0.05f` blend durations. -/
theorem UpdateBlending_ticks (ops : FAnimChannelOps)
    (hAge : ∀ c dt bt pr, (ops.Update c dt bt false pr).1.Age = c.Age + dt)
    (hWeight : ∀ c dt bt pr,
      (ops.Update c dt bt false pr).2 = 1 - (ops.Update c dt bt false pr).1.Age / bt)
    (dts : List ℚ) (n : FAnimNode_MotionMatching) (S : ℚ) (hBT : 0 < n.BlendTime)
    (Others : List FAnimChannelState) (Last : FAnimChannelState)
    (hPool : n.BlendChannels = Others ++ [Last]) (hAges : ∀ c ∈ Others, S ≤ c.Age)
    (hOld : dts = [] → ∀ c ∈ Others, c.Age ≤ (1 + RoundToFloat (5 / 100)) * n.BlendTime) :
    ∃ Kept, (dts.foldl (UpdateBlending ops) n).BlendChannels
        = Kept ++ [dts.foldl
            (fun c dt => (ops.Update c dt n.BlendTime true n.PlaybackRate).1) Last]
      ∧ ∀ c ∈ Kept, S + dts.sum ≤ c.Age ∧ c.Age ≤ (1 + RoundToFloat (5 / 100)) * n.BlendTime := by
  induction dts generalizing n S Others Last with
  | nil =>
    refine ⟨Others, hPool, fun c hc => ⟨?_, hOld rfl c hc⟩⟩
    simpa using hAges c hc
  | cons dt rest ih =>
    obtain ⟨Kept1, hPool1, hKept1⟩ :=
      UpdateBlending_tick ops n dt S hAge hWeight hBT Others Last hPool hAges
    have hBT1 : (UpdateBlending ops n dt).BlendTime = n.BlendTime := rfl
    have hPR1 : (UpdateBlending ops n dt).PlaybackRate = n.PlaybackRate := rfl
    obtain ⟨Kept, hPool2, hKept⟩ := ih (UpdateBlending ops n dt) (S + dt)
      (by rw [hBT1]; exact hBT) Kept1 _ hPool1 (fun c hc => (hKept1 c hc).1)
      (fun _ c hc => by rw [hBT1]; exact (hKept1 c hc).2)
    rw [hBT1, hPR1] at hPool2
    rw [hBT1] at hKept
    refine ⟨Kept, hPool2, fun c hc => ⟨?_, (hKept c hc).2⟩⟩
    have := (hKept c hc).1
    rw [List.sum_cons]
    linarith

/-- A pool of one channel keeps one channel over any run of ticks. -/
theorem UpdateBlending_single (ops : FAnimChannelOps) (dts : List ℚ)
    (n : FAnimNode_MotionMatching) (h : n.BlendChannels.length = 1) :
    (dts.foldl (UpdateBlending ops) n).BlendChannels.length = 1 := by
  induction dts generalizing n with
  | nil => exact h
  | cons dt rest ih =>
    apply ih
    obtain ⟨c, hc⟩ := List.length_eq_one.mp h
    rw [UpdateBlending_channels ops n dt [] c (by rw [hc]; rfl)]
    rfl

/-- C9, as stated, fails: a channel is removed when its weight is below `-0.05f`, not below 0.
(1) In the crossfade scenario (blend duration 0.3 s, decay weight `1 - age/BlendTime`) one
tick of 0.31 s exceeds the blend duration and leaves the old channel, at weight -1/30, in the
pool.  (2) The threshold is the binary32 number `0.05f`, which is above 0.05: with blend
duration 1 s, a tick of 1 s and a tick of `0.05f` s exceed 1.05 blend durations and leave the
old channel, at weight exactly `-0.05f`, in the pool. -/
theorem pool_not_converged_after_blend_time :
    (Scenario.CrossfadeNode.BlendChannels.length = 2
      ∧ Scenario.CrossfadeNode.BlendTime < ([31 / 100] : List ℚ).sum
      ∧ (([31 / 100] : List ℚ).foldl (UpdateBlending SpecChannelOps)
          Scenario.CrossfadeNode).BlendChannels.length = 2
      ∧ (SpecChannelOps.Update Scenario.DominantChannel (31 / 100)
          Scenario.CrossfadeNode.BlendTime false Scenario.CrossfadeNode.PlaybackRate).2
        = -(1 / 30))
    ∧ (105 / 100 * ({ Scenario.CrossfadeNode with BlendTime := 1 } :
          FAnimNode_MotionMatching).BlendTime < ([1, RoundToFloat (5 / 100)] : List ℚ).sum
      ∧ (([1, RoundToFloat (5 / 100)] : List ℚ).foldl (UpdateBlending SpecChannelOps)
          { Scenario.CrossfadeNode with BlendTime := 1 }).BlendChannels.map
            (fun c => (c.StartPoseId, c.Weight))
        = [(0, -(RoundToFloat (5 / 100))), (2, 1)]) := by
  refine ⟨⟨?_, ?_, ?_, ?_⟩, ?_, ?_⟩ <;> decide!

/-- C9 (amended): with the decay weight of a non-current channel equal to
`1 - age/BlendTime` (the age growing by each tick's time), a positive blend duration and
non-negative ages, for every sequence of `UpdateBlending` ticks with no intervening
transition whose total elapsed time exceeds `1 + 0.05f` times the blend duration (`0.05f`
the binary32 number of the removal threshold), every channel that was not the last one before
the window has been removed: the pool holds exactly the last channel (as the ticks updated
it), and further ticks leave the pool at size 1. -/
theorem pool_converges_after_blend_time (ops : FAnimChannelOps) (n : FAnimNode_MotionMatching)
    (dts : List ℚ) (Others : List FAnimChannelState) (Last : FAnimChannelState)
    (hAge : ∀ c dt bt pr, (ops.Update c dt bt false pr).1.Age = c.Age + dt)
    (hWeight : ∀ c dt bt pr,
      (ops.Update c dt bt false pr).2 = 1 - (ops.Update c dt bt false pr).1.Age / bt)
    (hBT : 0 < n.BlendTime) (hPool : n.BlendChannels = Others ++ [Last])
    (hAges : ∀ c ∈ Others, 0 ≤ c.Age)
    (hSum : (1 + RoundToFloat (5 / 100)) * n.BlendTime < dts.sum) :
    (dts.foldl (UpdateBlending ops) n).BlendChannels
        = [dts.foldl (fun c dt => (ops.Update c dt n.BlendTime true n.PlaybackRate).1) Last]
    ∧ ∀ more : List ℚ,
        ((dts ++ more).foldl (UpdateBlending ops) n).BlendChannels.length = 1 := by
  have hne : dts ≠ [] := by
    rintro rfl
    simp only [List.sum_nil, RoundToFloat_five_hundredths] at hSum
    linarith
  obtain ⟨Kept, hRes, hKept⟩ := UpdateBlending_ticks ops hAge hWeight dts n 0 hBT Others Last
    hPool hAges (fun h => absurd h hne)
  have hNil : Kept = [] := by
    cases Kept with
    | nil => rfl
    | cons c rest =>
      obtain ⟨hlo, hhi⟩ := hKept c (List.mem_cons_self c rest)
      linarith
  rw [hNil, List.nil_append] at hRes
  refine ⟨hRes, fun more => ?_⟩
  rw [List.foldl_append]
  exact UpdateBlending_single ops more _ (by rw [hRes]; rfl)

/-- Witness of C9 (amended), the crossfade scenario: one dominant channel of weight 1.0, blend
duration 0.3 s, a second channel appended by `BlendToPose`, then seven ticks of 0.05 s
(0.35 s, more than `1 + 0.05f` times 0.3 s): only the new channel remains. -/
theorem pool_converges_after_blend_time_witness :
    ((BlendToPose SpecChannelOps Scenario.DominantNode 2 0).map
        (fun s => s.BlendChannels.length) = some 2
      ∧ ((Scenario.SevenTicks.foldl (UpdateBlending SpecChannelOps)
          Scenario.CrossfadeNode).BlendChannels.map (fun c => c.StartPoseId)) = [2])
    ∧ ((Scenario.SevenTicks.foldl (UpdateBlending SpecChannelOps)
          Scenario.CrossfadeNode).BlendChannels
        = [Scenario.SevenTicks.foldl (fun c dt => (SpecChannelOps.Update c dt
            Scenario.CrossfadeNode.BlendTime true Scenario.CrossfadeNode.PlaybackRate).1)
            (SpecChannelOps.Construct (Scenario.Pose 2 1 1) EBlendStatus.Chosen 1 2 true 1
              false 0 0)]
      ∧ ∀ more : List ℚ,
          ((Scenario.SevenTicks ++ more).foldl (UpdateBlending SpecChannelOps)
            Scenario.CrossfadeNode).BlendChannels.length = 1) :=
  ⟨⟨by decide!, by decide!⟩,
    pool_converges_after_blend_time SpecChannelOps Scenario.CrossfadeNode Scenario.SevenTicks
      [Scenario.DominantChannel]
      (SpecChannelOps.Construct (Scenario.Pose 2 1 1) EBlendStatus.Chosen 1 2 true 1 false 0 0)
      (fun _ _ _ _ => rfl) (fun _ _ _ _ => rfl) (by decide!) (by decide!) (by decide!)
      (by decide!)⟩

/-- A present source asset, case by case: the source entry and its non-null asset. -/
theorem SourceAssetPresent_cases (d : UMotionDataAsset) (Pose : FPoseMotionData)
    (hAsset : SourceAssetPresent d Pose = true) :
    (Pose.AnimType = EMotionAnimAssetType.Sequence
      ∧ ∃ Source Asset, d.GetSourceAnimAtIndex Pose.AnimId = some Source
        ∧ Source.Sequence = some Asset)
    ∨ (Pose.AnimType = EMotionAnimAssetType.BlendSpace
      ∧ ∃ Source Asset, d.GetSourceBlendSpaceAtIndex Pose.AnimId = some Source
        ∧ Source.BlendSpace = some Asset)
    ∨ (Pose.AnimType = EMotionAnimAssetType.Composite
      ∧ ∃ Source Asset, d.GetSourceCompositeAtIndex Pose.AnimId = some Source
        ∧ Source.AnimComposite = some Asset) := by
  unfold SourceAssetPresent at hAsset
  cases hType : Pose.AnimType with
  | None => simp [hType] at hAsset
  | Sequence =>
    simp only [hType] at hAsset
    cases hS : d.GetSourceAnimAtIndex Pose.AnimId with
    | none => simp [hS] at hAsset
    | some Source =>
      simp only [hS] at hAsset
      obtain ⟨Asset, hA⟩ := Option.isSome_iff_exists.mp hAsset
      exact Or.inl ⟨rfl, Source, Asset, rfl, hA⟩
  | BlendSpace =>
    simp only [hType] at hAsset
    cases hS : d.GetSourceBlendSpaceAtIndex Pose.AnimId with
    | none => simp [hS] at hAsset
    | some Source =>
      simp only [hS] at hAsset
      obtain ⟨Asset, hA⟩ := Option.isSome_iff_exists.mp hAsset
      exact Or.inr (Or.inl ⟨rfl, Source, Asset, rfl, hA⟩)
  | Composite =>
    simp only [hType] at hAsset
    cases hS : d.GetSourceCompositeAtIndex Pose.AnimId with
    | none => simp [hS] at hAsset
    | some Source =>
      simp only [hS] at hAsset
      obtain ⟨Asset, hA⟩ := Option.isSome_iff_exists.mp hAsset
      exact Or.inr (Or.inr ⟨rfl, Source, Asset, rfl, hA⟩)

/-- `JumpToPose` to a valid pose whose source asset is present returns a state whose pool is
exactly one channel created for that pose with Dominant status. -/
theorem JumpToPose_channels (ops : FAnimChannelOps) (n : FAnimNode_MotionMatching)
    (PoseId : Int) (TimeOffset : ℚ) (Pose : FPoseMotionData)
    (hPose : TArrayAt n.MotionData.Poses PoseId = some Pose)
    (hAsset : SourceAssetPresent n.MotionData Pose = true) :
    ∃ n' c, JumpToPose ops n PoseId TimeOffset = some n' ∧ n'.BlendChannels = [c]
      ∧ IsChannelFor ops Pose EBlendStatus.Dominant n.TimeSinceMotionUpdate TimeOffset c := by
  rcases SourceAssetPresent_cases n.MotionData Pose hAsset with
    ⟨hType, Source, Asset, hS, hA⟩ | ⟨hType, Source, Asset, hS, hA⟩
      | ⟨hType, Source, Asset, hS, hA⟩
  · simp only [JumpToPose, hPose, hType, hS, hA, Option.some.injEq]
    exact ⟨_, _, rfl, rfl, _, _, _, Or.inl rfl⟩
  · simp only [JumpToPose, hPose, hType, hS, hA, Option.some.injEq]
    exact ⟨_, _, rfl, rfl, _, _, _, Or.inr ⟨_, rfl⟩⟩
  · simp only [JumpToPose, hPose, hType, hS, hA, Option.some.injEq]
    exact ⟨_, _, rfl, rfl, _, _, _, Or.inl rfl⟩

/-- `BlendToPose` to a valid pose whose source asset is present returns a state whose pool is
the old pool followed by one channel created for that pose with Chosen status. -/
theorem BlendToPose_channels (ops : FAnimChannelOps) (n : FAnimNode_MotionMatching)
    (PoseId : Int) (TimeOffset : ℚ) (Pose : FPoseMotionData)
    (hPose : TArrayAt n.MotionData.Poses PoseId = some Pose)
    (hAsset : SourceAssetPresent n.MotionData Pose = true) :
    ∃ n' c, BlendToPose ops n PoseId TimeOffset = some n'
      ∧ n'.BlendChannels = n.BlendChannels ++ [c]
      ∧ IsChannelFor ops Pose EBlendStatus.Chosen n.TimeSinceMotionUpdate TimeOffset c := by
  rcases SourceAssetPresent_cases n.MotionData Pose hAsset with
    ⟨hType, Source, Asset, hS, hA⟩ | ⟨hType, Source, Asset, hS, hA⟩
      | ⟨hType, Source, Asset, hS, hA⟩
  · simp only [BlendToPose, hPose, hType, hS, hA, Option.some.injEq]
    exact ⟨_, _, rfl, rfl, _, _, _, Or.inl rfl⟩
  · simp only [BlendToPose, hPose, hType, hS, hA, Option.some.injEq]
    exact ⟨_, _, rfl, rfl, _, _, _, Or.inr ⟨_, rfl⟩⟩
  · simp only [BlendToPose, hPose, hType, hS, hA, Option.some.injEq]
    exact ⟨_, _, rfl, rfl, _, _, _, Or.inl rfl⟩

/-- C8, as stated, fails: `JumpToPose` empties the pool and, when the target pose's source
asset is null, leaves it empty (`if (!MotionAnim.Sequence) break;`).  From a pool of one
channel, a cut to the valid pose id 0, directly or through `TransitionToPose` with the
methods None and Inertialization, ends with an empty pool. -/
theorem transition_leaves_pool_empty :
    Scenario.NullAssetNode.BlendChannels.length = 1
    ∧ (TArrayAt Scenario.NullAssetNode.MotionData.Poses 0).isSome = true
    ∧ (JumpToPose SpecChannelOps Scenario.NullAssetNode 0 0).map (fun s => s.BlendChannels)
        = some []
    ∧ (TransitionToPose SpecChannelOps
          { Scenario.NullAssetNode with TransitionMethod := ETransitionMethod.None } 0 0).map
          (fun s => s.BlendChannels) = some []
    ∧ (TransitionToPose SpecChannelOps
          { Scenario.NullAssetNode with
            TransitionMethod := ETransitionMethod.Inertialization } 0 0).map
          (fun s => s.BlendChannels) = some [] := by
  refine ⟨?_, ?_, ?_, ?_, ?_⟩ <;> decide!

/-- C8 (amended): starting from a non-empty pool, `UpdateBlending` leaves the pool non-empty
and its last channel is the last channel of before, updated as the current channel (the tick
never removes or displaces it); and for a valid pose id whose source asset is present,
`JumpToPose`, `BlendToPose` and `TransitionToPose` (under every transition method) return a
state whose pool is non-empty and whose last channel is the channel created for that pose. -/
theorem blend_pool_invariant (ops : FAnimChannelOps) (n : FAnimNode_MotionMatching)
    (DeltaTime : ℚ) (PoseId : Int) (TimeOffset : ℚ) (Pose : FPoseMotionData)
    (hne : n.BlendChannels ≠ [])
    (hPose : TArrayAt n.MotionData.Poses PoseId = some Pose)
    (hAsset : SourceAssetPresent n.MotionData Pose = true) :
    ((UpdateBlending ops n DeltaTime).BlendChannels ≠ []
      ∧ (UpdateBlending ops n DeltaTime).BlendChannels.getLast?
        = some (ops.Update (n.BlendChannels.getLast hne) DeltaTime n.BlendTime true
            n.PlaybackRate).1)
    ∧ (∃ n' c, JumpToPose ops n PoseId TimeOffset = some n' ∧ n'.BlendChannels ≠ []
        ∧ n'.BlendChannels.getLast? = some c
        ∧ IsChannelFor ops Pose EBlendStatus.Dominant n.TimeSinceMotionUpdate TimeOffset c)
    ∧ (∃ n' c, BlendToPose ops n PoseId TimeOffset = some n' ∧ n'.BlendChannels ≠ []
        ∧ n'.BlendChannels.getLast? = some c
        ∧ IsChannelFor ops Pose EBlendStatus.Chosen n.TimeSinceMotionUpdate TimeOffset c)
    ∧ (∃ n' c Status, TransitionToPose ops n PoseId TimeOffset = some n'
        ∧ n'.BlendChannels ≠ [] ∧ n'.BlendChannels.getLast? = some c
        ∧ IsChannelFor ops Pose Status n.TimeSinceMotionUpdate TimeOffset c) := by
  obtain ⟨nJ, cJ, hJ, hJc, hJf⟩ := JumpToPose_channels ops n PoseId TimeOffset Pose hPose hAsset
  obtain ⟨nB, cB, hB, hBc, hBf⟩ := BlendToPose_channels ops n PoseId TimeOffset Pose hPose hAsset
  have hJ' : nJ.BlendChannels ≠ [] ∧ nJ.BlendChannels.getLast? = some cJ := by
    rw [hJc]
    exact ⟨List.cons_ne_nil _ _, rfl⟩
  have hB' : nB.BlendChannels ≠ [] ∧ nB.BlendChannels.getLast? = some cB := by
    rw [hBc]
    exact ⟨by simp, by simp⟩
  refine ⟨?_, ⟨nJ, cJ, hJ, hJ'.1, hJ'.2, hJf⟩, ⟨nB, cB, hB, hB'.1, hB'.2, hBf⟩, ?_⟩
  · rw [UpdateBlending_channels ops n DeltaTime n.BlendChannels.dropLast
      (n.BlendChannels.getLast hne) (List.dropLast_append_getLast hne).symm]
    exact ⟨by simp, by simp⟩
  · cases hM : n.TransitionMethod with
    | None => exact ⟨nJ, cJ, _, by simp only [TransitionToPose, hM, hJ], hJ'.1, hJ'.2, hJf⟩
    | Blend => exact ⟨nB, cB, _, by simp only [TransitionToPose, hM, hB], hB'.1, hB'.2, hBf⟩
    | Inertialization =>
      exact ⟨nJ, cJ, _, by simp only [TransitionToPose, hM, hJ], hJ'.1, hJ'.2, hJf⟩

/-- Witness of C8 (amended): the crossfade scenario's node, whose pool holds the dominant
channel, with the valid pose id 2 whose sequence asset is present; a crossfade leaves two
channels, the new one last. -/
theorem blend_pool_invariant_witness :
    (BlendToPose SpecChannelOps Scenario.DominantNode 2 0).map
        (fun s => s.BlendChannels.map (fun c => c.StartPoseId)) = some [0, 2]
    ∧ (((UpdateBlending SpecChannelOps Scenario.DominantNode (1 / 20)).BlendChannels ≠ []
        ∧ (UpdateBlending SpecChannelOps Scenario.DominantNode (1 / 20)).BlendChannels.getLast?
          = some (SpecChannelOps.Update
              (Scenario.DominantNode.BlendChannels.getLast (List.cons_ne_nil _ _)) (1 / 20)
              Scenario.DominantNode.BlendTime true Scenario.DominantNode.PlaybackRate).1)
      ∧ (∃ n' c, JumpToPose SpecChannelOps Scenario.DominantNode 2 0 = some n'
          ∧ n'.BlendChannels ≠ [] ∧ n'.BlendChannels.getLast? = some c
          ∧ IsChannelFor SpecChannelOps (Scenario.Pose 2 1 1) EBlendStatus.Dominant
              Scenario.DominantNode.TimeSinceMotionUpdate 0 c)
      ∧ (∃ n' c, BlendToPose SpecChannelOps Scenario.DominantNode 2 0 = some n'
          ∧ n'.BlendChannels ≠ [] ∧ n'.BlendChannels.getLast? = some c
          ∧ IsChannelFor SpecChannelOps (Scenario.Pose 2 1 1) EBlendStatus.Chosen
              Scenario.DominantNode.TimeSinceMotionUpdate 0 c)
      ∧ (∃ n' c Status, TransitionToPose SpecChannelOps Scenario.DominantNode 2 0 = some n'
          ∧ n'.BlendChannels ≠ [] ∧ n'.BlendChannels.getLast? = some c
          ∧ IsChannelFor SpecChannelOps (Scenario.Pose 2 1 1) Status
              Scenario.DominantNode.TimeSinceMotionUpdate 0 c)) :=
  ⟨by decide!,
    blend_pool_invariant SpecChannelOps Scenario.DominantNode (1 / 20) 2 0 (Scenario.Pose 2 1 1)
      (List.cons_ne_nil _ _) rfl rfl⟩

/-- C10, as stated, fails: when the target pose's source asset is null, `JumpToPose` clears the
pool and adds no channel.  A cut to the valid composite pose 0, whose composite asset is null,
leaves the pool empty. -/
theorem JumpToPose_leaves_no_channel :
    (TArrayAt Scenario.NullCompositeNode.MotionData.Poses 0).map (fun p => p.AnimType)
        = some EMotionAnimAssetType.Composite
    ∧ Scenario.NullCompositeNode.BlendChannels.length = 1
    ∧ (JumpToPose SpecChannelOps Scenario.NullCompositeNode 0 (1 / 10)).map
        (fun s => s.BlendChannels.length) = some 0 := by
  refine ⟨?_, ?_, ?_⟩ <;> decide!

/-- C10 (amended): for every valid pose id whose source asset is present and every prior pool
content, `JumpToPose(PoseId, TimeOffset)` returns a state whose pool contains exactly one
channel, created from that pose with Dominant status, weight 1.0 and the given time offset;
no channel of the previous pool remains. -/
theorem JumpToPose_single_channel (ops : FAnimChannelOps) (n : FAnimNode_MotionMatching)
    (PoseId : Int) (TimeOffset : ℚ) (Pose : FPoseMotionData)
    (hPose : TArrayAt n.MotionData.Poses PoseId = some Pose)
    (hAsset : SourceAssetPresent n.MotionData Pose = true) :
    ∃ n' c, JumpToPose ops n PoseId TimeOffset = some n' ∧ n'.BlendChannels = [c]
      ∧ IsChannelFor ops Pose EBlendStatus.Dominant n.TimeSinceMotionUpdate TimeOffset c := by
  rcases SourceAssetPresent_cases n.MotionData Pose hAsset with
    ⟨hType, Source, Asset, hS, hA⟩ | ⟨hType, Source, Asset, hS, hA⟩
      | ⟨hType, Source, Asset, hS, hA⟩
  · simp only [JumpToPose, hPose, hType, hS, hA, Option.some.injEq]
    exact ⟨_, _, rfl, rfl, _, _, _, Or.inl rfl⟩
  · simp only [JumpToPose, hPose, hType, hS, hA, Option.some.injEq]
    exact ⟨_, _, rfl, rfl, _, _, _, Or.inr ⟨_, rfl⟩⟩
  · simp only [JumpToPose, hPose, hType, hS, hA, Option.some.injEq]
    exact ⟨_, _, rfl, rfl, _, _, _, Or.inl rfl⟩

/-- Witness of C10 (amended): a cut of the crossfade scenario's two-channel pool to pose 3 with
time offset 0.1 leaves exactly the dominant channel of pose 3, of weight 1. -/
theorem JumpToPose_single_channel_witness :
    (JumpToPose SpecChannelOps Scenario.CrossfadeNode 3 (1 / 10)).map
        (fun s => s.BlendChannels.map
          (fun c => (c.StartPoseId, c.BlendStatus, c.Weight, c.AnimTime)))
      = some [(3, EBlendStatus.Dominant, 1, 1 / 10)]
    ∧ ∃ n' c, JumpToPose SpecChannelOps Scenario.CrossfadeNode 3 (1 / 10) = some n'
      ∧ n'.BlendChannels = [c]
      ∧ IsChannelFor SpecChannelOps (Scenario.Pose 3 5 1) EBlendStatus.Dominant
          Scenario.CrossfadeNode.TimeSinceMotionUpdate (1 / 10) c :=
  ⟨by decide!,
    JumpToPose_single_channel SpecChannelOps Scenario.CrossfadeNode 3 (1 / 10)
      (Scenario.Pose 3 5 1) rfl rfl⟩

/-! ## Scheduling a search -/

/-- The trajectory blending, where it returns, changes the desired trajectory only. -/
theorem ApplyTrajectoryBlending_frame (n b : FAnimNode_MotionMatching)
    (h : ApplyTrajectoryBlending n = some b) :
    b = { n with DesiredTrajectory := b.DesiredTrajectory } := by
  simp only [ApplyTrajectoryBlending] at h
  split at h
  · cases h
  · split at h
    · cases h
    · cases h
      rfl

/-- The loop of the trajectory blending returns exactly if the points and the current
trajectory have an element at every visited index of a positive time. -/
theorem ApplyTrajectoryBlendingLoop_isSome (n : FAnimNode_MotionMatching) (TotalTime : ℚ)
    (Indices : List Nat) (Points : List FTrajectoryPoint) :
    (ApplyTrajectoryBlendingLoop n TotalTime Indices Points).isSome = true
      ↔ ∀ i ∈ Indices, n.MotionData.MotionMatchConfig.TrajectoryTimes.getD i 0 > 0 →
          i < Points.length ∧ i < n.CurrentInterpolatedPose.Trajectory.length := by
  induction Indices generalizing Points with
  | nil => simp [ApplyTrajectoryBlendingLoop]
  | cons i Rest ih =>
    unfold ApplyTrajectoryBlendingLoop
    by_cases hT : n.MotionData.MotionMatchConfig.TrajectoryTimes.getD i 0 > 0
    · simp only [hT, if_true, List.forall_mem_cons, true_implies]
      cases hP : Points.get? i with
      | none =>
        have hLen := List.get?_eq_none.1 hP
        simp only [Option.isSome_none, Bool.false_eq_true, false_iff]
        intro h
        omega
      | some DesiredPoint =>
        have hLt : i < Points.length := by
          by_contra hNot
          rw [List.get?_eq_none.2 (not_lt.1 hNot)] at hP
          cases hP
        cases hC : n.CurrentInterpolatedPose.Trajectory.get? i with
        | none =>
          have hLen := List.get?_eq_none.1 hC
          simp only [Option.isSome_none, Bool.false_eq_true, false_iff]
          intro h
          omega
        | some CurrentPoint =>
          have hLtC : i < n.CurrentInterpolatedPose.Trajectory.length := by
            by_contra hNot
            rw [List.get?_eq_none.2 (not_lt.1 hNot)] at hC
            cases hC
          simp only []
          rw [ih, List.length_set]
          exact ⟨fun h => ⟨⟨hLt, hLtC⟩, h⟩, fun h => h.2⟩
    · simp only [hT, if_false, List.forall_mem_cons, false_implies, true_and]
      exact ih Points

/-- `ApplyTrajectoryBlending` returns exactly if `TrajectoryTimes` is not empty and the
desired and the current trajectory have a point at every index of a positive time. -/
theorem ApplyTrajectoryBlending_isSome (n : FAnimNode_MotionMatching) :
    (ApplyTrajectoryBlending n).isSome = true
      ↔ n.MotionData.MotionMatchConfig.TrajectoryTimes ≠ []
        ∧ ∀ i, i < n.MotionData.MotionMatchConfig.TrajectoryTimes.length →
            n.MotionData.MotionMatchConfig.TrajectoryTimes.getD i 0 > 0 →
            i < n.DesiredTrajectory.TrajectoryPoints.length
              ∧ i < n.CurrentInterpolatedPose.Trajectory.length := by
  unfold ApplyTrajectoryBlending
  cases hL : n.MotionData.MotionMatchConfig.TrajectoryTimes.getLast? with
  | none =>
    have hNil := List.getLast?_eq_none_iff.1 hL
    simp [hNil]
  | some LastTime =>
    have hNe : n.MotionData.MotionMatchConfig.TrajectoryTimes ≠ [] := by
      intro hNil
      rw [hNil] at hL
      cases hL
    simp only []
    have hLoop := ApplyTrajectoryBlendingLoop_isSome n (max (RoundToFloat (1 / 10000)) LastTime)
      (List.range n.MotionData.MotionMatchConfig.TrajectoryTimes.length)
      n.DesiredTrajectory.TrajectoryPoints
    simp only [List.mem_range] at hLoop
    cases hR : ApplyTrajectoryBlendingLoop n (max (RoundToFloat (1 / 10000)) LastTime)
      (List.range n.MotionData.MotionMatchConfig.TrajectoryTimes.length)
      n.DesiredTrajectory.TrajectoryPoints with
    | none =>
      rw [hR] at hLoop
      simp only [Option.isSome_none, Bool.false_eq_true, false_iff] at hLoop ⊢
      exact fun h => hLoop h.2
    | some Points =>
      rw [hR] at hLoop
      simp only [Option.isSome_some, true_iff] at hLoop ⊢
      exact ⟨hNe, hLoop⟩

/-- The blended state differs from the node in the desired trajectory only. -/
theorem BlendedTrajectoryState_frame (n : FAnimNode_MotionMatching) :
    BlendedTrajectoryState n
      = { n with DesiredTrajectory := (BlendedTrajectoryState n).DesiredTrajectory } := by
  unfold BlendedTrajectoryState
  by_cases hb : n.bBlendTrajectory = true
  · rw [if_pos hb]
    cases hA : ApplyTrajectoryBlending n with
    | none => rfl
    | some b => exact ApplyTrajectoryBlending_frame n b hA
  · rw [if_neg hb]

/-- Where the opening step returns, it returns the blended state. -/
theorem BlendedTrajectoryState_returns (n : FAnimNode_MotionMatching)
    (hBlend : TrajectoryBlendingReturns n) :
    (if n.bBlendTrajectory then ApplyTrajectoryBlending n else some n)
      = some (BlendedTrajectoryState n) := by
  unfold BlendedTrajectoryState
  by_cases hb : n.bBlendTrajectory = true
  · rw [if_pos hb, if_pos hb]
    exact eq_some_getD_of_isSome _ _ ((ApplyTrajectoryBlending_isSome n).2 (hBlend hb))
  · rw [if_neg hb, if_neg hb]

/-- Where the opening step does not return, neither do `SchedulePoseSearch` and
`InitializeDistanceMatching`. -/
theorem BlendedTrajectoryState_stops (n : FAnimNode_MotionMatching)
    (hBlend : ¬ TrajectoryBlendingReturns n) :
    (if n.bBlendTrajectory then ApplyTrajectoryBlending n else some n) = none := by
  unfold TrajectoryBlendingReturns at hBlend
  by_cases hb : n.bBlendTrajectory = true
  · rw [if_pos hb]
    cases hA : ApplyTrajectoryBlending n with
    | none => rfl
    | some b =>
      exact absurd (fun _ => (ApplyTrajectoryBlending_isSome n).1 (by rw [hA]; rfl)) hBlend
  · exact absurd (fun h => absurd h hb) hBlend

/-- The entry steps of `SchedulePoseSearch` keep the pool and the current interpolated pose and
clamp `CurrentChosenPoseId`. -/
theorem SearchEntryState_frame (n : FAnimNode_MotionMatching) :
    (SearchEntryState n).BlendChannels = n.BlendChannels
    ∧ (SearchEntryState n).CurrentInterpolatedPose = n.CurrentInterpolatedPose
    ∧ (SearchEntryState n).CurrentChosenPoseId
      = ClampInt n.CurrentChosenPoseId 0 (n.MotionData.Poses.length - 1) := by
  unfold SearchEntryState
  rw [BlendedTrajectoryState_frame n]
  exact ⟨rfl, rfl, rfl⟩

/-- `SchedulePoseSearch`, step by step from its entry state, where the opening step
returns. -/
theorem SchedulePoseSearch_eq (ops : FAnimChannelOps) (n : FAnimNode_MotionMatching)
    (hBlend : TrajectoryBlendingReturns n) :
    SchedulePoseSearch ops n =
      match TArrayAt (SearchEntryState n).MotionData.Poses
          (SearchEntryState n).CurrentChosenPoseId with
      | none => none
      | some ChosenPose =>
        match TArrayAt (SearchEntryState n).MotionData.Poses
            (ClampInt (if ChosenPose.NextPoseId < 0 then (SearchEntryState n).CurrentChosenPoseId
              else ChosenPose.NextPoseId) 0
              ((SearchEntryState n).MotionData.Poses.length - 1)) with
        | none => none
        | some NextPose =>
          if !(SearchEntryState n).bForcePoseSearch && (SearchEntryState n).bEnableToleranceTest
              && NextPoseToleranceTest (SearchEntryState n) NextPose then
            some { SearchEntryState n with TimeSinceMotionUpdate := 0 }
          else
            match TArrayAt (SearchEntryState n).MotionData.Poses
                (SearchedPoseId (SearchEntryState n) NextPose) with
            | none => none
            | some BestPose =>
              if !(if !WinnerAtSameLocation BestPose (SearchEntryState n).CurrentInterpolatedPose
                  then WinnerAtSameLocation BestPose ChosenPose
                  else WinnerAtSameLocation BestPose
                    (SearchEntryState n).CurrentInterpolatedPose)
              then TransitionToPose ops (SearchEntryState n) BestPose.PoseId 0
              else some (SearchEntryState n) := by
  simp only [SchedulePoseSearch, BlendedTrajectoryState_returns n hBlend]
  rfl

/-- A state keeps its own control members. -/
theorem SameControl_refl (n : FAnimNode_MotionMatching) : SameControl n n :=
  ⟨rfl, rfl, rfl, rfl, rfl⟩

/-- Keeping the control members composes. -/
theorem SameControl_trans {a b c : FAnimNode_MotionMatching} (h₁ : SameControl a b)
    (h₂ : SameControl b c) : SameControl a c :=
  ⟨h₂.1.trans h₁.1, h₂.2.1.trans h₁.2.1, h₂.2.2.1.trans h₁.2.2.1,
    h₂.2.2.2.1.trans h₁.2.2.2.1, h₂.2.2.2.2.trans h₁.2.2.2.2⟩

/-- A cut keeps the control members. -/
theorem JumpToPose_control (ops : FAnimChannelOps) (n m : FAnimNode_MotionMatching)
    (PoseId : Int) (TimeOffset : ℚ) (h : JumpToPose ops n PoseId TimeOffset = some m) :
    SameControl n m := by
  simp only [JumpToPose] at h
  repeat' split at h
  all_goals cases h <;> exact ⟨rfl, rfl, rfl, rfl, rfl⟩

/-- A crossfade keeps the control members. -/
theorem BlendToPose_control (ops : FAnimChannelOps) (n m : FAnimNode_MotionMatching)
    (PoseId : Int) (TimeOffset : ℚ) (h : BlendToPose ops n PoseId TimeOffset = some m) :
    SameControl n m := by
  simp only [BlendToPose] at h
  repeat' split at h
  all_goals cases h <;> exact ⟨rfl, rfl, rfl, rfl, rfl⟩

/-- A transition keeps the control members. -/
theorem TransitionToPose_control (ops : FAnimChannelOps) (n m : FAnimNode_MotionMatching)
    (PoseId : Int) (TimeOffset : ℚ) (h : TransitionToPose ops n PoseId TimeOffset = some m) :
    SameControl n m := by
  unfold TransitionToPose at h
  split at h
  · exact JumpToPose_control ops n m PoseId TimeOffset h
  · exact BlendToPose_control ops n m PoseId TimeOffset h
  · exact JumpToPose_control ops n m PoseId TimeOffset h

/-- A conditional between two optional results that returns a value returns it from one of
its branches. -/
theorem ite_eq_some_cases {α : Type} {c : Prop} [Decidable c] {x y : Option α} {m : α}
    (h : (if c then x else y) = some m) : x = some m ∨ y = some m := by
  by_cases hc : c
  · rw [if_pos hc] at h
    exact Or.inl h
  · rw [if_neg hc] at h
    exact Or.inr h

/-- The trajectory blending keeps the control members. -/
theorem ApplyTrajectoryBlending_control (n b : FAnimNode_MotionMatching)
    (h : (if n.bBlendTrajectory then ApplyTrajectoryBlending n else some n) = some b) :
    SameControl n b := by
  rcases ite_eq_some_cases h with h | h
  · rw [ApplyTrajectoryBlending_frame n b h]
    exact ⟨rfl, rfl, rfl, rfl, rfl⟩
  · cases h
    exact SameControl_refl n

/-- The blend update keeps the control members. -/
theorem UpdateBlending_control (ops : FAnimChannelOps) (n : FAnimNode_MotionMatching)
    (DeltaTime : ℚ) : SameControl n (UpdateBlending ops n DeltaTime) :=
  ⟨rfl, rfl, rfl, rfl, rfl⟩

/-- A scheduled pose search keeps the control members. -/
theorem SchedulePoseSearch_control (ops : FAnimChannelOps) (n m : FAnimNode_MotionMatching)
    (h : SchedulePoseSearch ops n = some m) : SameControl n m := by
  simp only [SchedulePoseSearch] at h
  cases hB : (if n.bBlendTrajectory then ApplyTrajectoryBlending n else some n) with
  | none =>
    rw [hB] at h
    cases h
  | some a =>
    rw [hB] at h
    have hA : SameControl n a := ApplyTrajectoryBlending_control n a hB
    simp only [] at h
    repeat' split at h
    all_goals first
      | exact SameControl_trans hA (SameControl_trans ⟨rfl, rfl, rfl, rfl, rfl⟩
          (TransitionToPose_control _ _ _ _ _ h))
      | (cases h <;> exact SameControl_trans hA ⟨rfl, rfl, rfl, rfl, rfl⟩)

/-- The interpolation of the current pose keeps the control members. -/
theorem ComputeCurrentPose_control (host : FRepositoryOps) (n m : FAnimNode_MotionMatching)
    (h : ComputeCurrentPose host n = some m) : SameControl n m := by
  simp only [ComputeCurrentPose, Option.bind_eq_bind, Option.bind_eq_some, Option.pure_def]
    at h
  obtain ⟨_, _, _, _, h⟩ := h
  split at h
  all_goals
    simp only [Option.bind_eq_bind, Option.bind_eq_some, Option.pure_def,
      Option.some.injEq] at h
    obtain ⟨_, _, _, _, h⟩ := h
    cases h
    exact ⟨rfl, rfl, rfl, rfl, rfl⟩

/-- The interpolation of the current pose from a recorded pose keeps the control members. -/
theorem ComputeCurrentPose_Cached_control (host : FRepositoryOps)
    (n m : FAnimNode_MotionMatching) (CachedMotionPose : FCachedMotionPose)
    (h : ComputeCurrentPose_Cached host n CachedMotionPose = some m) : SameControl n m := by
  simp only [ComputeCurrentPose_Cached] at h
  repeat' split at h
  all_goals cases h <;> exact ⟨rfl, rfl, rfl, rfl, rfl⟩

/-- The transition pose search keeps the control members. -/
theorem ScheduleTransitionPoseSearch_control (ops : FAnimChannelOps)
    (n m : FAnimNode_MotionMatching) (h : ScheduleTransitionPoseSearch ops n = some m) :
    SameControl n m :=
  JumpToPose_control ops n m _ 0 h

/-- The matched transition keeps the control members. -/
theorem InitializeMatchedTransition_control (host : FRepositoryOps)
    (n m : FAnimNode_MotionMatching) (Context : FAnimationUpdateContext)
    (h : InitializeMatchedTransition host n Context = some m) : SameControl n m := by
  simp only [InitializeMatchedTransition] at h
  split at h
  · split at h
    · cases h
    · rename_i a ha
      refine SameControl_trans ?_ (ScheduleTransitionPoseSearch_control host.Channel a m h)
      refine SameControl_trans ?_ (ComputeCurrentPose_Cached_control host _ a _ ha)
      exact ⟨rfl, rfl, rfl, rfl, rfl⟩
  · refine SameControl_trans ?_ (JumpToPose_control host.Channel _ m 0 0 h)
    exact ⟨rfl, rfl, rfl, rfl, rfl⟩

/-- The MotionMatching update keeps the control members. -/
theorem UpdateMotionMatching_control (host : FRepositoryOps) (n m : FAnimNode_MotionMatching)
    (DeltaTime : ℚ) (Context : FAnimationUpdateContext)
    (h : UpdateMotionMatching host n DeltaTime Context = some m) : SameControl n m := by
  simp only [UpdateMotionMatching] at h
  split at h
  · cases h
  · split at h
    · cases h
    · rename_i a ha
      have h₁ : SameControl n a := by
        split at ha
        · refine SameControl_trans ?_ (ComputeCurrentPose_Cached_control host _ a _ ha)
          exact ⟨rfl, rfl, rfl, rfl, rfl⟩
        · refine SameControl_trans ?_ (ComputeCurrentPose_control host _ a ha)
          exact ⟨rfl, rfl, rfl, rfl, rfl⟩
      refine SameControl_trans h₁ ?_
      split at h
      · cases h
      · rename_i b hb
        have h₂ : SameControl a b := by
          rcases ite_eq_some_cases hb with hb | hb
          · obtain ⟨Points, -, hP⟩ := Option.map_eq_some'.1 hb
            rw [← hP]
            exact ⟨rfl, rfl, rfl, rfl, rfl⟩
          · cases hb
            exact ⟨rfl, rfl, rfl, rfl, rfl⟩
        refine SameControl_trans h₂ ?_
        rcases ite_eq_some_cases h with h | h
        · refine SameControl_trans ?_ (SchedulePoseSearch_control host.Channel _ m h)
          exact ⟨rfl, rfl, rfl, rfl, rfl⟩
        · cases h
          exact ⟨rfl, rfl, rfl, rfl, rfl⟩

/-! ## Action mode -/

/-- C15, as stated, fails.  (1) `UpdateMotionActionState` advances the action's elapsed time
by `DeltaTime * PlaybackRate`, not by the wall-clock delta: at playback rate 2 a tick of
0.125 s takes `CurrentActionTime` from 0 to 0.25, and the mode leaves Action although the
elapsed time advanced by the wall-clock delta, 0.125, has not reached the end time 0.1875.
(2) The elapsed time is a `float`: at rate 1, from 0.125 s, a tick of `0.025f` s stores the
rounded sum `0.15f`, which has reached the end time `0.15f`, and the mode leaves Action
although the exact sum is below the end time. -/
theorem UpdateMotionActionState_scales_delta :
    (Scenario.DoubleRateActionNode.MotionMatchingMode = EMotionMatchingMode.Action
      ∧ Scenario.DoubleRateActionNode.CurrentActionTime = 0
      ∧ (UpdateMotionActionState SpecRepositoryOps Scenario.DoubleRateActionNode
          (1 / 8)).CurrentActionTime = 1 / 4
      ∧ Scenario.DoubleRateActionNode.CurrentActionTime + 1 / 8
          < Scenario.DoubleRateActionNode.CurrentActionEndTime
      ∧ (UpdateMotionActionState SpecRepositoryOps Scenario.DoubleRateActionNode
          (1 / 8)).MotionMatchingMode = EMotionMatchingMode.MotionMatching)
    ∧ (Scenario.RoundedSumActionNode.MotionMatchingMode = EMotionMatchingMode.Action
      ∧ Scenario.RoundedSumActionNode.PlaybackRate = 1
      ∧ Scenario.RoundedSumActionNode.CurrentActionTime + RoundToFloat (1 / 40) * 1
          < Scenario.RoundedSumActionNode.CurrentActionEndTime
      ∧ (UpdateMotionActionState SpecRepositoryOps Scenario.RoundedSumActionNode
          (RoundToFloat (1 / 40))).CurrentActionTime
        = Scenario.RoundedSumActionNode.CurrentActionEndTime
      ∧ (UpdateMotionActionState SpecRepositoryOps Scenario.RoundedSumActionNode
          (RoundToFloat (1 / 40))).MotionMatchingMode = EMotionMatchingMode.MotionMatching) := by
  refine ⟨⟨?_, ?_, ?_, ?_, ?_⟩, ⟨?_, ?_, ?_, ?_, ?_⟩⟩ <;> decide!

/-- C15 (amended): for a tick in Action mode with wall-clock delta `d`,
`UpdateMotionActionState` advances `CurrentActionTime` by `d * PlaybackRate` in `float`
arithmetic (the product rounded, then the sum rounded), ages the blend channels once (the
pool and the dominant index are those of `UpdateBlending` with `d`), keeps
`CurrentActionEndTime`, and sets the mode to MotionMatching exactly when the advanced elapsed
time, as stored, has reached `CurrentActionEndTime`; otherwise the mode remains Action. -/
theorem UpdateMotionActionState_spec (host : FRepositoryOps) (n : FAnimNode_MotionMatching)
    (d : ℚ) (hMode : n.MotionMatchingMode = EMotionMatchingMode.Action) :
    (UpdateMotionActionState host n d).CurrentActionTime
        = RoundToFloat (n.CurrentActionTime + RoundToFloat (d * n.PlaybackRate))
      ∧ (UpdateMotionActionState host n d).CurrentActionEndTime = n.CurrentActionEndTime
      ∧ (UpdateMotionActionState host n d).BlendChannels
        = (UpdateBlending host.Channel n d).BlendChannels
      ∧ (UpdateMotionActionState host n d).DominantBlendChannel
        = (UpdateBlending host.Channel n d).DominantBlendChannel
      ∧ ((UpdateMotionActionState host n d).MotionMatchingMode
          = EMotionMatchingMode.MotionMatching
        ↔ n.CurrentActionEndTime
          ≤ RoundToFloat (n.CurrentActionTime + RoundToFloat (d * n.PlaybackRate)))
      ∧ (¬ n.CurrentActionEndTime
          ≤ RoundToFloat (n.CurrentActionTime + RoundToFloat (d * n.PlaybackRate))
        → (UpdateMotionActionState host n d).MotionMatchingMode
          = EMotionMatchingMode.Action) := by
  by_cases hc : n.CurrentActionEndTime
      ≤ RoundToFloat (n.CurrentActionTime + RoundToFloat (d * n.PlaybackRate))
  · have hEq : UpdateMotionActionState host n d
        = { UpdateBlending host.Channel { n with
              TimeSinceMotionChosen :=
                RoundToFloat (n.TimeSinceMotionChosen + RoundToFloat (d * n.PlaybackRate))
              TimeSinceMotionUpdate :=
                RoundToFloat (n.TimeSinceMotionUpdate + RoundToFloat (d * n.PlaybackRate))
              CurrentActionTime :=
                RoundToFloat (n.CurrentActionTime + RoundToFloat (d * n.PlaybackRate)) } d with
            MotionMatchingMode := EMotionMatchingMode.MotionMatching } := by
      simp only [UpdateMotionActionState, UpdateBlending, ge_iff_le, if_pos hc]
    rw [hEq]
    exact ⟨rfl, rfl, rfl, rfl, ⟨fun _ => hc, fun _ => rfl⟩, fun h => absurd hc h⟩
  · have hEq : UpdateMotionActionState host n d
        = UpdateBlending host.Channel { n with
              TimeSinceMotionChosen :=
                RoundToFloat (n.TimeSinceMotionChosen + RoundToFloat (d * n.PlaybackRate))
              TimeSinceMotionUpdate :=
                RoundToFloat (n.TimeSinceMotionUpdate + RoundToFloat (d * n.PlaybackRate))
              CurrentActionTime :=
                RoundToFloat (n.CurrentActionTime + RoundToFloat (d * n.PlaybackRate)) } d := by
      simp only [UpdateMotionActionState, UpdateBlending, ge_iff_le, if_neg hc]
    rw [hEq]
    refine ⟨rfl, rfl, rfl, rfl, ⟨fun h => ?_, fun h => absurd h hc⟩, fun _ => hMode⟩
    have hM : (UpdateBlending host.Channel { n with
              TimeSinceMotionChosen :=
                RoundToFloat (n.TimeSinceMotionChosen + RoundToFloat (d * n.PlaybackRate))
              TimeSinceMotionUpdate :=
                RoundToFloat (n.TimeSinceMotionUpdate + RoundToFloat (d * n.PlaybackRate))
              CurrentActionTime :=
                RoundToFloat (n.CurrentActionTime + RoundToFloat (d * n.PlaybackRate)) }
            d).MotionMatchingMode
        = n.MotionMatchingMode := rfl
    rw [hM, hMode] at h
    cases h

/-- C15 (amended), at rate 1: a tick of 0.125 s takes the elapsed time from 0 to 0.125, short
of the end time 0.1875, and the mode remains Action; from 0.125 s a tick of `0.025f` s stores
`0.15f`, the end time, and the mode is MotionMatching. -/
theorem UpdateMotionActionState_spec_witness :
    ((UpdateMotionActionState SpecRepositoryOps Scenario.ActionNode (1 / 8)).CurrentActionTime
        = 1 / 8
      ∧ (UpdateMotionActionState SpecRepositoryOps Scenario.ActionNode
          (1 / 8)).MotionMatchingMode = EMotionMatchingMode.Action)
    ∧ (UpdateMotionActionState SpecRepositoryOps Scenario.RoundedSumActionNode
        (RoundToFloat (1 / 40))).MotionMatchingMode = EMotionMatchingMode.MotionMatching := by
  have h := UpdateMotionActionState_spec SpecRepositoryOps Scenario.ActionNode (1 / 8) rfl
  have hRounded := UpdateMotionActionState_spec SpecRepositoryOps
    Scenario.RoundedSumActionNode (RoundToFloat (1 / 40)) rfl
  exact ⟨⟨h.1.trans (by decide!), h.2.2.2.2.2 (by decide!)⟩,
    hRounded.2.2.2.2.1.2 (by decide!)⟩

/-! ## Transient misses -/

/-- The action loop leaves its locals alone when no entry has the requested id. -/
theorem foldlM_MotionActionStep_miss (n : FAnimNode_MotionMatching)
    (FinalCalibration : FCalibrationData) (PoseOffsetToStart : Int)
    (l : List (Nat × FMotionAction)) (Best : FBestAction)
    (h : ∀ e ∈ l, e.2.ActionId ≠ n.MotionActionPayload.ActionId) :
    l.foldlM (MotionActionStep n FinalCalibration PoseOffsetToStart) Best = some Best := by
  induction l with
  | nil => rfl
  | cons x xs ih =>
    have hx : MotionActionStep n FinalCalibration PoseOffsetToStart Best x = some Best := by
      simp only [MotionActionStep, if_neg (h x (List.mem_cons_self x xs))]
    rw [List.foldlM_cons, hx]
    exact ih (fun e he => h e (List.mem_cons_of_mem x he))

/-- An entry of the enumerated action table is an entry of the table. -/
theorem snd_mem_of_mem_enum {α : Type} (l : List α) (e : Nat × α) (h : e ∈ l.enum) :
    e.2 ∈ l :=
  List.getElem?_mem (List.mem_enum_iff_getElem?.1 h)

/-- C17, as stated, fails for `bBlendTrajectory = true`: `InitializeDistanceMatching` calls
`ApplyTrajectoryBlending` before it looks for the group and the calibration.  (1) On a node
with no distance-match group, the desired trajectory `[1, 1, 1]` (x-coordinates) is
`[1, 1/2, 1]` after the call.  (2) On the same node with a desired trajectory of one point,
the blending reads `DesiredTrajectory.TrajectoryPoints[1]` outside the array and the call does
not return. -/
theorem InitializeDistanceMatching_miss_blends_trajectory :
    (Scenario.BlendingMissNode.bBlendTrajectory = true
      ∧ Scenario.BlendingMissNode.MotionData.DistanceMatchSections
          Scenario.BlendingMissNode.DistanceMatchPayload.MatchType
          Scenario.BlendingMissNode.DistanceMatchPayload.MatchBasis = none
      ∧ Scenario.BlendingMissNode.DesiredTrajectory.TrajectoryPoints
          = [Scenario.PointAt 1, Scenario.PointAt 1, Scenario.PointAt 1]
      ∧ (InitializeDistanceMatching SpecRepositoryOps Scenario.BlendingMissNode).map
          (fun m => m.DesiredTrajectory.TrajectoryPoints)
          = some [Scenario.PointAt 1, Scenario.PointAt (1 / 2), Scenario.PointAt 1])
    ∧ (Scenario.BlendingMissNode.MotionData.MotionMatchConfig.TrajectoryTimes
          = [-1 / 2, 1 / 2, 1]
      ∧ (InitializeDistanceMatching SpecRepositoryOps
          { Scenario.BlendingMissNode with
            DesiredTrajectory := ⟨[Scenario.PointAt 1]⟩ }).isSome = false) := by
  refine ⟨⟨rfl, rfl, rfl, ?_⟩, ?_, ?_⟩ <;> decide!

/-- C17 (amended): if no distance-match group exists for the payload's (match type, match
basis), or no calibration set exists for the required traits, `InitializeDistanceMatching`
returns the node state unchanged when `bBlendTrajectory` is false; when it is true and the
blending stays within the trajectories, the call returns the state unchanged except for the
desired trajectory, which is the one `ApplyTrajectoryBlending` leaves; when the blending
leaves the trajectories the call does not return.  `InitializeMotionAction` returns the state
unchanged when no calibration set exists or no action entry has the requested id. -/
theorem transient_miss_frame (host : FRepositoryOps) (n : FAnimNode_MotionMatching) :
    ((n.MotionData.DistanceMatchSections n.DistanceMatchPayload.MatchType
          n.DistanceMatchPayload.MatchBasis = none
        ∨ n.FinalCalibrationSets n.RequiredTraits = none)
      → (n.bBlendTrajectory = false → InitializeDistanceMatching host n = some n)
        ∧ (TrajectoryBlendingReturns n →
          InitializeDistanceMatching host n = some { n with
            DesiredTrajectory := (BlendedTrajectoryState n).DesiredTrajectory })
        ∧ (¬ TrajectoryBlendingReturns n → InitializeDistanceMatching host n = none))
    ∧ ((n.FinalCalibrationSets n.RequiredTraits = none
        ∨ ∀ a ∈ n.MotionData.Actions, a.ActionId ≠ n.MotionActionPayload.ActionId)
      → InitializeMotionAction host n = some n) := by
  constructor
  · intro h
    have hReturns : TrajectoryBlendingReturns n →
        InitializeDistanceMatching host n = some { n with
          DesiredTrajectory := (BlendedTrajectoryState n).DesiredTrajectory } := by
      intro hBlend
      rw [← BlendedTrajectoryState_frame n]
      have hD : (BlendedTrajectoryState n).MotionData = n.MotionData := by
        rw [BlendedTrajectoryState_frame n]
      have hP : (BlendedTrajectoryState n).DistanceMatchPayload = n.DistanceMatchPayload := by
        rw [BlendedTrajectoryState_frame n]
      have hF : (BlendedTrajectoryState n).FinalCalibrationSets = n.FinalCalibrationSets := by
        rw [BlendedTrajectoryState_frame n]
      have hR : (BlendedTrajectoryState n).RequiredTraits = n.RequiredTraits := by
        rw [BlendedTrajectoryState_frame n]
      simp only [InitializeDistanceMatching, BlendedTrajectoryState_returns n hBlend, hD, hP,
        hF, hR]
      rcases h with h | h
      · rw [h]
      · rw [h]
        cases n.MotionData.DistanceMatchSections n.DistanceMatchPayload.MatchType
            n.DistanceMatchPayload.MatchBasis <;> rfl
    refine ⟨?_, hReturns, ?_⟩
    · intro hOff
      have hBlend : TrajectoryBlendingReturns n := fun hOn => by
        rw [hOff] at hOn
        cases hOn
      have hSame : BlendedTrajectoryState n = n := by
        unfold BlendedTrajectoryState
        rw [hOff]
        rfl
      rw [hReturns hBlend, hSame]
    · intro hStop
      simp only [InitializeDistanceMatching, BlendedTrajectoryState_stops n hStop]
  · intro h
    cases hc : n.FinalCalibrationSets n.RequiredTraits with
    | none => simp only [InitializeMotionAction, hc]
    | some FinalCalibration =>
      rcases h with h | h
      · rw [hc] at h
        cases h
      · have hfold := foldlM_MotionActionStep_miss n FinalCalibration
          |RoundHalfFromZero (n.MotionActionPayload.LeadLength / n.MotionData.PoseInterval)|
          n.MotionData.Actions.enum {}
          (fun e he => h e.2 (snd_mem_of_mem_enum _ e he))
        simp only [InitializeMotionAction, hc, hfold]
        rfl

/-- C17 (amended), on a node without calibration and a requested action that the table does
not hold: with trajectory blending off both entry functions return the node unchanged (shown
on the pool, the mode and the desired trajectory), and with trajectory blending on, over
trajectories of three points, `InitializeDistanceMatching` returns the node with the blended
desired trajectory. -/
theorem transient_miss_frame_witness :
    ((InitializeDistanceMatching SpecRepositoryOps Scenario.PlainMissNode).map
        (fun m => (m.BlendChannels, m.MotionMatchingMode, m.DesiredTrajectory))
      = some (Scenario.PlainMissNode.BlendChannels, Scenario.PlainMissNode.MotionMatchingMode,
          Scenario.PlainMissNode.DesiredTrajectory)
      ∧ (InitializeMotionAction SpecRepositoryOps Scenario.PlainMissNode).map
          (fun m => (m.BlendChannels, m.MotionMatchingMode, m.DesiredTrajectory))
        = some (Scenario.PlainMissNode.BlendChannels,
            Scenario.PlainMissNode.MotionMatchingMode,
            Scenario.PlainMissNode.DesiredTrajectory))
    ∧ InitializeDistanceMatching SpecRepositoryOps Scenario.BlendingMissNode
      = some { Scenario.BlendingMissNode with
          DesiredTrajectory := (BlendedTrajectoryState Scenario.BlendingMissNode
            ).DesiredTrajectory }
    ∧ (BlendedTrajectoryState Scenario.BlendingMissNode).DesiredTrajectory.TrajectoryPoints
      = [Scenario.PointAt 1, Scenario.PointAt (1 / 2), Scenario.PointAt 1] := by
  have h := transient_miss_frame SpecRepositoryOps Scenario.PlainMissNode
  have hBlending := transient_miss_frame SpecRepositoryOps Scenario.BlendingMissNode
  refine ⟨?_, (hBlending.1 (Or.inl rfl)).2.1 (fun _ => by decide!), by decide!⟩
  rw [(h.1 (Or.inr rfl)).1 rfl, h.2 (Or.inl rfl)]
  exact ⟨rfl, rfl⟩

/-! ## Search without a calibration set -/

/-- A clamp into `[0, Num - 1]` is an index of a non-empty array. -/
theorem TArrayAt_ClampInt {α : Type} (Items : List α) (h : Items ≠ []) (X : Int) :
    ∃ Item, TArrayAt Items (ClampInt X 0 (Items.length - 1)) = some Item := by
  have hlen : 0 < Items.length := List.length_pos.2 h
  have h0 : 0 ≤ ClampInt X 0 ((Items.length : Int) - 1) := by
    unfold ClampInt
    split_ifs <;> omega
  have h1 : ClampInt X 0 ((Items.length : Int) - 1) < Items.length := by
    unfold ClampInt
    split_ifs <;> omega
  have h2 : (ClampInt X 0 ((Items.length : Int) - 1)).toNat < Items.length := by omega
  refine ⟨Items.get ⟨_, h2⟩, ?_⟩
  unfold TArrayAt
  rw [if_neg (not_lt.2 h0), List.get?_eq_get h2]

/-- A pose is at the same location as itself. -/
theorem WinnerAtSameLocation_self (Pose : FPoseMotionData) :
    WinnerAtSameLocation Pose Pose = true := by
  simp [WinnerAtSameLocation, FVector2D.DistSquared, RoundToFloat]

/-- C18, as stated, fails in three ways.  (1) Without a calibration set `SchedulePoseSearch`
triggers no transition and keeps the pool, but it first clamps `CurrentChosenPoseId` into
the pose range: with four poses and `CurrentChosenPoseId = 5` the id is 3 after the call.
(2) Over a database without poses the call reads `Poses[CurrentChosenPoseId]` outside the
array and does not return.  (3) With `bBlendTrajectory` set and a desired trajectory of one
point, the opening trajectory blending reads `DesiredTrajectory.TrajectoryPoints[1]` outside
the array and the call does not return. -/
theorem SchedulePoseSearch_uncalibrated_clamps :
    (Scenario.UncalibratedOutOfRangeNode.FinalCalibrationSets
        Scenario.UncalibratedOutOfRangeNode.RequiredTraits = none
      ∧ Scenario.UncalibratedOutOfRangeNode.CurrentChosenPoseId = 5
      ∧ (SchedulePoseSearch SpecChannelOps Scenario.UncalibratedOutOfRangeNode).map
          (fun s => (s.BlendChannels, s.CurrentChosenPoseId))
        = some (Scenario.UncalibratedOutOfRangeNode.BlendChannels, 3))
    ∧ (SchedulePoseSearch SpecChannelOps
        { Scenario.UncalibratedNode with MotionData := Scenario.Database [] }).isSome = false
    ∧ (Scenario.UncalibratedNode.MotionData.MotionMatchConfig.TrajectoryTimes
          = [-1 / 2, 1 / 2, 1]
      ∧ (SchedulePoseSearch SpecChannelOps
          { Scenario.UncalibratedNode with
            bBlendTrajectory := true
            DesiredTrajectory := ⟨[Scenario.PointAt 1]⟩ }).isSome = false) := by
  refine ⟨⟨rfl, rfl, ?_⟩, ?_, ?_, ?_⟩ <;> decide!

/-- C18 (amended): if no calibration set exists for the required traits, each of the three
search functions returns `CurrentChosenPoseId`, and `SchedulePoseSearch`, on a database with at
least one pose and where the opening trajectory blending returns (it is off, or it stays
within the trajectories), returns without a transition: the blend-channel pool is the same
after the call as before it and `CurrentChosenPoseId` is its value clamped into
`[0, Poses.Num() - 1]`, hence the same when it was a valid pose index. -/
theorem SchedulePoseSearch_without_calibration (ops : FAnimChannelOps)
    (n : FAnimNode_MotionMatching) (NextPose : FPoseMotionData)
    (hCal : n.FinalCalibrationSets n.RequiredTraits = none)
    (hPoses : n.MotionData.Poses ≠ []) (hBlend : TrajectoryBlendingReturns n) :
    GetLowestCostPoseId_Global n = n.CurrentChosenPoseId
      ∧ GetLowestCostPoseId n NextPose = n.CurrentChosenPoseId
      ∧ GetLowestCostPoseId_Linear n NextPose = n.CurrentChosenPoseId
      ∧ ∃ m, SchedulePoseSearch ops n = some m ∧ m.BlendChannels = n.BlendChannels
        ∧ m.CurrentChosenPoseId
          = ClampInt n.CurrentChosenPoseId 0 (n.MotionData.Poses.length - 1)
        ∧ (0 ≤ n.CurrentChosenPoseId → n.CurrentChosenPoseId < n.MotionData.Poses.length
          → m.CurrentChosenPoseId = n.CurrentChosenPoseId) := by
  refine ⟨by simp only [GetLowestCostPoseId_Global, hCal],
    by simp only [GetLowestCostPoseId, hCal],
    by simp only [GetLowestCostPoseId_Linear, hCal], ?_⟩
  obtain ⟨hPool, -, hId⟩ := SearchEntryState_frame n
  have hData : (SearchEntryState n).MotionData = n.MotionData := by
    unfold SearchEntryState
    rw [BlendedTrajectoryState_frame n]
  have hCal' : (SearchEntryState n).FinalCalibrationSets (SearchEntryState n).RequiredTraits
      = none := by
    rw [← hCal]
    unfold SearchEntryState
    rw [BlendedTrajectoryState_frame n]
  have hKeep : 0 ≤ n.CurrentChosenPoseId → n.CurrentChosenPoseId < n.MotionData.Poses.length
      → ClampInt n.CurrentChosenPoseId 0 (n.MotionData.Poses.length - 1)
        = n.CurrentChosenPoseId := by
    intro h0 h1
    unfold ClampInt
    split_ifs <;> omega
  have hSearched : ∀ Next, SearchedPoseId (SearchEntryState n) Next
      = (SearchEntryState n).CurrentChosenPoseId := by
    intro Next
    unfold SearchedPoseId
    cases (SearchEntryState n).PoseMatchMethod
    · simp only [GetLowestCostPoseId, hCal']
    · simp only [GetLowestCostPoseId_Linear, hCal']
  obtain ⟨ChosenPose, hChosen⟩ := TArrayAt_ClampInt n.MotionData.Poses hPoses
    n.CurrentChosenPoseId
  rw [← hId, ← hData] at hChosen
  obtain ⟨Next, hNext⟩ := TArrayAt_ClampInt n.MotionData.Poses hPoses
    (if ChosenPose.NextPoseId < 0 then (SearchEntryState n).CurrentChosenPoseId
      else ChosenPose.NextPoseId)
  rw [← hData] at hNext
  have hEq := SchedulePoseSearch_eq ops n hBlend
  simp only [hChosen, hNext, hSearched, WinnerAtSameLocation_self] at hEq
  rw [hEq]
  split
  · exact ⟨_, rfl, hPool, hId, fun h0 h1 => hId.trans (hKeep h0 h1)⟩
  · refine ⟨SearchEntryState n, ?_, hPool, hId, fun h0 h1 => hId.trans (hKeep h0 h1)⟩
    cases WinnerAtSameLocation ChosenPose (SearchEntryState n).CurrentInterpolatedPose <;> rfl

/-- C18 (amended), without calibration at the valid chosen pose 2 of four: the call returns
with the pool and `CurrentChosenPoseId = 2` unchanged. -/
theorem SchedulePoseSearch_without_calibration_witness :
    GetLowestCostPoseId_Global Scenario.UncalibratedNode = 2
      ∧ ∃ m, SchedulePoseSearch SpecChannelOps Scenario.UncalibratedNode = some m
        ∧ m.BlendChannels = Scenario.UncalibratedNode.BlendChannels
        ∧ m.CurrentChosenPoseId = 2 := by
  have h := SchedulePoseSearch_without_calibration SpecChannelOps Scenario.UncalibratedNode
    default rfl (by decide) (by unfold TrajectoryBlendingReturns; decide)
  obtain ⟨hG, -, -, m, hm, hPool, -, hKeep⟩ := h
  exact ⟨hG, m, hm, hPool, hKeep (by decide) (by decide)⟩

/-! ## Evaluation -/

/-- Overwriting the sample times keeps the samples up to their `Time`. -/
theorem WriteSampleTimes_same (Cache : List FBlendSampleData) (AnimTime : ℚ) :
    List.Forall₂ SameSampleUpToTime Cache (WriteSampleTimes Cache AnimTime) := by
  induction Cache with
  | nil => exact List.Forall₂.nil
  | cons s rest ih => exact List.Forall₂.cons ⟨rfl, rfl⟩ ih

/-- A cache is itself up to the sample times. -/
theorem SameSampleUpToTime_refl (Cache : List FBlendSampleData) :
    List.Forall₂ SameSampleUpToTime Cache Cache := by
  induction Cache with
  | nil => exact List.Forall₂.nil
  | cons s rest ih => exact List.Forall₂.cons ⟨rfl, rfl⟩ ih

/-- A channel is an evaluated channel of itself. -/
theorem EvaluatedChannel_refl (c : FAnimChannelState) : EvaluatedChannel c c :=
  ⟨rfl, SameSampleUpToTime_refl _, fun _ => rfl⟩

/-- A pool is an evaluated pool of itself. -/
theorem EvaluatedChannel_pool_refl (Pool : List FAnimChannelState) :
    List.Forall₂ EvaluatedChannel Pool Pool := by
  induction Pool with
  | nil => exact List.Forall₂.nil
  | cons c rest ih => exact List.Forall₂.cons (EvaluatedChannel_refl c) ih

/-- The extraction of one channel's pose changes at most the sample times of its cache. -/
theorem ExtractChannelPose_channel (host : FRepositoryOps) (d : UMotionDataAsset)
    (c c' : FAnimChannelState) (p : FChannelPose)
    (h : ExtractChannelPose host d c = some (c', p)) : EvaluatedChannel c c' := by
  simp only [ExtractChannelPose] at h
  split at h
  · repeat' split at h
    all_goals cases h <;> exact EvaluatedChannel_refl c
  · rename_i hType
    repeat' split at h
    all_goals cases h <;> first
      | exact EvaluatedChannel_refl c
      | exact ⟨rfl, WriteSampleTimes_same _ _, fun hne => absurd hType hne⟩
  · cases h
    exact EvaluatedChannel_refl c

/-- The extraction loop changes at most the sample times of the caches of the pool. -/
theorem mapM_ExtractChannelPose_pool (host : FRepositoryOps) (d : UMotionDataAsset)
    (Pool : List FAnimChannelState) (Extracted : List (FAnimChannelState × FChannelPose))
    (h : Pool.mapM (ExtractChannelPose host d) = some Extracted) :
    List.Forall₂ EvaluatedChannel Pool (Extracted.map (fun Entry => Entry.1)) := by
  induction Pool generalizing Extracted with
  | nil =>
    simp only [List.mapM_nil, Option.pure_def, Option.some.injEq] at h
    subst h
    exact List.Forall₂.nil
  | cons c rest ih =>
    simp only [List.mapM_cons, Option.bind_eq_bind, Option.bind_eq_some, Option.pure_def,
      Option.some.injEq] at h
    obtain ⟨e, he, es, hes, h⟩ := h
    subst h
    exact List.Forall₂.cons (ExtractChannelPose_channel host d c e.1 e.2 he) (ih es hes)
/-- `EvaluateSinglePose` changes no member but the pool, and in the pool at most the sample
times of the caches. -/
theorem EvaluateSinglePose_pool (host : FRepositoryOps) (n m : FAnimNode_MotionMatching)
    (Output : FOutputPose) (h : EvaluateSinglePose host n = some (m, Output)) :
    m = { n with BlendChannels := m.BlendChannels }
      ∧ List.Forall₂ EvaluatedChannel n.BlendChannels m.BlendChannels := by
  simp only [EvaluateSinglePose] at h
  split at h
  · cases h
  · rename_i PrimaryChannel hLast
    have hPool : n.BlendChannels.dropLast ++ [PrimaryChannel] = n.BlendChannels :=
      List.dropLast_append_getLast? PrimaryChannel hLast
    split at h
    · repeat' split at h
      all_goals cases h <;> exact ⟨rfl, EvaluatedChannel_pool_refl _⟩
    · rename_i hType
      repeat' split at h
      all_goals cases h <;> first
        | exact ⟨rfl, EvaluatedChannel_pool_refl _⟩
        | (refine ⟨rfl, ?_⟩
           nth_rewrite 1 [← hPool]
           exact List.rel_append (EvaluatedChannel_pool_refl _)
             (List.Forall₂.cons ⟨rfl, WriteSampleTimes_same _ _, fun hne => absurd hType hne⟩
               List.Forall₂.nil))
    · repeat' split at h
      all_goals cases h <;> exact ⟨rfl, EvaluatedChannel_pool_refl _⟩
    · cases h
      exact ⟨rfl, EvaluatedChannel_pool_refl _⟩

/-- `EvaluateBlendPose` changes no member but the pool, and in the pool at most the sample
times of the caches. -/
theorem EvaluateBlendPose_pool (host : FRepositoryOps) (n m : FAnimNode_MotionMatching)
    (Output : FOutputPose) (h : EvaluateBlendPose host n = some (m, Output)) :
    m = { n with BlendChannels := m.BlendChannels }
      ∧ List.Forall₂ EvaluatedChannel n.BlendChannels m.BlendChannels := by
  simp only [EvaluateBlendPose] at h
  split at h
  · split at h
    · cases h
    · rename_i Extracted hE
      have hPool := mapM_ExtractChannelPose_pool host n.MotionData n.BlendChannels Extracted hE
      repeat' split at h
      all_goals cases h <;> exact ⟨rfl, hPool⟩
  · cases h
    exact ⟨rfl, EvaluatedChannel_pool_refl _⟩

/-- C20, as stated, fails on the cached per-sample blend-space data: `EvaluateSinglePose`
(and `EvaluateBlendPose`) assign `BlendSampleDataCache[i].Time = AnimTime` before sampling a
blend space.  A pool of one blend-space channel at sample time 0.5 s whose cached sample has
time 0 holds the cached time 0.5 after `Evaluate_AnyThread`. -/
theorem Evaluate_AnyThread_writes_sample_time :
    Scenario.BlendSpaceNode.BlendChannels.map (fun c => c.BlendSampleDataCache)
        = [[⟨0, 1, 0⟩]]
      ∧ (Evaluate_AnyThread SpecRepositoryOps Scenario.BlendSpaceNode true).map
          (fun r => r.1.BlendChannels.map (fun c => c.BlendSampleDataCache))
        = some [[⟨0, 1, 1 / 2⟩]] := by
  refine ⟨rfl, ?_⟩
  decide!

/-- C20 (amended): `Evaluate_AnyThread` (through `EvaluateSinglePose` and
`EvaluateBlendPose`) changes no member of the node but the pool, leaves the number and order
of the channels unchanged, and leaves every field of every blend channel unchanged except the
`Time` of the cached blend-space samples of channels that play a blend space: the cache keeps
its samples, in order, with their indices and weights. -/
theorem Evaluate_AnyThread_pool (host : FRepositoryOps) (n m : FAnimNode_MotionMatching)
    (bLODEnabled : Bool) (Output : FOutputPose)
    (h : Evaluate_AnyThread host n bLODEnabled = some (m, Output)) :
    m = { n with BlendChannels := m.BlendChannels }
      ∧ m.BlendChannels.length = n.BlendChannels.length
      ∧ List.Forall₂ EvaluatedChannel n.BlendChannels m.BlendChannels := by
  have hMain : m = { n with BlendChannels := m.BlendChannels }
      ∧ List.Forall₂ EvaluatedChannel n.BlendChannels m.BlendChannels := by
    simp only [Evaluate_AnyThread] at h
    split at h
    · cases h
      exact ⟨rfl, EvaluatedChannel_pool_refl _⟩
    · split at h
      · cases h
        exact ⟨rfl, EvaluatedChannel_pool_refl _⟩
      · split at h
        · exact EvaluateBlendPose_pool host n m Output h
        · exact EvaluateSinglePose_pool host n m Output h
  exact ⟨hMain.1, hMain.2.length_eq.symm, hMain.2⟩

/-- C20 (amended), on the pool of one blend-space channel: the evaluation returns the node with
the cached sample's time overwritten, the pool still holds one channel, and that channel is
the old one up to the sample time. -/
theorem Evaluate_AnyThread_pool_witness :
    Evaluate_AnyThread SpecRepositoryOps Scenario.BlendSpaceNode true
        = some ({ Scenario.BlendSpaceNode with
            BlendChannels := [{ Scenario.BlendSpaceChannel with
              BlendSampleDataCache := [⟨0, 1, WrapAnimationTime (1 / 2) 2⟩] }] },
          FOutputPose.Single ⟨FPoseSample.BlendSpace 0 [⟨0, 1, WrapAnimationTime (1 / 2) 2⟩],
            false⟩)
      ∧ ({ Scenario.BlendSpaceNode with
            BlendChannels := [{ Scenario.BlendSpaceChannel with
              BlendSampleDataCache := [⟨0, 1, WrapAnimationTime (1 / 2) 2⟩] }] }
          : FAnimNode_MotionMatching).BlendChannels.length
        = Scenario.BlendSpaceNode.BlendChannels.length :=
  ⟨rfl, (Evaluate_AnyThread_pool SpecRepositoryOps Scenario.BlendSpaceNode _ true _ rfl).2.1⟩

/-- The last channel of an evaluated pool is the evaluated last channel. -/
theorem getLast?_EvaluatedChannel (Pool Pool' : List FAnimChannelState)
    (h : List.Forall₂ EvaluatedChannel Pool Pool') (c : FAnimChannelState)
    (hc : Pool.getLast? = some c) : ∃ c', Pool'.getLast? = some c' ∧ EvaluatedChannel c c' := by
  induction h with
  | nil => cases hc
  | @cons a b l l' hab hl ih =>
    cases hl with
    | nil =>
      simp only [List.getLast?_singleton, Option.some.injEq] at hc
      subst hc
      exact ⟨b, rfl, hab⟩
    | @cons x y xs ys hxy hrest =>
      rw [List.getLast?_cons_cons] at hc ⊢
      exact ih hc

/-- The primary clip does not depend on the sample caches. -/
theorem GetPrimaryAnim_evaluated (n : FAnimNode_MotionMatching)
    (Pool' : List FAnimChannelState)
    (h : List.Forall₂ EvaluatedChannel n.BlendChannels Pool') :
    GetPrimaryAnim { n with BlendChannels := Pool' } = GetPrimaryAnim n := by
  cases hc : n.BlendChannels.getLast? with
  | none =>
    have hnil : n.BlendChannels = [] := List.getLast?_eq_none_iff.1 hc
    rw [hnil] at h
    cases h
    simp only [GetPrimaryAnim, hc, List.getLast?_nil]
  | some c =>
    obtain ⟨c', hc', hE, -, -⟩ := getLast?_EvaluatedChannel _ _ h c hc
    have hT : c'.AnimType = c.AnimType := by rw [hE]
    have hI : c'.AnimId = c.AnimId := by rw [hE]
    simp only [GetPrimaryAnim, hc, hc', hT, hI]

/-- The running total of the extraction loop is the sum of the raw weights. -/
theorem TotalBlendPower_eq_sum (l : List ℚ) :
    l.foldl (fun Total Weight => Total + Weight) 0 = l.sum :=
  (List.sum_eq_foldl (l := l)).symm

/-- Weights divided by their non-zero sum add up to 1. -/
theorem normalised_sum (l : List ℚ) (h : l.sum ≠ 0) :
    (l.map (fun Weight => Weight / l.sum)).sum = 1 := by
  have hmul : ∀ (c : ℚ) (k : List ℚ), (k.map (fun Weight => Weight / c)).sum = k.sum / c := by
    intro c k
    induction k with
    | nil => simp
    | cons x xs ih => simp only [List.map_cons, List.sum_cons, ih, add_div]
  rw [hmul, div_self h]
/-- C11, as stated, fails in its fallback: with a zero sum of raw weights `EvaluateBlendPose`
samples the clip that `GetPrimaryAnim()` returns, and that is null when the primary channel
plays a blend space.  On a pool of two blend-space channels of weight 0 the sum is 0 and the
output is left as it was handed over: nothing is sampled for it. -/
theorem EvaluateBlendPose_zero_sum_unsampled :
    (RawBlendWeights Scenario.FadedBlendSpaceNode.BlendChannels).sum = 0
      ∧ (EvaluateBlendPose SpecRepositoryOps Scenario.FadedBlendSpaceNode).map
          (fun r => r.2) = some (FOutputPose.Single ⟨FPoseSample.Unsampled, false⟩) := by
  constructor <;> decide!

/-- C11 (amended): in `EvaluateBlendPose` on a pool of `n > 0` channels whose poses can be
extracted, the raw blend weight of channel `i` (0-based) is `Weight_i * (i + 1) / n`; when
the sum of the raw weights is positive, the weights handed to the blend are the raw weights
divided by that sum, and they add up to exactly 1; when the sum is zero and the primary
(last) channel plays a sequence or composite whose clip is present, only that clip is sampled
for the output, at the primary channel's sample time; when the sum is zero and the primary
clip is null (a blend-space channel, or a null asset), the output is left as handed over. -/
theorem EvaluateBlendPose_weights (host : FRepositoryOps) (n : FAnimNode_MotionMatching)
    (Extracted : List (FAnimChannelState × FChannelPose)) (PrimaryChannel : FAnimChannelState)
    (hLast : n.BlendChannels.getLast? = some PrimaryChannel)
    (hExtracted : n.BlendChannels.mapM (ExtractChannelPose host n.MotionData)
      = some Extracted) :
    (0 < (RawBlendWeights n.BlendChannels).sum →
      (∃ m, EvaluateBlendPose host n = some (m,
        FOutputPose.Blend (Extracted.map (fun Entry => Entry.2))
          ((RawBlendWeights n.BlendChannels).map
            (fun Weight => Weight / (RawBlendWeights n.BlendChannels).sum))))
      ∧ ((RawBlendWeights n.BlendChannels).map
          (fun Weight => Weight / (RawBlendWeights n.BlendChannels).sum)).sum = 1)
    ∧ ((RawBlendWeights n.BlendChannels).sum = 0 →
      (∀ PrimaryAnim, GetPrimaryAnim n = some (some PrimaryAnim) →
        ∃ m, EvaluateBlendPose host n = some (m,
          FOutputPose.Single ⟨FPoseSample.Clip PrimaryAnim PrimaryChannel.AnimTime, false⟩))
      ∧ (GetPrimaryAnim n = some none →
        ∃ m, EvaluateBlendPose host n = some (m,
          FOutputPose.Single ⟨FPoseSample.Unsampled, false⟩))) := by
  have hPos : n.BlendChannels.length > 0 := by
    cases hp : n.BlendChannels with
    | nil => rw [hp] at hLast; cases hLast
    | cons c rest => exact Nat.succ_pos _
  have hRaw : n.BlendChannels.enum.map
      (fun Entry => RawBlendWeight n.BlendChannels.length Entry.1 Entry.2)
      = RawBlendWeights n.BlendChannels := rfl
  have hPool := mapM_ExtractChannelPose_pool host n.MotionData n.BlendChannels Extracted
    hExtracted
  obtain ⟨c', hc', hE, -, -⟩ := getLast?_EvaluatedChannel _ _ hPool PrimaryChannel hLast
  have hTime : c'.AnimTime = PrimaryChannel.AnimTime := by rw [hE]
  have hPrimary := GetPrimaryAnim_evaluated n _ hPool
  constructor
  · intro hSum
    refine ⟨?_, normalised_sum _ (ne_of_gt hSum)⟩
    simp only [EvaluateBlendPose, if_pos hPos, hExtracted, hRaw, TotalBlendPower_eq_sum,
      gt_iff_lt, if_pos hSum]
    exact ⟨_, rfl⟩
  · intro hSum
    have hNot : ¬ 0 < (RawBlendWeights n.BlendChannels).sum := by rw [hSum]; exact lt_irrefl 0
    constructor
    · intro PrimaryAnim hAnim
      simp only [EvaluateBlendPose, if_pos hPos, hExtracted, hRaw, TotalBlendPower_eq_sum,
        gt_iff_lt, if_neg hNot, hPrimary, hAnim, hc', hTime]
      exact ⟨_, rfl⟩
    · intro hAnim
      simp only [EvaluateBlendPose, if_pos hPos, hExtracted, hRaw, TotalBlendPower_eq_sum,
        gt_iff_lt, if_neg hNot, hPrimary, hAnim]
      exact ⟨_, rfl⟩

/-- C11 (amended), on two sequence channels of weight 1: the raw weights are 1/2 and 1, the
blend receives 1/3 and 2/3, which add up to 1; and with both weights 0 the primary clip is
sampled at the primary channel's time 0.25 s. -/
theorem EvaluateBlendPose_weights_witness :
    RawBlendWeights Scenario.TwoSequenceNode.BlendChannels = [1 / 2, 1]
      ∧ (EvaluateBlendPose SpecRepositoryOps Scenario.TwoSequenceNode).map
          (fun r => match r.2 with
            | FOutputPose.Blend _ Weights => Weights
            | _ => []) = some [1 / 3, 2 / 3]
      ∧ ((RawBlendWeights Scenario.TwoSequenceNode.BlendChannels).map
          (fun Weight => Weight
            / (RawBlendWeights Scenario.TwoSequenceNode.BlendChannels).sum)).sum = 1
      ∧ ∃ m, EvaluateBlendPose SpecRepositoryOps Scenario.FadedSequenceNode = some (m,
          FOutputPose.Single ⟨FPoseSample.Clip ⟨2, 1⟩ (1 / 4), false⟩) := by
  refine ⟨by decide!, by decide!, ?_, ?_⟩
  · exact ((EvaluateBlendPose_weights SpecRepositoryOps Scenario.TwoSequenceNode _ _ rfl rfl).1
      (by decide!)).2
  · exact ((EvaluateBlendPose_weights SpecRepositoryOps Scenario.FadedSequenceNode _ _ rfl
      rfl).2 (by decide!)).1 ⟨2, 1⟩ rfl

/-! ## Entering distance matching -/

/-- A transition to a valid pose whose source asset is present returns. -/
theorem TransitionToPose_returns (ops : FAnimChannelOps) (n : FAnimNode_MotionMatching)
    (PoseId : Int) (TimeOffset : ℚ) (Pose : FPoseMotionData)
    (hPose : TArrayAt n.MotionData.Poses PoseId = some Pose)
    (hAsset : SourceAssetPresent n.MotionData Pose = true) :
    ∃ m, TransitionToPose ops n PoseId TimeOffset = some m := by
  unfold TransitionToPose
  split
  · obtain ⟨m, _, h, _⟩ := JumpToPose_channels ops n PoseId TimeOffset Pose hPose hAsset
    exact ⟨m, h⟩
  · obtain ⟨m, _, h, _⟩ := BlendToPose_channels ops n PoseId TimeOffset Pose hPose hAsset
    exact ⟨m, h⟩
  · obtain ⟨m, _, h, _⟩ := JumpToPose_channels ops n PoseId TimeOffset Pose hPose hAsset
    exact ⟨m, h⟩

/-- The entry state of `InitializeDistanceMatching` differs from the node at most in the
desired trajectory. -/
theorem DistanceMatchEntryState_eq (n : FAnimNode_MotionMatching) :
    DistanceMatchEntryState n
      = { n with DesiredTrajectory := (DistanceMatchEntryState n).DesiredTrajectory } := by
  unfold DistanceMatchEntryState
  exact BlendedTrajectoryState_frame n

/-- One iteration of the section loop, for a section whose matched pose index is valid. -/
theorem DistanceMatchStep_eq (n : FAnimNode_MotionMatching) (Calibration : FCalibrationData)
    (Lowest : FLowestCostSection) (Section : FDistanceMatchSection) (Pose : FPoseMotionData)
    (hPose : TArrayAt n.MotionData.Poses (SectionPoseId n Section) = some Pose) :
    DistanceMatchStep (DistanceMatchEntryState n) Calibration Lowest Section
      = some (if SectionCost n Calibration Section < Lowest.LowestCost then
          { LowestCostSection := some Section
            LowestCost := SectionCost n Calibration Section
            LowestCostTime :=
              (Section.FindMatchingTime n.DistanceMatchPayload.MarkerDistance 0).1
            LowestCostPoseId := SectionPoseId n Section
            LowestLastKeyChecked :=
              (Section.FindMatchingTime n.DistanceMatchPayload.MarkerDistance 0).2 }
        else Lowest) := by
  rw [DistanceMatchEntryState_eq]
  simp only [DistanceMatchStep]
  unfold SectionPoseId at hPose
  simp only [hPose, SectionCost, SectionPoseId, Option.getD_some]
  split <;> rfl

/-- The section loop over sections with valid matched poses returns; its lowest cost is below
the start value and every section's cost, and unless it is the start state it holds one of
the sections with that section's matched pose index. -/
theorem foldlM_DistanceMatchStep (n : FAnimNode_MotionMatching)
    (Calibration : FCalibrationData) (l : List FDistanceMatchSection)
    (hPoses : ∀ S ∈ l, ∃ Pose, TArrayAt n.MotionData.Poses (SectionPoseId n S) = some Pose)
    (acc : FLowestCostSection) :
    ∃ L, l.foldlM (DistanceMatchStep (DistanceMatchEntryState n) Calibration) acc = some L
      ∧ L.LowestCost ≤ acc.LowestCost
      ∧ (∀ S ∈ l, L.LowestCost ≤ SectionCost n Calibration S)
      ∧ (L = acc ∨ ∃ S ∈ l, L.LowestCostSection = some S
          ∧ L.LowestCostPoseId = SectionPoseId n S) := by
  induction l generalizing acc with
  | nil =>
    exact ⟨acc, rfl, le_refl _, fun S hS => absurd hS (List.not_mem_nil S), Or.inl rfl⟩
  | cons x xs ih =>
    obtain ⟨Pose, hPose⟩ := hPoses x (List.mem_cons_self x xs)
    have hStep := DistanceMatchStep_eq n Calibration acc x Pose hPose
    obtain ⟨L, hL, hLe, hAll, hWhich⟩ :=
      ih (fun S hS => hPoses S (List.mem_cons_of_mem x hS))
        (if SectionCost n Calibration x < acc.LowestCost then
          { LowestCostSection := some x
            LowestCost := SectionCost n Calibration x
            LowestCostTime := (x.FindMatchingTime n.DistanceMatchPayload.MarkerDistance 0).1
            LowestCostPoseId := SectionPoseId n x
            LowestLastKeyChecked :=
              (x.FindMatchingTime n.DistanceMatchPayload.MarkerDistance 0).2 }
        else acc)
    refine ⟨L, ?_, ?_, ?_, ?_⟩
    · rw [List.foldlM_cons, hStep]
      exact hL
    · by_cases hlt : SectionCost n Calibration x < acc.LowestCost
      · rw [if_pos hlt] at hLe
        exact le_trans hLe (le_of_lt hlt)
      · rw [if_neg hlt] at hLe
        exact hLe
    · intro S hS
      rcases List.mem_cons.1 hS with hS | hS
      · subst hS
        by_cases hlt : SectionCost n Calibration S < acc.LowestCost
        · rw [if_pos hlt] at hLe
          exact hLe
        · rw [if_neg hlt] at hLe
          exact le_trans hLe (not_lt.1 hlt)
      · exact hAll S hS
    · rcases hWhich with hW | ⟨S, hS, hSec, hId⟩
      · by_cases hlt : SectionCost n Calibration x < acc.LowestCost
        · rw [if_pos hlt] at hW
          exact Or.inr ⟨x, List.mem_cons_self x xs, by rw [hW], by rw [hW]⟩
        · rw [if_neg hlt] at hW
          exact Or.inl hW
      · exact Or.inr ⟨S, List.mem_cons_of_mem x hS, hSec, hId⟩

/-- A transition keeps the active distance-match section. -/
theorem TransitionToPose_section (ops : FAnimChannelOps) (n m : FAnimNode_MotionMatching)
    (PoseId : Int) (TimeOffset : ℚ) (h : TransitionToPose ops n PoseId TimeOffset = some m) :
    m.ActiveDistanceMatchSection = n.ActiveDistanceMatchSection := by
  unfold TransitionToPose at h
  split at h
  · simp only [JumpToPose] at h
    repeat' split at h
    all_goals cases h <;> rfl
  · simp only [BlendToPose] at h
    repeat' split at h
    all_goals cases h <;> rfl
  · simp only [JumpToPose] at h
    repeat' split at h
    all_goals cases h <;> rfl

/-- C12, as stated, fails.  (1) `InitializeDistanceMatching` returns before it sets the mode
when the database has no group for the payload's (match type, match basis): a tick in
MotionMatching mode with the trigger set and match type `Other 0`, over a database without
groups, ends in MotionMatching mode.  (2) The call opens with the trajectory blending: over
the database with a group, with `bBlendTrajectory` set and a desired trajectory of one point,
the blending reads `DesiredTrajectory.TrajectoryPoints[1]` outside the array and the tick does
not return. -/
theorem UpdateMotionMatchingState_trigger_miss :
    (Scenario.TriggeredMissNode.MotionMatchingMode = EMotionMatchingMode.MotionMatching
      ∧ Scenario.TriggeredMissNode.DistanceMatchPayload.bTrigger = true
      ∧ Scenario.TriggeredMissNode.DistanceMatchPayload.MatchType ≠ EDistanceMatchType.None
      ∧ (UpdateMotionMatchingState SpecRepositoryOps Scenario.TriggeredMissNode (1 / 32)
          { DeltaTime := 1 / 32 }).map (fun m => m.MotionMatchingMode)
        = some EMotionMatchingMode.MotionMatching)
    ∧ (Scenario.TriggeredNode.MotionData.MotionMatchConfig.TrajectoryTimes
          = [-1 / 2, 1 / 2, 1]
      ∧ (UpdateMotionMatchingState SpecRepositoryOps
          { Scenario.TriggeredNode with
            bBlendTrajectory := true
            DesiredTrajectory := ⟨[Scenario.PointAt 1]⟩ } (1 / 32)
          { DeltaTime := 1 / 32 }).isSome = false) := by
  refine ⟨⟨rfl, rfl, by decide, ?_⟩, ?_, ?_⟩ <;> decide!

/-- C12 (amended): starting in MotionMatching mode, for a tick in which the distance-match
payload has its trigger flag set and a match type other than None, if the opening trajectory
blending returns (it is off, or it stays within the trajectories), a distance-match group
exists for the payload's (match type, match basis), a calibration set exists for the required
traits, every section of the group is matched at a valid pose whose source asset is present,
and some section's cost is below the start value 10000000, then
`UpdateMotionMatchingState` returns and the mode after that tick is DistanceMatching, with a
section of the group as the active section. -/
theorem UpdateMotionMatchingState_enters_distance_matching (host : FRepositoryOps)
    (n : FAnimNode_MotionMatching) (DeltaTime : ℚ) (Context : FAnimationUpdateContext)
    (Group : FDistanceMatchGroup) (Calibration : FCalibrationData)
    (_hMode : n.MotionMatchingMode = EMotionMatchingMode.MotionMatching)
    (hTrigger : n.DistanceMatchPayload.bTrigger = true)
    (hType : n.DistanceMatchPayload.MatchType ≠ EDistanceMatchType.None)
    (hBlend : TrajectoryBlendingReturns n)
    (hGroup : n.MotionData.DistanceMatchSections n.DistanceMatchPayload.MatchType
      n.DistanceMatchPayload.MatchBasis = some Group)
    (hCal : n.FinalCalibrationSets n.RequiredTraits = some Calibration)
    (hPoses : ∀ S ∈ Group.DistanceMatchSections,
      ∃ Pose, TArrayAt n.MotionData.Poses (SectionPoseId n S) = some Pose
        ∧ SourceAssetPresent n.MotionData Pose = true)
    (hBelow : ∃ S ∈ Group.DistanceMatchSections, SectionCost n Calibration S < 10000000) :
    ∃ m, UpdateMotionMatchingState host n DeltaTime Context = some m
      ∧ m.MotionMatchingMode = EMotionMatchingMode.DistanceMatching
      ∧ ∃ S ∈ Group.DistanceMatchSections, m.ActiveDistanceMatchSection = some S := by
  obtain ⟨L, hL, hLe, hAll, hWhich⟩ := foldlM_DistanceMatchStep n Calibration
    Group.DistanceMatchSections (fun S hS => (hPoses S hS).imp fun _ h => h.1) {}
  obtain ⟨S₀, hS₀, hCost⟩ := hBelow
  have hLt : L.LowestCost < 10000000 := lt_of_le_of_lt (hAll S₀ hS₀) hCost
  rcases hWhich with hW | ⟨S, hS, hSec, hId⟩
  · rw [hW] at hLt
    exact absurd hLt (lt_irrefl _)
  · obtain ⟨Pose, hPose, hAsset⟩ := hPoses S hS
    have hStart : UpdateMotionMatchingState host n DeltaTime Context
        = InitializeDistanceMatching host n := by
      have hc : (n.DistanceMatchPayload.bTrigger
          && n.DistanceMatchPayload.MatchType != EDistanceMatchType.None) = true := by
        simp [hTrigger, hType]
      simp only [UpdateMotionMatchingState, hc, if_true]
    have hEntry := DistanceMatchEntryState_eq n
    have hInit : InitializeDistanceMatching host n
        = TransitionToPose host.Channel { DistanceMatchEntryState n with
            ActiveDistanceMatchSection := some S
            MotionMatchingMode := EMotionMatchingMode.DistanceMatching
            DistanceMatchTime := L.LowestCostTime
            LastDistanceMatchKeyChecked := L.LowestLastKeyChecked }
          L.LowestCostPoseId (L.LowestCostTime - Pose.Time) := by
      have hD : (DistanceMatchEntryState n).MotionData = n.MotionData := by rw [hEntry]
      have hP : (DistanceMatchEntryState n).DistanceMatchPayload = n.DistanceMatchPayload := by
        rw [hEntry]
      have hF : (DistanceMatchEntryState n).FinalCalibrationSets = n.FinalCalibrationSets := by
        rw [hEntry]
      have hR : (DistanceMatchEntryState n).RequiredTraits = n.RequiredTraits := by
        rw [hEntry]
      have hUnfold : InitializeDistanceMatching host n
          = match (DistanceMatchEntryState n).MotionData.DistanceMatchSections
              (DistanceMatchEntryState n).DistanceMatchPayload.MatchType
              (DistanceMatchEntryState n).DistanceMatchPayload.MatchBasis,
              (DistanceMatchEntryState n).FinalCalibrationSets
                (DistanceMatchEntryState n).RequiredTraits with
            | none, _ => some (DistanceMatchEntryState n)
            | some _, none => some (DistanceMatchEntryState n)
            | some DistanceMatchGroup, some FinalCalibration =>
              match DistanceMatchGroup.DistanceMatchSections.foldlM
                  (DistanceMatchStep (DistanceMatchEntryState n) FinalCalibration) {} with
              | none => none
              | some Lowest =>
                match Lowest.LowestCostSection with
                | none => some (DistanceMatchEntryState n)
                | some LowestCostSection =>
                  match TArrayAt (DistanceMatchEntryState n).MotionData.Poses
                      Lowest.LowestCostPoseId with
                  | none => none
                  | some Pose =>
                    TransitionToPose host.Channel { DistanceMatchEntryState n with
                        ActiveDistanceMatchSection := some LowestCostSection
                        MotionMatchingMode := EMotionMatchingMode.DistanceMatching
                        DistanceMatchTime := Lowest.LowestCostTime
                        LastDistanceMatchKeyChecked := Lowest.LowestLastKeyChecked }
                      Lowest.LowestCostPoseId (Lowest.LowestCostTime - Pose.Time) := by
        simp only [InitializeDistanceMatching, BlendedTrajectoryState_returns n hBlend]
        rfl
      rw [hUnfold]
      simp only [hD, hP, hF, hR, hGroup, hCal, hL, hSec, hId, hPose]
    obtain ⟨m, hm⟩ := TransitionToPose_returns host.Channel
      { DistanceMatchEntryState n with
        ActiveDistanceMatchSection := some S
        MotionMatchingMode := EMotionMatchingMode.DistanceMatching
        DistanceMatchTime := L.LowestCostTime
        LastDistanceMatchKeyChecked := L.LowestLastKeyChecked }
      L.LowestCostPoseId (L.LowestCostTime - Pose.Time) Pose
      (by rw [hId]; show TArrayAt (DistanceMatchEntryState n).MotionData.Poses _ = _
          rw [hEntry]; exact hPose)
      (by show SourceAssetPresent (DistanceMatchEntryState n).MotionData Pose = true
          rw [hEntry]; exact hAsset)
    refine ⟨m, by rw [hStart, hInit, hm], ?_, S, hS, ?_⟩
    · exact (TransitionToPose_control _ _ _ _ _ hm).1
    · exact TransitionToPose_section _ _ _ _ _ hm

/-- C12 (amended), on the database whose one section is matched at 0.2 s, pose 2: the tick
returns in DistanceMatching mode. -/
theorem UpdateMotionMatchingState_enters_distance_matching_witness :
    (UpdateMotionMatchingState SpecRepositoryOps Scenario.TriggeredNode (1 / 32)
        { DeltaTime := 1 / 32 }).map (fun m => (m.MotionMatchingMode, m.CurrentChosenPoseId,
          m.DistanceMatchTime)) = some (EMotionMatchingMode.DistanceMatching, 2, 1 / 5)
    ∧ ∃ m, UpdateMotionMatchingState SpecRepositoryOps Scenario.TriggeredNode (1 / 32)
        { DeltaTime := 1 / 32 } = some m
      ∧ m.MotionMatchingMode = EMotionMatchingMode.DistanceMatching := by
  refine ⟨by decide!, ?_⟩
  obtain ⟨m, hm, hMode, -⟩ := UpdateMotionMatchingState_enters_distance_matching
    SpecRepositoryOps Scenario.TriggeredNode (1 / 32) { DeltaTime := 1 / 32 }
    ⟨[Scenario.SectionAt (1 / 5)]⟩ Scenario.MomentumOnly rfl rfl (by decide)
    (by unfold TrajectoryBlendingReturns; decide) rfl rfl
    (by
      intro S hS
      rw [List.mem_singleton.1 hS]
      exact ⟨Scenario.Pose 2 1 1, by decide!, rfl⟩)
    ⟨Scenario.SectionAt (1 / 5), List.mem_singleton.2 rfl, by decide!⟩
  exact ⟨m, hm, hMode⟩

/-! ## Leaving distance matching -/

/-- `UpdateDistanceMatching` on a node with an active section and a non-empty pool returns:
the matched time is stored, the control members are kept, and the return value is false
exactly when the `float` difference of the matched time and the section's end time is, in
absolute value, below `0.01f`. -/
theorem UpdateDistanceMatching_returns (host : FRepositoryOps) (n : FAnimNode_MotionMatching)
    (DeltaTime : ℚ) (Section : FDistanceMatchSection)
    (hSection : n.ActiveDistanceMatchSection = some Section) (hPool : n.BlendChannels ≠ []) :
    ∃ a, UpdateDistanceMatching host n DeltaTime = some (a,
        !decide (|RoundToFloat ((Section.FindMatchingTime n.DistanceMatchPayload.MarkerDistance
          n.LastDistanceMatchKeyChecked).1 - Section.EndTime)| < RoundToFloat (1 / 100)))
      ∧ SameControl n a
      ∧ a.DistanceMatchTime = (Section.FindMatchingTime n.DistanceMatchPayload.MarkerDistance
          n.LastDistanceMatchKeyChecked).1 := by
  have hSplit : n.BlendChannels = n.BlendChannels.dropLast ++ [n.BlendChannels.getLast hPool] :=
    (List.dropLast_append_getLast hPool).symm
  have hChannels := UpdateBlending_channels host.Channel n DeltaTime _ _ hSplit
  have hLast : (UpdateBlending host.Channel n DeltaTime).BlendChannels.getLast?
      = some (host.Channel.Update (n.BlendChannels.getLast hPool) DeltaTime n.BlendTime true
          n.PlaybackRate).1 := by
    rw [hChannels, List.getLast?_append, List.getLast?_singleton]
    rfl
  have hS : (UpdateBlending host.Channel n DeltaTime).ActiveDistanceMatchSection
      = some Section := hSection
  have hP : (UpdateBlending host.Channel n DeltaTime).DistanceMatchPayload
      = n.DistanceMatchPayload := rfl
  have hK : (UpdateBlending host.Channel n DeltaTime).LastDistanceMatchKeyChecked
      = n.LastDistanceMatchKeyChecked := rfl
  simp only [UpdateDistanceMatching, hS, hP, hK, hLast]
  by_cases hc : |RoundToFloat ((Section.FindMatchingTime n.DistanceMatchPayload.MarkerDistance
      n.LastDistanceMatchKeyChecked).1 - Section.EndTime)| < RoundToFloat (1 / 100)
  · simp only [if_pos hc, hc, decide_True, Bool.not_true]
    exact ⟨_, rfl, ⟨rfl, rfl, rfl, rfl, rfl⟩, rfl⟩
  · simp only [if_neg hc, hc, decide_False, Bool.not_false]
    exact ⟨_, rfl, ⟨rfl, rfl, rfl, rfl, rfl⟩, rfl⟩

/-- C13, as stated, fails: the test is made in `float` arithmetic against the constant
`0.01f`, the binary32 number 5368709/536870912, which is below 0.01.  With the section's end
at 0 s and the matched time `0.01f`, the payload's match type is not None and
|matchedTime - EndTime| < 0.01, yet the tick returns in DistanceMatching mode. -/
theorem UpdateDistanceMatchingState_float_threshold :
    Scenario.ZeroEndNode.MotionMatchingMode = EMotionMatchingMode.DistanceMatching
    ∧ Scenario.ZeroEndNode.DistanceMatchPayload.MatchType ≠ EDistanceMatchType.None
    ∧ Scenario.ZeroEndNode.ActiveDistanceMatchSection = some Scenario.ZeroEndSection
    ∧ |(Scenario.ZeroEndSection.FindMatchingTime
          Scenario.ZeroEndNode.DistanceMatchPayload.MarkerDistance
          Scenario.ZeroEndNode.LastDistanceMatchKeyChecked).1
        - Scenario.ZeroEndSection.EndTime| < 1 / 100
    ∧ (UpdateDistanceMatchingState SpecRepositoryOps Scenario.ZeroEndNode (1 / 32)
        { DeltaTime := 1 / 32 }).map (fun m => (m.MotionMatchingMode, m.DistanceMatchTime))
      = some (EMotionMatchingMode.DistanceMatching, 5368709 / 536870912) := by
  refine ⟨rfl, by decide, rfl, by decide!, by decide!⟩

/-- C13 (amended): for a tick that starts in DistanceMatching mode with an active section and a
non-empty pool, every state that `UpdateDistanceMatchingState` returns is in MotionMatching
mode if and only if the payload's match type is None or the `float` difference of the matched
time of the active section and the section's end time is, in absolute value, below the
constant `0.01f`; in every other case the call returns and the mode stays DistanceMatching.
When the payload's match type is None the call is the matched transition from MotionMatching
mode, and when the matched time is that close to the end it is the MotionMatching update,
followed by the blend update, of the distance-matched state put into MotionMatching mode. -/
theorem UpdateDistanceMatchingState_mode (host : FRepositoryOps)
    (n : FAnimNode_MotionMatching) (DeltaTime : ℚ) (Context : FAnimationUpdateContext)
    (Section : FDistanceMatchSection)
    (hMode : n.MotionMatchingMode = EMotionMatchingMode.DistanceMatching)
    (hSection : n.ActiveDistanceMatchSection = some Section) (hPool : n.BlendChannels ≠ []) :
    (∀ m, UpdateDistanceMatchingState host n DeltaTime Context = some m →
      (m.MotionMatchingMode = EMotionMatchingMode.MotionMatching
        ↔ (n.DistanceMatchPayload.MatchType = EDistanceMatchType.None
          ∨ |RoundToFloat ((Section.FindMatchingTime n.DistanceMatchPayload.MarkerDistance
              n.LastDistanceMatchKeyChecked).1 - Section.EndTime)| < RoundToFloat (1 / 100))))
    ∧ (¬ (n.DistanceMatchPayload.MatchType = EDistanceMatchType.None
          ∨ |RoundToFloat ((Section.FindMatchingTime n.DistanceMatchPayload.MarkerDistance
              n.LastDistanceMatchKeyChecked).1 - Section.EndTime)| < RoundToFloat (1 / 100)) →
      ∃ m, UpdateDistanceMatchingState host n DeltaTime Context = some m
        ∧ m.MotionMatchingMode = EMotionMatchingMode.DistanceMatching)
    ∧ (n.DistanceMatchPayload.MatchType = EDistanceMatchType.None →
      UpdateDistanceMatchingState host n DeltaTime Context
        = InitializeMatchedTransition host
            { n with MotionMatchingMode := EMotionMatchingMode.MotionMatching } Context)
    ∧ (n.DistanceMatchPayload.MatchType ≠ EDistanceMatchType.None →
      |RoundToFloat ((Section.FindMatchingTime n.DistanceMatchPayload.MarkerDistance
          n.LastDistanceMatchKeyChecked).1 - Section.EndTime)| < RoundToFloat (1 / 100) →
      ∃ a, UpdateDistanceMatching host n DeltaTime = some (a, false)
        ∧ UpdateDistanceMatchingState host n DeltaTime Context
          = (UpdateMotionMatching host
              { a with MotionMatchingMode := EMotionMatchingMode.MotionMatching }
              DeltaTime Context).map (fun m => UpdateBlending host.Channel m DeltaTime)) := by
  obtain ⟨a, ha, hControl, -⟩ := UpdateDistanceMatching_returns host n DeltaTime Section
    hSection hPool
  have hNone : n.DistanceMatchPayload.MatchType = EDistanceMatchType.None →
      UpdateDistanceMatchingState host n DeltaTime Context
        = InitializeMatchedTransition host
            { n with MotionMatchingMode := EMotionMatchingMode.MotionMatching } Context := by
    intro hT
    simp only [UpdateDistanceMatchingState, if_pos hT]
  have hExit : n.DistanceMatchPayload.MatchType ≠ EDistanceMatchType.None →
      |RoundToFloat ((Section.FindMatchingTime n.DistanceMatchPayload.MarkerDistance
          n.LastDistanceMatchKeyChecked).1 - Section.EndTime)| < RoundToFloat (1 / 100) →
      UpdateDistanceMatching host n DeltaTime = some (a, false)
        ∧ UpdateDistanceMatchingState host n DeltaTime Context
          = (UpdateMotionMatching host
              { a with MotionMatchingMode := EMotionMatchingMode.MotionMatching }
              DeltaTime Context).map (fun m => UpdateBlending host.Channel m DeltaTime) := by
    intro hT hc
    simp only [hc, decide_True, Bool.not_true] at ha
    refine ⟨ha, ?_⟩
    simp only [UpdateDistanceMatchingState, if_neg hT, ha]
    cases UpdateMotionMatching host
      { a with MotionMatchingMode := EMotionMatchingMode.MotionMatching } DeltaTime Context
      <;> rfl
  have hStay : n.DistanceMatchPayload.MatchType ≠ EDistanceMatchType.None →
      ¬ |RoundToFloat ((Section.FindMatchingTime n.DistanceMatchPayload.MarkerDistance
          n.LastDistanceMatchKeyChecked).1 - Section.EndTime)| < RoundToFloat (1 / 100) →
      UpdateDistanceMatchingState host n DeltaTime Context = some a := by
    intro hT hc
    simp only [hc, decide_False, Bool.not_false] at ha
    simp only [UpdateDistanceMatchingState, if_neg hT, ha]
  refine ⟨?_, ?_, hNone, fun hT hc => ⟨a, hExit hT hc⟩⟩
  · intro m hm
    by_cases hT : n.DistanceMatchPayload.MatchType = EDistanceMatchType.None
    · rw [hNone hT] at hm
      have hC := InitializeMatchedTransition_control host _ m Context hm
      exact ⟨fun _ => Or.inl hT, fun _ => hC.1⟩
    · by_cases hc : |RoundToFloat ((Section.FindMatchingTime n.DistanceMatchPayload.MarkerDistance
          n.LastDistanceMatchKeyChecked).1 - Section.EndTime)| < RoundToFloat (1 / 100)
      · rw [(hExit hT hc).2] at hm
        refine ⟨fun _ => Or.inr hc, fun _ => ?_⟩
        cases hU : UpdateMotionMatching host
          { a with MotionMatchingMode := EMotionMatchingMode.MotionMatching } DeltaTime Context
          with
        | none => rw [hU] at hm; cases hm
        | some b =>
          rw [hU] at hm
          cases hm
          exact (UpdateMotionMatching_control host _ b DeltaTime Context hU).1
      · rw [hStay hT hc] at hm
        cases hm
        constructor
        · intro hM
          rw [hControl.1, hMode] at hM
          cases hM
        · intro h
          rcases h with h | h
          · exact absurd h hT
          · exact absurd h hc
  · intro hNot
    have hT : n.DistanceMatchPayload.MatchType ≠ EDistanceMatchType.None :=
      fun h => hNot (Or.inl h)
    have hc : ¬ |RoundToFloat ((Section.FindMatchingTime n.DistanceMatchPayload.MarkerDistance
          n.LastDistanceMatchKeyChecked).1 - Section.EndTime)| < RoundToFloat (1 / 100) :=
      fun h => hNot (Or.inr h)
    exact ⟨a, hStay hT hc, hControl.1.trans hMode⟩

/-- C13 (amended), at the boundary: with the section's end at 1 s, a tick whose matched time
is `0.99f`, 1 or `1.01f` s ends in MotionMatching mode (both `float` differences are below
`0.01f`), and so does a tick with a cleared payload far from the end; a tick whose matched
time is 0.5 s stays in DistanceMatching mode. -/
theorem UpdateDistanceMatchingState_mode_witness :
    (UpdateDistanceMatchingState SpecRepositoryOps
        (Scenario.DistanceMatchingNode (RoundToFloat (99 / 100)))
        (1 / 32) { DeltaTime := 1 / 32 }).map (fun m => m.MotionMatchingMode)
      = some EMotionMatchingMode.MotionMatching
    ∧ (UpdateDistanceMatchingState SpecRepositoryOps (Scenario.DistanceMatchingNode 1)
        (1 / 32) { DeltaTime := 1 / 32 }).map (fun m => m.MotionMatchingMode)
      = some EMotionMatchingMode.MotionMatching
    ∧ (UpdateDistanceMatchingState SpecRepositoryOps
        (Scenario.DistanceMatchingNode (RoundToFloat (101 / 100)))
        (1 / 32) { DeltaTime := 1 / 32 }).map (fun m => m.MotionMatchingMode)
      = some EMotionMatchingMode.MotionMatching
    ∧ (UpdateDistanceMatchingState SpecRepositoryOps Scenario.ClearedPayloadNode
        (1 / 32) { DeltaTime := 1 / 32 }).map (fun m => m.MotionMatchingMode)
      = some EMotionMatchingMode.MotionMatching
    ∧ ∃ m, UpdateDistanceMatchingState SpecRepositoryOps
          (Scenario.DistanceMatchingNode (1 / 2)) (1 / 32) { DeltaTime := 1 / 32 } = some m
        ∧ m.MotionMatchingMode = EMotionMatchingMode.DistanceMatching := by
  refine ⟨by decide!, by decide!, by decide!, by decide!, ?_⟩
  exact (UpdateDistanceMatchingState_mode SpecRepositoryOps
    (Scenario.DistanceMatchingNode (1 / 2)) (1 / 32) { DeltaTime := 1 / 32 }
    (Scenario.SectionAt (1 / 2)) rfl rfl (by decide)).2.1 (by decide!)

/-! ## Re-entry -/

/-- A tick in MotionMatching mode without a distance-match trigger and with a pending
transition is the matched transition, after which the pending flag is cleared. -/
theorem UpdateMotionMatchingState_pending (host : FRepositoryOps)
    (n : FAnimNode_MotionMatching) (DeltaTime : ℚ) (Context : FAnimationUpdateContext)
    (hNoTrigger : (n.DistanceMatchPayload.bTrigger
      && n.DistanceMatchPayload.MatchType != EDistanceMatchType.None) = false)
    (hPending : n.bTriggerTransition = true) :
    UpdateMotionMatchingState host n DeltaTime Context
      = (InitializeMatchedTransition host n Context).map
          (fun m => { m with bTriggerTransition := false }) := by
  simp only [UpdateMotionMatchingState, hNoTrigger, hPending, Bool.false_eq_true, if_false,
    if_true]
  cases InitializeMatchedTransition host n Context <;> rfl

/-- A tick in MotionMatching mode without a distance-match trigger and without a pending
transition is the normal update: `UpdateMotionMatching`, then `UpdateBlending`. -/
theorem UpdateMotionMatchingState_normal (host : FRepositoryOps)
    (n : FAnimNode_MotionMatching) (DeltaTime : ℚ) (Context : FAnimationUpdateContext)
    (hNoTrigger : (n.DistanceMatchPayload.bTrigger
      && n.DistanceMatchPayload.MatchType != EDistanceMatchType.None) = false)
    (hPending : n.bTriggerTransition = false) :
    UpdateMotionMatchingState host n DeltaTime Context
      = (UpdateMotionMatching host n DeltaTime Context).map
          (fun m => UpdateBlending host.Channel m DeltaTime) := by
  simp only [UpdateMotionMatchingState, hNoTrigger, hPending, Bool.false_eq_true, if_false]
  cases UpdateMotionMatching host n DeltaTime Context <;> rfl

/-- C16: re-entry is one-shot.  If `Initialize_AnyThread` runs on a node that is valid (its
validity flag is set, its database is set and processed, pose 0 exists and its source asset
is present) and was already initialized, it returns the node in MotionMatching mode with the
transition flag pending (and the time accumulator reset).  The first following tick in
MotionMatching mode without a distance-match trigger is `InitializeMatchedTransition`
followed by the clearing of the flag; when no pose recorder is present it returns a state
whose flag is cleared and whose pool holds exactly one channel, created for pose 0; and any
later tick from that state is the normal update, `UpdateMotionMatching` then
`UpdateBlending`. -/
theorem reentry_is_one_shot (host : FRepositoryOps) (n : FAnimNode_MotionMatching)
    (Pose : FPoseMotionData)
    (hValid : n.bValidToEvaluate = true) (hData : n.MotionDataIsNull = false)
    (hProcessed : n.MotionData.bIsProcessed = true) (hInitialized : n.bInitialized = true)
    (hNoTrigger : (n.DistanceMatchPayload.bTrigger
      && n.DistanceMatchPayload.MatchType != EDistanceMatchType.None) = false)
    (hPose : TArrayAt n.MotionData.Poses 0 = some Pose)
    (hAsset : SourceAssetPresent n.MotionData Pose = true) :
    ∃ m, Initialize_AnyThread host n = some m
      ∧ m.MotionMatchingMode = EMotionMatchingMode.MotionMatching
      ∧ m.bTriggerTransition = true
      ∧ (∀ DeltaTime Context, UpdateMotionMatchingState host m DeltaTime Context
          = (InitializeMatchedTransition host m Context).map
              (fun s => { s with bTriggerTransition := false }))
      ∧ (∀ DeltaTime Context, Context.MotionRecorderNode = none →
          ∃ m₁ c, UpdateMotionMatchingState host m DeltaTime Context = some m₁
            ∧ m₁.bTriggerTransition = false
            ∧ m₁.MotionMatchingMode = EMotionMatchingMode.MotionMatching
            ∧ m₁.BlendChannels = [c]
            ∧ IsChannelFor host.Channel Pose EBlendStatus.Dominant 0 0 c
            ∧ ∀ DeltaTime₂ Context₂, UpdateMotionMatchingState host m₁ DeltaTime₂ Context₂
                = (UpdateMotionMatching host m₁ DeltaTime₂ Context₂).map
                    (fun s => UpdateBlending host.Channel s DeltaTime₂)) := by
  refine ⟨{ n with
      InternalTimeAccumulator := 0
      MotionMatchingMode := EMotionMatchingMode.MotionMatching
      bTriggerTransition := true }, ?_, rfl, rfl, ?_, ?_⟩
  · simp only [Initialize_AnyThread, hValid, hData, hProcessed, hInitialized, Bool.not_true,
      Bool.false_eq_true, if_false, Bool.or_self, if_true]
  · intro DeltaTime Context
    exact UpdateMotionMatchingState_pending host { n with
      InternalTimeAccumulator := 0
      MotionMatchingMode := EMotionMatchingMode.MotionMatching
      bTriggerTransition := true } DeltaTime Context hNoTrigger rfl
  · intro DeltaTime Context hRecorder
    obtain ⟨j, c, hj, hc, hFor⟩ := JumpToPose_channels host.Channel
      { n with
        InternalTimeAccumulator := 0
        MotionMatchingMode := EMotionMatchingMode.MotionMatching
        bTriggerTransition := true
        TimeSinceMotionChosen := 0
        TimeSinceMotionUpdate := 0 } 0 0 Pose hPose hAsset
    have hControl := JumpToPose_control _ _ _ _ _ hj
    have hTick : UpdateMotionMatchingState host { n with
          InternalTimeAccumulator := 0
          MotionMatchingMode := EMotionMatchingMode.MotionMatching
          bTriggerTransition := true } DeltaTime Context
        = some { j with bTriggerTransition := false } := by
      rw [UpdateMotionMatchingState_pending host { n with
      InternalTimeAccumulator := 0
      MotionMatchingMode := EMotionMatchingMode.MotionMatching
      bTriggerTransition := true } DeltaTime Context hNoTrigger rfl]
      simp only [InitializeMatchedTransition, hRecorder, hj, Option.map_some']
    refine ⟨{ j with bTriggerTransition := false }, c, hTick, rfl, hControl.1, hc, hFor, ?_⟩
    intro DeltaTime₂ Context₂
    refine UpdateMotionMatchingState_normal host { j with bTriggerTransition := false }
      DeltaTime₂ Context₂ ?_ rfl
    have hP : ({ j with bTriggerTransition := false } : FAnimNode_MotionMatching
        ).DistanceMatchPayload = n.DistanceMatchPayload := hControl.2.2.2.1
    rw [hP]
    exact hNoTrigger

/-- C16, on a node left in Action mode with two channels: the re-initialization returns in
MotionMatching mode with the transition pending, the next tick without a recorder returns
with the flag cleared and one channel that starts at pose 0, and the tick after that returns
with the flag still cleared and that one channel. -/
theorem reentry_is_one_shot_witness :
    (Initialize_AnyThread SpecRepositoryOps Scenario.InitializedNode).map
        (fun m => (m.MotionMatchingMode, m.bTriggerTransition))
      = some (EMotionMatchingMode.MotionMatching, true)
    ∧ ((Initialize_AnyThread SpecRepositoryOps Scenario.InitializedNode).bind
        (fun m => UpdateMotionMatchingState SpecRepositoryOps m (1 / 30)
          { DeltaTime := 1 / 30 })).map
        (fun m => (m.bTriggerTransition, m.BlendChannels.map (fun c => c.StartPoseId)))
      = some (false, [0])
    ∧ (((Initialize_AnyThread SpecRepositoryOps Scenario.InitializedNode).bind
        (fun m => UpdateMotionMatchingState SpecRepositoryOps m (1 / 30)
          { DeltaTime := 1 / 30 })).bind
        (fun m => UpdateMotionMatchingState SpecRepositoryOps m (1 / 30)
          { DeltaTime := 1 / 30 })).map
        (fun m => (m.bTriggerTransition, m.BlendChannels.map (fun c => c.StartPoseId)))
      = some (false, [0])
    ∧ ∃ m, Initialize_AnyThread SpecRepositoryOps Scenario.InitializedNode = some m
      ∧ m.MotionMatchingMode = EMotionMatchingMode.MotionMatching
      ∧ m.bTriggerTransition = true := by
  refine ⟨by decide!, by decide!, by decide!, ?_⟩
  obtain ⟨m, hm, hMode, hFlag, -⟩ := reentry_is_one_shot SpecRepositoryOps
    Scenario.InitializedNode _ rfl rfl rfl rfl rfl rfl rfl
  exact ⟨m, hm, hMode, hFlag⟩

/-! ## Fatal configuration -/

/-- `UpdateAssetPlayer` on a node whose validity flag is not set returns the node
unchanged. -/
theorem UpdateAssetPlayer_invalid (host : FRepositoryOps) (n : FAnimNode_MotionMatching)
    (Context : FAnimationUpdateContext) (hInvalid : n.bValidToEvaluate = false) :
    UpdateAssetPlayer host n Context = some n := by
  simp only [UpdateAssetPlayer, hInvalid, Bool.not_false, Bool.or_true, if_true]

/-- `Evaluate_AnyThread` outputs the reference pose when the database is not set, is not
processed, the level of detail disables the node, or the pool is empty. -/
theorem Evaluate_AnyThread_RefPose (host : FRepositoryOps) (n : FAnimNode_MotionMatching)
    (bLODEnabled : Bool)
    (h : n.MotionDataIsNull = true ∨ n.MotionData.bIsProcessed = false ∨ bLODEnabled = false
      ∨ n.BlendChannels = []) :
    Evaluate_AnyThread host n bLODEnabled = some (n, FOutputPose.RefPose) := by
  unfold Evaluate_AnyThread
  by_cases hg : (n.MotionDataIsNull || !n.MotionData.bIsProcessed || !bLODEnabled) = true
  · rw [if_pos hg]
  · rw [if_neg hg]
    rcases h with h | h | h | h
    · simp [h] at hg
    · simp [h] at hg
    · simp [h] at hg
    · simp [h]

/-- C19, evaluated on the code: over a database whose pose 0 is a blend-space pose with a
valid blend space, `IsValidToEvaluate` returns false (`GetPrimaryAnim()` is null for a
blend-space channel: "the starting sequence is null") after `JumpToPose(0)` has put one
channel into the pool.  `Initialize_AnyThread` leaves the validity flag unset,
`UpdateAssetPlayer` then changes nothing, but `Evaluate_AnyThread`, which does not test the
flag, samples the blend space of that channel instead of resetting to the reference pose. -/
theorem Evaluate_AnyThread_ignores_validity :
    (IsValidToEvaluate SpecRepositoryOps Scenario.BlendSpaceStartNode).map (fun r => r.2)
        = some false
      ∧ (Initialize_AnyThread SpecRepositoryOps Scenario.BlendSpaceStartNode).map
          (fun m => (m.bValidToEvaluate, m.BlendChannels.map (fun c => c.AnimType)))
        = some (false, [EMotionAnimAssetType.BlendSpace])
      ∧ ((Initialize_AnyThread SpecRepositoryOps Scenario.BlendSpaceStartNode).bind
          (fun m => UpdateAssetPlayer SpecRepositoryOps m { DeltaTime := 1 / 30 })).map
          (fun m => (m.bValidToEvaluate, m.BlendChannels))
        = (Initialize_AnyThread SpecRepositoryOps Scenario.BlendSpaceStartNode).map
          (fun m => (m.bValidToEvaluate, m.BlendChannels))
      ∧ ((Initialize_AnyThread SpecRepositoryOps Scenario.BlendSpaceStartNode).bind
          (fun m => Evaluate_AnyThread SpecRepositoryOps m true)).map (fun r => r.2)
        = some (FOutputPose.Single ⟨FPoseSample.BlendSpace 0 [⟨0, 1, 0⟩], false⟩)
      ∧ FOutputPose.Single ⟨FPoseSample.BlendSpace 0 [⟨0, 1, 0⟩], false⟩
        ≠ FOutputPose.RefPose := by
  refine ⟨by decide!, by decide!, by decide!, by decide!, by decide⟩

/-! ## Entering an action -/

/-- The surviving channels are the first components of the survivors with their weights. -/
theorem Survivors_eq_map (ops : FAnimChannelOps) (DeltaTime BlendTime PlaybackRate : ℚ)
    (Pool : List FAnimChannelState) :
    Survivors ops DeltaTime BlendTime PlaybackRate Pool
      = (SurvivorsWithWeight ops DeltaTime BlendTime PlaybackRate Pool).map
          (fun Entry => Entry.1) := by
  induction Pool with
  | nil => rfl
  | cons c rest ih =>
    simp only [Survivors, SurvivorsWithWeight]
    split_ifs
    · exact ih
    · rw [List.map_cons, ih]

/-- The survivors of a pool `Others ++ [Last]` with their weights. -/
theorem SurvivorsWithWeight_concat (ops : FAnimChannelOps)
    (DeltaTime BlendTime PlaybackRate : ℚ) (Others : List FAnimChannelState)
    (Last : FAnimChannelState) :
    SurvivorsWithWeight ops DeltaTime BlendTime PlaybackRate (Others ++ [Last])
      = (Others.filter (fun c =>
            !decide ((ops.Update c DeltaTime BlendTime false PlaybackRate).2
                < -(RoundToFloat (5 / 100))))).map
          (fun c => ops.Update c DeltaTime BlendTime false PlaybackRate)
        ++ [ops.Update Last DeltaTime BlendTime true PlaybackRate] := by
  induction Others with
  | nil => simp [SurvivorsWithWeight]
  | cons c rest ih =>
    have hne : (rest ++ [Last]).isEmpty = false := by
      cases rest <;> rfl
    rw [List.cons_append, SurvivorsWithWeight, hne, ih, List.filter_cons]
    by_cases h : (ops.Update c DeltaTime BlendTime false PlaybackRate).2 < -(RoundToFloat (5 / 100))
    · simp [h]
    · simp [h]

/-- The dominant index that the loop of `UpdateBlending` leaves, from any point of the pass:
either no surviving weight of the pending channels exceeds the highest weight so far, and the
index is the one so far, or the index is that of the first pending survivor of highest
weight, counted in the compacted array. -/
theorem UpdateBlendingLoop_dominant (ops : FAnimChannelOps)
    (DeltaTime BlendTime PlaybackRate : ℚ) (Pending Kept : List FAnimChannelState)
    (HighestBlendWeight : ℚ) (HighestBlendChannel : Int) :
    ((UpdateBlendingLoop ops DeltaTime BlendTime PlaybackRate Pending Kept HighestBlendWeight
          HighestBlendChannel).2 = HighestBlendChannel
        ∧ ∀ w ∈ SurvivorWeights ops DeltaTime BlendTime PlaybackRate Pending,
            w ≤ HighestBlendWeight)
    ∨ ∃ k : Nat, k < (SurvivorWeights ops DeltaTime BlendTime PlaybackRate Pending).length
        ∧ (UpdateBlendingLoop ops DeltaTime BlendTime PlaybackRate Pending Kept
            HighestBlendWeight HighestBlendChannel).2 = ((Kept.length + k : Nat) : Int)
        ∧ HighestBlendWeight
          < (SurvivorWeights ops DeltaTime BlendTime PlaybackRate Pending).getD k 0
        ∧ (∀ j, j < (SurvivorWeights ops DeltaTime BlendTime PlaybackRate Pending).length →
            (SurvivorWeights ops DeltaTime BlendTime PlaybackRate Pending).getD j 0
              ≤ (SurvivorWeights ops DeltaTime BlendTime PlaybackRate Pending).getD k 0)
        ∧ (∀ j, j < k →
            (SurvivorWeights ops DeltaTime BlendTime PlaybackRate Pending).getD j 0
              < (SurvivorWeights ops DeltaTime BlendTime PlaybackRate Pending).getD k 0) := by
  induction Pending generalizing Kept HighestBlendWeight HighestBlendChannel with
  | nil =>
    exact Or.inl ⟨rfl, fun w hw => absurd hw (List.not_mem_nil w)⟩
  | cons c rest ih =>
    by_cases hRemove : (!rest.isEmpty
        && decide ((ops.Update c DeltaTime BlendTime rest.isEmpty PlaybackRate).2
          < -(RoundToFloat (5 / 100)))) = true
    · have hW : SurvivorWeights ops DeltaTime BlendTime PlaybackRate (c :: rest)
          = SurvivorWeights ops DeltaTime BlendTime PlaybackRate rest := by
        simp only [SurvivorWeights, SurvivorsWithWeight, hRemove, if_true]
      have hL : UpdateBlendingLoop ops DeltaTime BlendTime PlaybackRate (c :: rest) Kept
          HighestBlendWeight HighestBlendChannel
          = UpdateBlendingLoop ops DeltaTime BlendTime PlaybackRate rest Kept
              HighestBlendWeight HighestBlendChannel := by
        simp only [UpdateBlendingLoop, hRemove, if_true]
      rw [hW, hL]
      exact ih Kept HighestBlendWeight HighestBlendChannel
    · have hW : SurvivorWeights ops DeltaTime BlendTime PlaybackRate (c :: rest)
          = (ops.Update c DeltaTime BlendTime rest.isEmpty PlaybackRate).2
            :: SurvivorWeights ops DeltaTime BlendTime PlaybackRate rest := by
        simp only [SurvivorWeights, SurvivorsWithWeight, hRemove, if_false, List.map_cons,
          Bool.false_eq_true]
      rw [hW]
      by_cases hGt : (ops.Update c DeltaTime BlendTime rest.isEmpty PlaybackRate).2
          > HighestBlendWeight
      · have hL : UpdateBlendingLoop ops DeltaTime BlendTime PlaybackRate (c :: rest) Kept
            HighestBlendWeight HighestBlendChannel
            = UpdateBlendingLoop ops DeltaTime BlendTime PlaybackRate rest
                (Kept ++ [(ops.Update c DeltaTime BlendTime rest.isEmpty PlaybackRate).1])
                (ops.Update c DeltaTime BlendTime rest.isEmpty PlaybackRate).2
                Kept.length := by
          simp only [UpdateBlendingLoop, hRemove, if_false, if_pos hGt, Bool.false_eq_true]
        rw [hL]
        rcases ih (Kept ++ [(ops.Update c DeltaTime BlendTime rest.isEmpty PlaybackRate).1])
            (ops.Update c DeltaTime BlendTime rest.isEmpty PlaybackRate).2 Kept.length with
          ⟨hId, hAll⟩ | ⟨k, hk, hId, hLt, hMax, hBefore⟩
        · refine Or.inr ⟨0, Nat.succ_pos _, by rw [hId]; rfl, hGt, ?_, ?_⟩
          · intro j hj
            cases j with
            | zero => exact le_refl _
            | succ j =>
              simp only [List.getD_cons_succ, List.getD_cons_zero]
              have hj' : j < (SurvivorWeights ops DeltaTime BlendTime PlaybackRate rest).length := by
                simpa using hj
              rw [List.getD_eq_getElem _ _ hj']
              exact hAll _ (List.getElem_mem hj')
          · intro j hj
            exact absurd hj (Nat.not_lt_zero j)
        · refine Or.inr ⟨k + 1, by simpa using hk, ?_, ?_, ?_, ?_⟩
          · rw [hId, List.length_append, List.length_singleton]
            push_cast
            ring
          · simp only [List.getD_cons_succ]
            exact lt_trans hGt hLt
          · intro j hj
            cases j with
            | zero =>
              simp only [List.getD_cons_succ, List.getD_cons_zero]
              exact le_of_lt hLt
            | succ j =>
              simp only [List.getD_cons_succ]
              exact hMax j (by simpa using hj)
          · intro j hj
            cases j with
            | zero =>
              simp only [List.getD_cons_succ, List.getD_cons_zero]
              exact hLt
            | succ j =>
              simp only [List.getD_cons_succ]
              exact hBefore j (by omega)
      · have hL : UpdateBlendingLoop ops DeltaTime BlendTime PlaybackRate (c :: rest) Kept
            HighestBlendWeight HighestBlendChannel
            = UpdateBlendingLoop ops DeltaTime BlendTime PlaybackRate rest
                (Kept ++ [(ops.Update c DeltaTime BlendTime rest.isEmpty PlaybackRate).1])
                HighestBlendWeight HighestBlendChannel := by
          simp only [UpdateBlendingLoop, hRemove, if_false, if_neg hGt, Bool.false_eq_true]
        rw [hL]
        have hLe : (ops.Update c DeltaTime BlendTime rest.isEmpty PlaybackRate).2
            ≤ HighestBlendWeight := not_lt.1 hGt
        rcases ih (Kept ++ [(ops.Update c DeltaTime BlendTime rest.isEmpty PlaybackRate).1])
            HighestBlendWeight HighestBlendChannel with
          ⟨hId, hAll⟩ | ⟨k, hk, hId, hLt, hMax, hBefore⟩
        · refine Or.inl ⟨hId, fun w hw => ?_⟩
          rcases List.mem_cons.1 hw with hw | hw
          · rw [hw]
            exact hLe
          · exact hAll w hw
        · refine Or.inr ⟨k + 1, by simpa using hk, ?_, ?_, ?_, ?_⟩
          · rw [hId, List.length_append, List.length_singleton]
            push_cast
            ring
          · simp only [List.getD_cons_succ]
            exact hLt
          · intro j hj
            cases j with
            | zero =>
              simp only [List.getD_cons_succ, List.getD_cons_zero]
              exact le_of_lt (lt_of_le_of_lt hLe hLt)
            | succ j =>
              simp only [List.getD_cons_succ]
              exact hMax j (by simpa using hj)
          · intro j hj
            cases j with
            | zero =>
              simp only [List.getD_cons_succ, List.getD_cons_zero]
              exact lt_of_le_of_lt hLe hLt
            | succ j =>
              simp only [List.getD_cons_succ]
              exact hBefore j (by omega)

/-- C21, as stated, fails: the threshold is the `float` constant `-0.05f`, the binary32 number
-13421773/268435456, which is below -0.05.  On the boundary pool a tick of `0.05f` s returns
exactly that weight for the old channel, which is not the last one; the weight is below
-0.05, and the channel is in the pool after `UpdateBlending`, before the current one. -/
theorem UpdateBlending_keeps_boundary_weight :
    Scenario.BoundaryWeightNode.BlendChannels.map (fun c => c.StartPoseId) = [0, 2]
    ∧ (SpecChannelOps.Update { Scenario.DominantChannel with Age := 1 }
        (RoundToFloat (5 / 100)) Scenario.BoundaryWeightNode.BlendTime false
        Scenario.BoundaryWeightNode.PlaybackRate).2 = -(13421773 / 268435456)
    ∧ (-(13421773 / 268435456) : ℚ) < -(5 / 100)
    ∧ (UpdateBlending SpecChannelOps Scenario.BoundaryWeightNode
        (RoundToFloat (5 / 100))).BlendChannels.map (fun c => (c.StartPoseId, c.Weight))
      = [(0, -(13421773 / 268435456)), (2, 1)] := by
  refine ⟨?_, ?_, ?_, ?_⟩ <;> decide!

/-- C21 (amended): for every pool and every tick, the pool after `UpdateBlending` consists, in
their original relative order, of exactly those channels that either were the last channel
before the call or whose weight returned by this tick's `Update` is not below the `float`
constant `-0.05f` (the binary32 number -13421773/268435456), each of them as one `Update` of
this tick leaves it (the last channel updated as the current one, the others as
non-current). -/
theorem UpdateBlending_compaction (ops : FAnimChannelOps) (n : FAnimNode_MotionMatching)
    (DeltaTime : ℚ) :
    (UpdateBlending ops n DeltaTime).BlendChannels
      = (n.BlendChannels.dropLast.filter (fun c =>
            !decide ((ops.Update c DeltaTime n.BlendTime false n.PlaybackRate).2
              < -(RoundToFloat (5 / 100))))).map
          (fun c => (ops.Update c DeltaTime n.BlendTime false n.PlaybackRate).1)
        ++ (n.BlendChannels.getLast?.map
            (fun c => (ops.Update c DeltaTime n.BlendTime true n.PlaybackRate).1)).toList := by
  have hLoop : (UpdateBlending ops n DeltaTime).BlendChannels
      = (SurvivorsWithWeight ops DeltaTime n.BlendTime n.PlaybackRate n.BlendChannels).map
          (fun Entry => Entry.1) := by
    simp only [UpdateBlending, UpdateBlendingLoop_channels, List.nil_append, Survivors_eq_map]
  rw [hLoop]
  rcases List.eq_nil_or_concat n.BlendChannels with hNil | ⟨Others, Last, hConcat⟩
  · rw [hNil]
    rfl
  · rw [List.concat_eq_append] at hConcat
    rw [hConcat, SurvivorsWithWeight_concat, List.dropLast_concat, List.getLast?_append,
      List.getLast?_singleton, List.map_append, List.map_map]
    rfl

/-- C21 (amended), on the boundary pool: a tick of 0.125 s returns the weight -0.125 for the
old channel, below `-0.05f`, and the pool after `UpdateBlending` holds the current channel
only. -/
theorem UpdateBlending_compaction_witness :
    (UpdateBlending SpecChannelOps Scenario.BoundaryWeightNode (1 / 8)).BlendChannels.map
        (fun c => (c.StartPoseId, c.Weight)) = [(2, 1)] := by
  rw [UpdateBlending_compaction]
  decide!

/-- C22: for every non-empty pool, after `UpdateBlending` the value of `DominantBlendChannel`
is a valid index into the resulting (compacted) pool, and the weight that this tick's
`Update` returned for the channel at that index is the highest among the surviving channels,
the earliest such channel on ties: no survivor has a higher weight and every survivor before
it has a strictly lower one.  The survivors and their weights are in the compacted order,
whichever channels were removed during the pass; a channel survives unless it is not the
last one and its weight is below the code's constant `-0.05f`. -/
theorem UpdateBlending_dominant (ops : FAnimChannelOps) (n : FAnimNode_MotionMatching)
    (DeltaTime : ℚ) (hPool : n.BlendChannels ≠ []) :
    (UpdateBlending ops n DeltaTime).BlendChannels
        = (SurvivorsWithWeight ops DeltaTime n.BlendTime n.PlaybackRate n.BlendChannels).map
            (fun Entry => Entry.1)
      ∧ ∃ k : Nat, (UpdateBlending ops n DeltaTime).DominantBlendChannel = (k : Int)
        ∧ k < (UpdateBlending ops n DeltaTime).BlendChannels.length
        ∧ (∀ j, j < (UpdateBlending ops n DeltaTime).BlendChannels.length →
            (SurvivorWeights ops DeltaTime n.BlendTime n.PlaybackRate n.BlendChannels).getD j 0
              ≤ (SurvivorWeights ops DeltaTime n.BlendTime n.PlaybackRate
                  n.BlendChannels).getD k 0)
        ∧ (∀ j, j < k →
            (SurvivorWeights ops DeltaTime n.BlendTime n.PlaybackRate n.BlendChannels).getD j 0
              < (SurvivorWeights ops DeltaTime n.BlendTime n.PlaybackRate
                  n.BlendChannels).getD k 0) := by
  have hLoop : (UpdateBlending ops n DeltaTime).BlendChannels
      = (SurvivorsWithWeight ops DeltaTime n.BlendTime n.PlaybackRate n.BlendChannels).map
          (fun Entry => Entry.1) := by
    simp only [UpdateBlending, UpdateBlendingLoop_channels, List.nil_append, Survivors_eq_map]
  have hLen : (UpdateBlending ops n DeltaTime).BlendChannels.length
      = (SurvivorWeights ops DeltaTime n.BlendTime n.PlaybackRate n.BlendChannels).length := by
    rw [hLoop, SurvivorWeights, List.length_map, List.length_map]
  have hDom : (UpdateBlending ops n DeltaTime).DominantBlendChannel
      = (UpdateBlendingLoop ops DeltaTime n.BlendTime n.PlaybackRate n.BlendChannels []
          (-1) 0).2 := rfl
  refine ⟨hLoop, ?_⟩
  rw [hLen, hDom]
  rcases UpdateBlendingLoop_dominant ops DeltaTime n.BlendTime n.PlaybackRate n.BlendChannels
      [] (-1) 0 with ⟨hId, hAll⟩ | ⟨k, hk, hId, -, hMax, hBefore⟩
  · rcases List.eq_nil_or_concat n.BlendChannels with hNil | ⟨Others, Last, hConcat⟩
    · exact absurd hNil hPool
    · rw [List.concat_eq_append] at hConcat
      have hW : SurvivorWeights ops DeltaTime n.BlendTime n.PlaybackRate n.BlendChannels
          = [(ops.Update Last DeltaTime n.BlendTime true n.PlaybackRate).2] := by
        have hSW := SurvivorsWithWeight_concat ops DeltaTime n.BlendTime n.PlaybackRate
          Others Last
        cases hF : Others.filter (fun c =>
            !decide ((ops.Update c DeltaTime n.BlendTime false n.PlaybackRate).2
              < -(RoundToFloat (5 / 100)))) with
        | nil =>
          rw [hF] at hSW
          rw [SurvivorWeights, hConcat, hSW]
          rfl
        | cons x xs =>
          exfalso
          have hx : x ∈ Others.filter (fun c =>
              !decide ((ops.Update c DeltaTime n.BlendTime false n.PlaybackRate).2
                < -(RoundToFloat (5 / 100)))) := by
            rw [hF]
            exact List.mem_cons_self x xs
          have hKeep := (List.mem_filter.1 hx).2
          simp only [Bool.not_eq_true', decide_eq_false_iff_not, not_lt] at hKeep
          have hMem : (ops.Update x DeltaTime n.BlendTime false n.PlaybackRate).2
              ∈ SurvivorWeights ops DeltaTime n.BlendTime n.PlaybackRate n.BlendChannels := by
            rw [SurvivorWeights, hConcat, hSW, hF]
            simp
          have hLow := hAll _ hMem
          rw [RoundToFloat_five_hundredths] at hKeep
          linarith
      rw [hW]
      refine ⟨0, by rw [hId]; rfl, Nat.succ_pos 0, ?_, ?_⟩
      · intro j hj
        have hj0 : j = 0 := by simpa using hj
        rw [hj0]
      · intro j hj
        exact absurd hj (Nat.not_lt_zero j)
  · refine ⟨k, ?_, hk, hMax, hBefore⟩
    rw [hId]
    simp

/-- C22, on the boundary pool after a tick of `0.05f` s: the old channel has decayed to
weight exactly `-0.05f` and survives, the current one keeps weight 1, and the dominant index
is 1, the current channel in the pool of two. -/
theorem UpdateBlending_dominant_witness :
    SurvivorWeights SpecChannelOps (RoundToFloat (5 / 100)) Scenario.BoundaryWeightNode.BlendTime
        Scenario.BoundaryWeightNode.PlaybackRate Scenario.BoundaryWeightNode.BlendChannels
        = [-(13421773 / 268435456), 1]
      ∧ (UpdateBlending SpecChannelOps Scenario.BoundaryWeightNode
          (RoundToFloat (5 / 100))).BlendChannels.length = 2
      ∧ (UpdateBlending SpecChannelOps Scenario.BoundaryWeightNode
          (RoundToFloat (5 / 100))).DominantBlendChannel = 1
      ∧ ∃ k : Nat,
        (UpdateBlending SpecChannelOps Scenario.BoundaryWeightNode
            (RoundToFloat (5 / 100))).DominantBlendChannel = (k : Int)
        ∧ k < (UpdateBlending SpecChannelOps Scenario.BoundaryWeightNode
            (RoundToFloat (5 / 100))).BlendChannels.length := by
  refine ⟨by decide!, by decide!, by decide!, ?_⟩
  obtain ⟨-, k, hk, hLt, -⟩ := UpdateBlending_dominant SpecChannelOps
    Scenario.BoundaryWeightNode (RoundToFloat (5 / 100)) (by decide!)
  exact ⟨k, hk, hLt⟩

/-! ## The skip guard of the linear scan -/

/-- C23, as stated, fails: in the linear scan the guard is a disjunction.  Pose 0 is flagged
do-not-use, has the required trait and the lowest total cost (0 against 25 for pose 1); the
scan still leaves every scan state unchanged at that pose, as shown for the start state and
for a state that any costed pose would replace, and returns pose 1. -/
theorem GetLowestCostPoseId_Linear_skips_matching_trait :
    ({ Scenario.Pose 0 0 1 with bDoNotUse := true } : FPoseMotionData).bDoNotUse = true
    ∧ ({ Scenario.Pose 0 0 1 with bDoNotUse := true } : FPoseMotionData).Traits
        = (Scenario.Node Scenario.FlaggedPoses).RequiredTraits
    ∧ TotalCost (Scenario.Node Scenario.FlaggedPoses) Scenario.MomentumOnly
        (Scenario.Pose 1 5 1) { Scenario.Pose 0 0 1 with bDoNotUse := true } = 0
    ∧ TotalCost (Scenario.Node Scenario.FlaggedPoses) Scenario.MomentumOnly
        (Scenario.Pose 1 5 1) (Scenario.Pose 1 5 1) = 25
    ∧ LinearStep (Scenario.Node Scenario.FlaggedPoses) Scenario.MomentumOnly
        (Scenario.Pose 1 5 1) (10000000, 0) { Scenario.Pose 0 0 1 with bDoNotUse := true }
        = (10000000, 0)
    ∧ LinearStep (Scenario.Node Scenario.FlaggedPoses) Scenario.MomentumOnly
        (Scenario.Pose 1 5 1) (25, 1) { Scenario.Pose 0 0 1 with bDoNotUse := true }
        = (25, 1)
    ∧ LinearStep (Scenario.Node Scenario.FlaggedPoses) Scenario.MomentumOnly
        (Scenario.Pose 1 5 1) (25, 1) (Scenario.Pose 0 0 1) = (0, 0)
    ∧ GetLowestCostPoseId_Linear (Scenario.Node Scenario.FlaggedPoses) (Scenario.Pose 1 5 1)
        = 1 := by
  refine ⟨rfl, rfl, ?_, ?_, ?_, ?_, ?_, ?_⟩ <;> decide!

/-- C23 (amended): in the linear scan a pose is skipped exactly when it is flagged do-not-use
or its trait differs from the required trait.  Skipped means that the pose leaves every scan
state `(LowestCost, LowestPoseId)` as it is; a pose that is not skipped replaces some scan
state.  So the scan with calibration is the scan over the poses that are neither flagged nor
of another trait, and a do-not-use pose is never costed, whatever its trait. -/
theorem LinearStep_skips_iff (n : FAnimNode_MotionMatching) (Calibration : FCalibrationData)
    (NextPose Pose : FPoseMotionData) :
    ((∀ Lowest, LinearStep n Calibration NextPose Lowest Pose = Lowest)
        ↔ (Pose.bDoNotUse = true ∨ Pose.Traits ≠ n.RequiredTraits))
    ∧ n.MotionData.Poses.foldl (LinearStep n Calibration NextPose) (10000000, 0)
      = (n.MotionData.Poses.filter
          (fun p => !(p.bDoNotUse || p.Traits != n.RequiredTraits))).foldl
          (LinearStep n Calibration NextPose) (10000000, 0) := by
  have hSkips : LinearSkips n Pose = true
      ↔ (Pose.bDoNotUse = true ∨ Pose.Traits ≠ n.RequiredTraits) := by
    simp only [LinearSkips, Bool.or_eq_true, bne_iff_ne]
  refine ⟨⟨?_, ?_⟩, ?_⟩
  · intro hAll
    by_contra hNot
    have hFalse : LinearSkips n Pose = false := by
      cases hs : LinearSkips n Pose
      · rfl
      · exact absurd (hSkips.1 hs) hNot
    have hStep := hAll
      (|VelocityCost n Calibration Pose|
        + |VelocityCost n Calibration Pose
            + ComputeTrajectoryCost n.DesiredTrajectory.TrajectoryPoints Pose.Trajectory
                Calibration * (n.OverrideQualityVsResponsivenessRatio * 2)|
        + |TotalCost n Calibration NextPose Pose| + 1, Pose.PoseId + 1)
    have hV := le_abs_self (VelocityCost n Calibration Pose)
    have hV0 := abs_nonneg (VelocityCost n Calibration Pose)
    have hT := le_abs_self (VelocityCost n Calibration Pose
      + ComputeTrajectoryCost n.DesiredTrajectory.TrajectoryPoints Pose.Trajectory
          Calibration * (n.OverrideQualityVsResponsivenessRatio * 2))
    have hT0 := abs_nonneg (VelocityCost n Calibration Pose
      + ComputeTrajectoryCost n.DesiredTrajectory.TrajectoryPoints Pose.Trajectory
          Calibration * (n.OverrideQualityVsResponsivenessRatio * 2))
    have hC := le_abs_self (TotalCost n Calibration NextPose Pose)
    have hC0 := abs_nonneg (TotalCost n Calibration NextPose Pose)
    rw [LinearStep_eq, hFalse] at hStep
    simp only [Bool.false_eq_true, if_false] at hStep
    rw [if_neg (by linarith), if_neg (by linarith), if_pos (by linarith)] at hStep
    have hId := congrArg Prod.snd hStep
    simp only at hId
    omega
  · intro hSkip Lowest
    rw [LinearStep_eq, if_pos (hSkips.2 hSkip)]
  · exact foldl_skip (LinearStep n Calibration NextPose) (LinearSkips n)
      (by intro acc p hp; rw [LinearStep_eq, if_pos hp]) n.MotionData.Poses (10000000, 0)

/-- C23 (amended), on the flagged database: the do-not-use pose with the required trait
leaves every scan state unchanged, and the scan is the scan over the single remaining
pose. -/
theorem LinearStep_skips_iff_witness :
    (∀ Lowest, LinearStep (Scenario.Node Scenario.FlaggedPoses) Scenario.MomentumOnly
        (Scenario.Pose 1 5 1) Lowest { Scenario.Pose 0 0 1 with bDoNotUse := true } = Lowest)
    ∧ (Scenario.Node Scenario.FlaggedPoses).MotionData.Poses.filter
        (fun p => !(p.bDoNotUse
          || p.Traits != (Scenario.Node Scenario.FlaggedPoses).RequiredTraits))
      = [Scenario.Pose 1 5 1] :=
  ⟨(LinearStep_skips_iff (Scenario.Node Scenario.FlaggedPoses) Scenario.MomentumOnly
      (Scenario.Pose 1 5 1) { Scenario.Pose 0 0 1 with bDoNotUse := true }).1.2 (Or.inl rfl),
    by decide!⟩

/-! ## The forced search -/

/-- The interpolation of the current pose keeps the flag and the timer of the scheduler. -/
theorem ComputeCurrentPose_scheduler (host : FRepositoryOps) (n m : FAnimNode_MotionMatching)
    (h : ComputeCurrentPose host n = some m) :
    m.bForcePoseSearch = n.bForcePoseSearch
      ∧ m.TimeSinceMotionUpdate = n.TimeSinceMotionUpdate
      ∧ m.UpdateInterval = n.UpdateInterval := by
  simp only [ComputeCurrentPose, Option.bind_eq_bind, Option.bind_eq_some, Option.pure_def]
    at h
  obtain ⟨_, _, _, _, h⟩ := h
  split at h
  all_goals
    simp only [Option.bind_eq_bind, Option.bind_eq_some, Option.pure_def,
      Option.some.injEq] at h
    obtain ⟨_, _, _, _, h⟩ := h
    cases h
    exact ⟨rfl, rfl, rfl⟩

/-- The interpolation of the current pose from a recorded pose keeps the flag and the timer
of the scheduler. -/
theorem ComputeCurrentPose_Cached_scheduler (host : FRepositoryOps)
    (n m : FAnimNode_MotionMatching) (CachedMotionPose : FCachedMotionPose)
    (h : ComputeCurrentPose_Cached host n CachedMotionPose = some m) :
    m.bForcePoseSearch = n.bForcePoseSearch
      ∧ m.TimeSinceMotionUpdate = n.TimeSinceMotionUpdate
      ∧ m.UpdateInterval = n.UpdateInterval := by
  simp only [ComputeCurrentPose_Cached] at h
  repeat' split at h
  all_goals cases h <;> exact ⟨rfl, rfl, rfl⟩

/-- The tick of `UpdateMotionMatching`, from the node with the freshly computed pose. -/
theorem UpdateMotionMatching_eq (host : FRepositoryOps) (n : FAnimNode_MotionMatching)
    (DeltaTime : ℚ) (Context : FAnimationUpdateContext) :
    UpdateMotionMatching host n DeltaTime Context =
      match PoseComputedInTick host n DeltaTime Context with
      | none => none
      | some c =>
        match SearchDecisionState c with
        | none => none
        | some s =>
          if s.TimeSinceMotionUpdate ≥ s.UpdateInterval || s.bForcePoseSearch then
            SchedulePoseSearch host.Channel { s with TimeSinceMotionUpdate := 0 }
          else some s := by
  simp only [UpdateMotionMatching, PoseComputedInTick, TickStartState, PlaybackAboutToEnd]
  cases n.BlendChannels.getLast? with
  | none => rfl
  | some PrimaryChannel =>
    have key : ∀ o : Option FAnimNode_MotionMatching,
        (match o with
          | none => none
          | some n =>
            match (if n.PastTrajectoryMode = EPastTrajectoryMode.CopyFromCurrentPose then
                (CopyPastTrajectory n.MotionData.MotionMatchConfig.TrajectoryTimes
                  n.CurrentInterpolatedPose.Trajectory
                  (List.range n.MotionData.MotionMatchConfig.TrajectoryTimes.length)
                  n.DesiredTrajectory.TrajectoryPoints).map
                    (fun Points => { { n with
                      bForcePoseSearch :=
                        if n.CurrentInterpolatedPose.bDoNotUse then true
                        else n.bForcePoseSearch } with DesiredTrajectory := ⟨Points⟩ })
              else some { n with
                bForcePoseSearch :=
                  if n.CurrentInterpolatedPose.bDoNotUse then true
                  else n.bForcePoseSearch }) with
            | none => none
            | some n =>
              if n.TimeSinceMotionUpdate ≥ n.UpdateInterval || n.bForcePoseSearch then
                SchedulePoseSearch host.Channel { n with TimeSinceMotionUpdate := 0 }
              else some n)
        = (match o with
          | none => none
          | some c =>
            match SearchDecisionState c with
            | none => none
            | some s =>
              if s.TimeSinceMotionUpdate ≥ s.UpdateInterval || s.bForcePoseSearch then
                SchedulePoseSearch host.Channel { s with TimeSinceMotionUpdate := 0 }
              else some s) := by
      intro o
      cases o with
      | none => rfl
      | some c => rfl
    cases Context.MotionRecorderNode with
    | none => exact key _
    | some CachedMotionPose => exact key _

/-- The decision state keeps the timer and the interval of the node with the computed pose,
and its flag is that node's flag, also set for a do-not-use pose. -/
theorem SearchDecisionState_frame (c s : FAnimNode_MotionMatching)
    (h : SearchDecisionState c = some s) :
    s.bForcePoseSearch = (if c.CurrentInterpolatedPose.bDoNotUse then true
        else c.bForcePoseSearch)
      ∧ s.TimeSinceMotionUpdate = c.TimeSinceMotionUpdate
      ∧ s.UpdateInterval = c.UpdateInterval := by
  unfold SearchDecisionState at h
  rcases ite_eq_some_cases h with h | h
  · obtain ⟨Points, -, hP⟩ := Option.map_eq_some'.1 h
    rw [← hP]
    exact ⟨rfl, rfl, rfl⟩
  · cases h
    exact ⟨rfl, rfl, rfl⟩

/-- With the forced-search flag set, `SchedulePoseSearch` is the search that leaves the
tolerance test out. -/
theorem SchedulePoseSearch_forced (ops : FAnimChannelOps) (n : FAnimNode_MotionMatching)
    (hForce : n.bForcePoseSearch = true) :
    SchedulePoseSearch ops n = SearchSkippingToleranceTest ops n := by
  by_cases hBlend : TrajectoryBlendingReturns n
  · have hEntry : (SearchEntryState n).bForcePoseSearch = true :=
      (congrArg FAnimNode_MotionMatching.bForcePoseSearch
        (BlendedTrajectoryState_frame n)).trans hForce
    rw [SchedulePoseSearch_eq ops n hBlend, SearchSkippingToleranceTest,
      BlendedTrajectoryState_returns n hBlend]
    simp only [hEntry, Bool.not_true, Bool.false_and, Bool.false_eq_true, if_false,
      CostSearchAndTransition]
  · simp only [SchedulePoseSearch, SearchSkippingToleranceTest,
      BlendedTrajectoryState_stops n hBlend]

/-- C24, as stated, fails.  (1) The end-of-playback expression is evaluated in `float`
arithmetic: with a non-looping primary channel of a clip of 1 s that starts 2^-24 s into the
clip, no early blend-out and the advanced `TimeSinceMotionChosen` 1, the sum
`TimeSinceMotionChosen + StartTime` exceeds the clip length, its `float` value is 1, the pose
is not flagged do-not-use, and the tick returns with the flag not set and without a search
(the timer is left at 1/32).  (2) With the flag set, the tick that copies the past trajectory
from the current pose into an empty desired trajectory stops before `SchedulePoseSearch`. -/
theorem UpdateMotionMatching_float_end_test :
    (Scenario.RoundedEndNode.BlendChannels.getLast? = some Scenario.LateStartChannel
      ∧ Scenario.LateStartChannel.bLoop = false
      ∧ Scenario.RoundedEndNode.bBlendOutEarly = false
      ∧ (TickStartState Scenario.RoundedEndNode (1 / 32)
            Scenario.LateStartChannel).TimeSinceMotionChosen
          + Scenario.LateStartChannel.StartTime + 0 > Scenario.LateStartChannel.AnimLength
      ∧ (UpdateMotionMatching SpecRepositoryOps Scenario.RoundedEndNode (1 / 32)
          { DeltaTime := 1 / 32 }).map (fun m => (m.bForcePoseSearch,
            m.CurrentInterpolatedPose.bDoNotUse, m.TimeSinceMotionUpdate))
        = some (false, false, 1 / 32))
    ∧ (PlaybackAboutToEnd Scenario.CopyStopNode (1 / 32)
          { Scenario.DominantChannel with bLoop := false } = true
      ∧ (PoseComputedInTick SpecRepositoryOps Scenario.CopyStopNode (1 / 32)
          { DeltaTime := 1 / 32 }).isSome = true
      ∧ (UpdateMotionMatching SpecRepositoryOps Scenario.CopyStopNode (1 / 32)
          { DeltaTime := 1 / 32 }).isSome = false) := by
  refine ⟨⟨?_, ?_, ?_, ?_, ?_⟩, ⟨?_, ?_, ?_⟩⟩ <;> decide!

/-- C24 (amended): in a tick of `UpdateMotionMatching` whose pool has a primary (last) channel
and whose pose computation returns the node `c`, the tick stops when the past-trajectory copy
leaves an array, and otherwise, at the decision to search, the forced-search flag is set if
and only if playback is about to end (the primary channel does not loop and, in `float`
arithmetic, the advanced `TimeSinceMotionChosen` plus `StartTime` plus the early blend-out
time, which is `BlendTime * Weight * PlaybackRate` under `bBlendOutEarly` and 0 otherwise,
exceeds the clip length) or the freshly computed pose is flagged do-not-use.  When the flag is
set the tick is the search without the tolerance test, whatever the timer and the interval
are; when it is not set the search runs exactly if `TimeSinceMotionUpdate`, as the tick has
advanced and stored it, has reached `UpdateInterval`, and otherwise the tick ends at the
decision state. -/
theorem UpdateMotionMatching_forced_search (host : FRepositoryOps)
    (n : FAnimNode_MotionMatching) (DeltaTime : ℚ) (Context : FAnimationUpdateContext)
    (PrimaryChannel : FAnimChannelState) (c : FAnimNode_MotionMatching)
    (hLast : n.BlendChannels.getLast? = some PrimaryChannel)
    (hPose : PoseComputedInTick host n DeltaTime Context = some c) :
    (SearchDecisionState c = none → UpdateMotionMatching host n DeltaTime Context = none)
    ∧ ∀ s, SearchDecisionState c = some s →
      (s.bForcePoseSearch = true
          ↔ (PlaybackAboutToEnd n DeltaTime PrimaryChannel = true
            ∨ c.CurrentInterpolatedPose.bDoNotUse = true))
      ∧ s.TimeSinceMotionUpdate
          = RoundToFloat (n.TimeSinceMotionUpdate + RoundToFloat (DeltaTime * n.PlaybackRate))
      ∧ s.UpdateInterval = n.UpdateInterval
      ∧ (s.bForcePoseSearch = true →
          UpdateMotionMatching host n DeltaTime Context
            = SearchSkippingToleranceTest host.Channel { s with TimeSinceMotionUpdate := 0 })
      ∧ (s.bForcePoseSearch = false →
          UpdateMotionMatching host n DeltaTime Context
            = if s.TimeSinceMotionUpdate ≥ s.UpdateInterval then
                SchedulePoseSearch host.Channel { s with TimeSinceMotionUpdate := 0 }
              else some s) := by
  have hFrame : c.bForcePoseSearch
        = (if PlaybackAboutToEnd n DeltaTime PrimaryChannel then true else false)
      ∧ c.TimeSinceMotionUpdate
        = RoundToFloat (n.TimeSinceMotionUpdate + RoundToFloat (DeltaTime * n.PlaybackRate))
      ∧ c.UpdateInterval = n.UpdateInterval := by
    have hPose2 := hPose
    simp only [PoseComputedInTick, hLast] at hPose2
    cases hRec : Context.MotionRecorderNode with
    | none =>
      rw [hRec] at hPose2
      exact ComputeCurrentPose_scheduler host _ c hPose2
    | some CachedMotionPose =>
      rw [hRec] at hPose2
      exact ComputeCurrentPose_Cached_scheduler host _ c CachedMotionPose hPose2
  obtain ⟨hFlag, hTimer, hInterval⟩ := hFrame
  have hTick := UpdateMotionMatching_eq host n DeltaTime Context
  rw [hPose] at hTick
  simp only [] at hTick
  refine ⟨fun hStop => ?_, fun s hs => ?_⟩
  · rw [hTick, hStop]
  · obtain ⟨hsFlag, hsTimer, hsInterval⟩ := SearchDecisionState_frame c s hs
    rw [hs] at hTick
    simp only [] at hTick
    refine ⟨?_, by rw [hsTimer, hTimer], by rw [hsInterval, hInterval], ?_, ?_⟩
    · rw [hsFlag, hFlag]
      cases c.CurrentInterpolatedPose.bDoNotUse
        <;> cases PlaybackAboutToEnd n DeltaTime PrimaryChannel <;> simp
    · intro hSet
      rw [hTick, if_pos (by rw [hSet, Bool.or_true])]
      exact SchedulePoseSearch_forced host.Channel { s with TimeSinceMotionUpdate := 0 } hSet
    · intro hClear
      rw [hTick]
      by_cases hDue : s.TimeSinceMotionUpdate ≥ s.UpdateInterval
      · rw [if_pos hDue, if_pos (by
          rw [hClear, Bool.or_false]
          exact decide_eq_true hDue)]
      · rw [if_neg hDue, if_neg (by
          rw [hClear, Bool.or_false, decide_eq_true_eq]
          exact hDue)]

/-- C24 (amended), on a node whose only channel does not loop and was chosen 2 s ago on a clip
of 2 s: after a tick of 1/32 s playback is about to end, the advanced timer 3/64 has not
reached the interval 1/8, and the tick is the search without the tolerance test. -/
theorem UpdateMotionMatching_forced_search_witness :
    PlaybackAboutToEnd Scenario.EndingClipNode (1 / 32)
        { Scenario.DominantChannel with bLoop := false } = true
    ∧ RoundToFloat (Scenario.EndingClipNode.TimeSinceMotionUpdate
        + RoundToFloat (1 / 32 * Scenario.EndingClipNode.PlaybackRate))
      < Scenario.EndingClipNode.UpdateInterval
    ∧ UpdateMotionMatching SpecRepositoryOps Scenario.EndingClipNode (1 / 32)
        { DeltaTime := 1 / 32 }
      = SearchSkippingToleranceTest SpecRepositoryOps.Channel
          { (SearchDecisionState ((PoseComputedInTick SpecRepositoryOps Scenario.EndingClipNode
              (1 / 32) { DeltaTime := 1 / 32 }).getD Scenario.EndingClipNode)).getD
                Scenario.EndingClipNode with
            TimeSinceMotionUpdate := 0 } :=
  ⟨by decide!, by decide!,
    ((UpdateMotionMatching_forced_search SpecRepositoryOps Scenario.EndingClipNode (1 / 32)
      { DeltaTime := 1 / 32 } { Scenario.DominantChannel with bLoop := false }
      ((PoseComputedInTick SpecRepositoryOps Scenario.EndingClipNode
        (1 / 32) { DeltaTime := 1 / 32 }).getD Scenario.EndingClipNode) rfl
      (eq_some_getD_of_isSome _ _ (by decide!))).2 _
      (eq_some_getD_of_isSome _ _ (by decide!))).2.2.2.1
      (by decide!)⟩

/-! ## Pose steps, pose pair and blend factor of the interpolation -/

/-- C25: the code does not do what the claim says for the dominant channel's pose index.  At
pose interval 0.1 s and elapsed time 1/30 s the chosen-pose id advances by the floor of 1/3,
which is 0, but the dominant block, whose two branches both call `CeilToInt`, counts the
ceiling of 1/3, one pose step, and leaves pose index 1. -/
theorem ComputeDominantStep_rounds_up :
    max (1 / 100) Scenario.ShortElapsedNode.MotionData.PoseInterval = 1 / 10
    ∧ ComputeChosenPoseId SpecRepositoryOps Scenario.ShortElapsedNode = some 0
    ∧ ComputeDominantStep SpecRepositoryOps Scenario.ShortElapsedNode = some ⟨1 / 30, 1, 1⟩
    ∧ ⌊(1 / 30 : ℚ) / (1 / 10)⌋ = 0
    ∧ ⌈(1 / 30 : ℚ) / (1 / 10)⌉ = 1 := by
  refine ⟨?_, ?_, ?_, ?_, ?_⟩ <;> decide!

/-- C26: the code reads outside the pose array.  (1) With one pose, linked to itself, and no
time elapsed, the before pose is read at index `Min(0, 1 - 2) = -1` in both overloads, and
neither returns.  (2) With four poses whose links are the sentinel, the first overload reads
the before pose at index 1 and then the after pose at that pose's `NextPoseId`, which is -1,
and does not return; the second overload clamps that index and returns. -/
theorem ComputeCurrentPose_reads_out_of_range :
    (ComputeDominantStep SpecRepositoryOps Scenario.SinglePoseNode = some ⟨0, 0, 0⟩
      ∧ min (ClampInt 0 0 (Scenario.SinglePoseNode.MotionData.Poses.length : Int))
          ((Scenario.SinglePoseNode.MotionData.Poses.length : Int) - 2) = -1
      ∧ min (ClampInt 0 0 ((Scenario.SinglePoseNode.MotionData.Poses.length : Int) - 1))
          ((Scenario.SinglePoseNode.MotionData.Poses.length : Int) - 2) = -1
      ∧ TArrayAt Scenario.SinglePoseNode.MotionData.Poses (-1) = none
      ∧ (ComputeCurrentPose SpecRepositoryOps Scenario.SinglePoseNode).isSome = false
      ∧ CachedPosePair Scenario.SinglePoseNode ⟨0, 0, 0⟩ = none
      ∧ (ComputeCurrentPose_Cached SpecRepositoryOps Scenario.SinglePoseNode {}).isSome
          = false)
    ∧ (ComputeDominantStep SpecRepositoryOps Scenario.UnlinkedNode = some ⟨1 / 30, 1, 1⟩
      ∧ TArrayAt Scenario.UnlinkedNode.MotionData.Poses
          (min (ClampInt 1 0 (Scenario.UnlinkedNode.MotionData.Poses.length : Int))
            ((Scenario.UnlinkedNode.MotionData.Poses.length : Int) - 2))
        = some (Scenario.Pose 1 5 1)
      ∧ (Scenario.Pose 1 5 1).NextPoseId = -1
      ∧ TArrayAt Scenario.UnlinkedNode.MotionData.Poses (-1) = none
      ∧ (ComputeCurrentPose SpecRepositoryOps Scenario.UnlinkedNode).isSome = false
      ∧ (ComputeCurrentPose_Cached SpecRepositoryOps Scenario.UnlinkedNode {}).isSome
          = true) := by
  refine ⟨⟨?_, ?_, ?_, ?_, ?_, ?_, ?_⟩, ⟨?_, ?_, ?_, ?_, ?_, ?_⟩⟩ <;> decide!

/-- C27: the code does not reset `DominantBlendChannel` for a composite pose.  The composite
case of `JumpToPose` has no `break` and runs into the `return` of the default case: jumping
to a composite pose whose asset is present, from a state with `DominantBlendChannel = 1`,
leaves a pool of one channel and `DominantBlendChannel = 1`, and the following
`ComputeCurrentPose` reads `BlendChannels[1]` out of range.  The same jump to a sequence pose
resets it to 0. -/
theorem JumpToPose_composite_keeps_dominant :
    TArrayAt Scenario.CompositeNode.MotionData.Poses 0 = some Scenario.CompositePose
    ∧ Scenario.CompositePose.AnimType = EMotionAnimAssetType.Composite
    ∧ (JumpToPose SpecChannelOps Scenario.CompositeNode 0 0).map
        (fun m => (m.DominantBlendChannel, m.BlendChannels.length)) = some (1, 1)
    ∧ (JumpToPose SpecChannelOps Scenario.CompositeNode 0 0).map
        (fun m => TArrayAt m.BlendChannels m.DominantBlendChannel) = some none
    ∧ ((JumpToPose SpecChannelOps Scenario.CompositeNode 0 0).bind
        (ComputeCurrentPose SpecRepositoryOps)).isSome = false
    ∧ (JumpToPose SpecChannelOps
          { Scenario.DominantNode with
            DominantBlendChannel := 1
            BlendChannels := [Scenario.DominantChannel, Scenario.DominantChannel] } 0 0).map
        (fun m => (m.DominantBlendChannel, m.BlendChannels.length)) = some (0, 1) := by
  refine ⟨?_, ?_, ?_, ?_, ?_, ?_⟩ <;> decide!

/-- C29: the code leaves a negative blend factor.  At pose interval 0.1 s and elapsed time
1/30 s the dominant block counts one pose step (the ceiling of 1/3), so both overloads set
`PoseInterpolationValue` to 1/3 - 1 = -2/3.  The first overload passes that value to
`LerpPose` and extrapolates: between the before pose of velocity 5 and the after pose of
velocity 1 it leaves velocity 23/3.  The second overload clamps the value it passes on. -/
theorem ComputeCurrentPose_negative_factor :
    (ComputeCurrentPose SpecRepositoryOps Scenario.ShortElapsedNode).map
        (fun m => (m.PoseInterpolationValue, m.CurrentInterpolatedPose.LocalVelocity))
      = some (-2 / 3, ⟨23 / 3, 0, 0⟩)
    ∧ CachedPosePair Scenario.ShortElapsedNode ⟨1 / 30, 1, 1⟩
      = some ({ Scenario.Pose 1 5 1 with NextPoseId := 2, LastPoseId := 0, Time := 1 / 10 },
          { Scenario.Pose 2 1 1 with NextPoseId := 3, LastPoseId := 1, Time := 2 / 10 },
          -2 / 3)
    ∧ (ComputeCurrentPose_Cached SpecRepositoryOps Scenario.ShortElapsedNode {}).map
        (fun m => m.PoseInterpolationValue) = some (-2 / 3)
    ∧ ¬ (0 ≤ (-2 / 3 : ℚ)) := by
  refine ⟨?_, ?_, ?_, ?_⟩ <;> decide!

/-! ## The id returned by the linear scan -/

/-- Engine clamp: with `Min ≤ Max` the result is within the bounds. -/
theorem ClampFloat_mem (X Min Max : ℚ) (h : Min ≤ Max) :
    Min ≤ ClampFloat X Min Max ∧ ClampFloat X Min Max ≤ Max := by
  unfold ClampFloat
  split_ifs with h1 h2
  · exact ⟨le_refl _, h⟩
  · exact ⟨not_lt.1 h1, le_of_lt h2⟩
  · exact ⟨h, le_refl _⟩

/-- A tick of the stand-alone node in which distance matching is applied sets the time to the
clamped matching time, or, when smoothing applies, to the interpolation from the old time
towards it. -/
theorem DistanceMatching_UpdateAssetPlayer_applied (host : FDistanceMatchingHost)
    (n : FAnimNode_DistanceMatching) (Context : FAnimationUpdateContext)
    (Sequence : UAnimSequenceBase) (hSeq : n.Sequence = some Sequence)
    (hApplied : DistanceMatchingApplied host n) :
    (FAnimNode_DistanceMatching.UpdateAssetPlayer host n Context).InternalTimeAccumulator
      = if n.SmoothRate > 0 ∧ |MatchingTime n - n.InternalTimeAccumulator|
            < n.SmoothTimeThreshold then
          LerpFloat n.InternalTimeAccumulator
            (ClampFloat (MatchingTime n) 0 Sequence.GetPlayLength) n.SmoothRate
        else ClampFloat (MatchingTime n) 0 Sequence.GetPlayLength := by
  obtain ⟨hEnabled, hLimit, hNotReached, hFound⟩ := hApplied
  have hGate : (decide (host.Enabled ≠ 0)
      && (decide (n.DistanceLimit < 0) || decide (n.DesiredDistance < n.DistanceLimit)))
      = true := by
    simp only [Bool.and_eq_true, Bool.or_eq_true, decide_eq_true_eq]
    exact ⟨hEnabled, hLimit⟩
  have hReached : (n.MovementType == EDistanceMatchType.Forward
      && decide (n.DesiredDistance < n.DestinationReachedThreshold)) = false := by
    cases hb : (n.MovementType == EDistanceMatchType.Forward
      && decide (n.DesiredDistance < n.DestinationReachedThreshold))
    · rfl
    · simp only [Bool.and_eq_true, beq_iff_eq, decide_eq_true_eq] at hb
      exact absurd hb hNotReached
  unfold MatchingTime at hFound ⊢
  simp only [FAnimNode_DistanceMatching.UpdateAssetPlayer, hSeq, hGate, hReached, if_true,
    Bool.not_false, hFound, Bool.and_eq_true, decide_eq_true_eq]
  split_ifs <;> rfl

/-- Where distance matching is applied, the time stays within the clip for a smoothing rate of
at most 1, and without smoothing it is the clamped matching time. -/
theorem DistanceMatching_UpdateAssetPlayer_range (host : FDistanceMatchingHost)
    (n : FAnimNode_DistanceMatching) (Context : FAnimationUpdateContext)
    (Sequence : UAnimSequenceBase) (hSeq : n.Sequence = some Sequence)
    (hApplied : DistanceMatchingApplied host n)
    (hBefore : 0 ≤ n.InternalTimeAccumulator
      ∧ n.InternalTimeAccumulator ≤ Sequence.GetPlayLength) :
    (n.SmoothRate ≤ 1 →
      0 ≤ (FAnimNode_DistanceMatching.UpdateAssetPlayer host n
            Context).InternalTimeAccumulator
        ∧ (FAnimNode_DistanceMatching.UpdateAssetPlayer host n
            Context).InternalTimeAccumulator ≤ Sequence.GetPlayLength)
    ∧ (¬ (n.SmoothRate > 0 ∧ |MatchingTime n - n.InternalTimeAccumulator|
          < n.SmoothTimeThreshold) →
      (FAnimNode_DistanceMatching.UpdateAssetPlayer host n Context).InternalTimeAccumulator
        = ClampFloat (MatchingTime n) 0 Sequence.GetPlayLength) := by
  have hEq := DistanceMatching_UpdateAssetPlayer_applied host n Context Sequence hSeq hApplied
  have hLen : (0 : ℚ) ≤ Sequence.GetPlayLength := le_trans hBefore.1 hBefore.2
  obtain ⟨hLo, hHi⟩ := ClampFloat_mem (MatchingTime n) 0 Sequence.GetPlayLength hLen
  constructor
  · intro hRate
    rw [hEq]
    split_ifs with hSmooth
    · unfold LerpFloat
      have hPos := hSmooth.1
      constructor
      · nlinarith [hBefore.1, hBefore.2, hLo, hHi]
      · nlinarith [hBefore.1, hBefore.2, hLo, hHi]
    · exact ⟨hLo, hHi⟩
  · intro hNoSmooth
    rw [hEq, if_neg hNoSmooth]

/-- C30: the code lets the time leave the clip.  On a clip of 1 s at time 0.9 s, with
matching enabled, no distance limit, movement type None, the matching time 1 s found and
smoothing rate 2 within the smoothing threshold 0.15 s, distance matching is applied and the
tick interpolates from 0.9 s towards the clamped time 1 s at rate 2: the time after the tick
is 1.1 s, beyond the play length.  With the smoothing rate 1/2 it is 0.95 s, and without
smoothing it is the clamped matching time. -/
theorem DistanceMatching_smoothing_overshoots :
    DistanceMatchingApplied Scenario.EnabledHost (Scenario.StandAloneNode 2)
    ∧ (Scenario.StandAloneNode 2).Sequence = some ⟨1, 1⟩
    ∧ MatchingTime (Scenario.StandAloneNode 2) = 1
    ∧ (0 ≤ (Scenario.StandAloneNode 2).InternalTimeAccumulator
      ∧ (Scenario.StandAloneNode 2).InternalTimeAccumulator ≤ 1)
    ∧ (FAnimNode_DistanceMatching.UpdateAssetPlayer Scenario.EnabledHost
        (Scenario.StandAloneNode 2) { DeltaTime := 1 / 30 }).InternalTimeAccumulator = 11 / 10
    ∧ ¬ ((11 / 10 : ℚ) ≤ 1)
    ∧ (FAnimNode_DistanceMatching.UpdateAssetPlayer Scenario.EnabledHost
        (Scenario.StandAloneNode (1 / 2)) { DeltaTime := 1 / 30 }).InternalTimeAccumulator
        = 19 / 20
    ∧ (FAnimNode_DistanceMatching.UpdateAssetPlayer Scenario.EnabledHost
        (Scenario.StandAloneNode (-1)) { DeltaTime := 1 / 30 }).InternalTimeAccumulator
        = ClampFloat 1 0 1 := by
  refine ⟨?_, rfl, by decide!, by decide!, by decide!, by decide!, by decide!, by decide!⟩
  unfold DistanceMatchingApplied
  decide!

end MotionSymphony
